import Mathlib

/-!
# DSA three-wire link: embedding of `src/lib/DSA/DSA.cpp`

The library drives three lines (Data `_DSApin`, Strobe `_STBpin`, Acknowledge `_ACKpin`)
through the Arduino primitives `pinMode`, `digitalWrite`, `digitalRead` and `millis`.

The embedding is a step machine.  A program counter names the source line that is
executed next; one step executes exactly one such line against one observation of the
environment (the levels the three lines would read and the clock).  Busy-wait loops
perform one poll per step, so a loop that never exits is a run that never reaches
`Pc.done`.
-/

namespace DSA

/-! ## Data model -/

/-- Drive direction of a pin (`INPUT` / `OUTPUT` of the Arduino core). -/
inductive PinMode where
  | INPUT
  | OUTPUT
deriving DecidableEq, Repr

/-- Logical level `HIGH`. -/
abbrev HIGH : Bool := true

/-- Logical level `LOW`. -/
abbrev LOW : Bool := false

/-- Hardware state of one pin: its direction and its output latch.  The latch is the level
driven when the pin is an output and the pull-up enable when it is an input. -/
structure PinState where
  mode : PinMode
  level : Bool
deriving DecidableEq, Repr

/-- The three line identifiers bound at construction (`_DSApin`, `_STBpin`, `_ACKpin`);
they are taken to be three distinct pins. -/
inductive Pin where
  | DSApin
  | STBpin
  | ACKpin
deriving DecidableEq, Repr

/-- Parameters that the source takes from outside `DSA.cpp`: the constant `DSA_TIMEOUT`
of the header, and whether `pinMode(pin, INPUT)` also clears the output latch (as the
Arduino AVR core does since 1.0.1) or leaves it alone (older cores). Every result below
holds for both choices. -/
structure Config where
  DSA_TIMEOUT : Nat
  inputClearsLatch : Bool
deriving DecidableEq, Repr

/-- The object state of a `DSA` instance: the hardware state of its three pins and the two
timer fields `_timeoutTime` and `_timeoutStartTime`. -/
structure Link where
  dsa : PinState
  stb : PinState
  ack : PinState
  timeoutTime : Nat
  timeoutStartTime : Nat
deriving DecidableEq, Repr

/-- One observation of the environment: the level each line reads at this instant and the
value `millis()` returns. -/
structure Obs where
  data : Bool
  strobe : Bool
  ack : Bool
  now : Nat
deriving DecidableEq, Repr

/-- Where `resetPins` returns to.  `retFalse` and `retTrue` stand for the call sites that
are followed by `return false` and `return true`. -/
inductive Ret where
  | L111
  | L217
  | L268
  | retFalse
  | retTrue
deriving DecidableEq, Repr

/-- Program counter: `Lnnn` is "about to execute source line nnn"; `R307 .. R313` are the
six statements of `resetPins` with the place to return to; `done b` is "returned `b`". -/
inductive Pc where
  -- waitForMessage
  | L87 | L88 | L94
  -- receiveMessage
  | L108 | L109 | L111 | L112 | L113 | L115 | L121 | L124 | L125 | L127 | L128 | L135
  | L138 | L140 | L146 | L147 | L151 | L152 | L153 | L155 | L157 | L164 | L167 | L169
  | L175 | L176 | L178 | L179
  -- sendMessage(opcode)
  | L196
  -- sendMessage(opcode, parameter)
  | L211 | L212 | L213 | L215 | L217 | L219 | L220 | L222 | L228 | L230 | L237 | L238
  | L240 | L242 | L244 | L245 | L247 | L248 | L254 | L255 | L257 | L263 | L266 | L268
  | L270 | L272 | L273 | L279 | L283 | L284
  -- resetPins
  | R307 (k : Ret) | R308 (k : Ret) | R309 (k : Ret)
  | R311 (k : Ret) | R312 (k : Ret) | R313 (k : Ret)
  | done (result : Bool)
deriving Repr

/-- Source line a program counter stands at (0 once the call has returned). -/
def Pc.line : Pc → Nat
  | .L87 => 87 | .L88 => 88 | .L94 => 94 | .L108 => 108 | .L109 => 109
  | .L111 => 111 | .L112 => 112 | .L113 => 113 | .L115 => 115 | .L121 => 121
  | .L124 => 124 | .L125 => 125 | .L127 => 127 | .L128 => 128 | .L135 => 135
  | .L138 => 138 | .L140 => 140 | .L146 => 146 | .L147 => 147 | .L151 => 151
  | .L152 => 152 | .L153 => 153 | .L155 => 155 | .L157 => 157 | .L164 => 164
  | .L167 => 167 | .L169 => 169 | .L175 => 175 | .L176 => 176 | .L178 => 178
  | .L179 => 179 | .L196 => 196 | .L211 => 211 | .L212 => 212 | .L213 => 213
  | .L215 => 215 | .L217 => 217 | .L219 => 219 | .L220 => 220 | .L222 => 222
  | .L228 => 228 | .L230 => 230 | .L237 => 237 | .L238 => 238 | .L240 => 240
  | .L242 => 242 | .L244 => 244 | .L245 => 245 | .L247 => 247 | .L248 => 248
  | .L254 => 254 | .L255 => 255 | .L257 => 257 | .L263 => 263 | .L266 => 266
  | .L268 => 268 | .L270 => 270 | .L272 => 272 | .L273 => 273 | .L279 => 279
  | .L283 => 283 | .L284 => 284 | .R307 _ => 307 | .R308 _ => 308 | .R309 _ => 309
  | .R311 _ => 311 | .R312 _ => 312 | .R313 _ => 313 | .done _ => 0

/-- Return target carried by a program counter inside `resetPins`. -/
def Pc.ret : Pc → Ret
  | .R307 k | .R308 k | .R309 k | .R311 k | .R312 k | .R313 k => k
  | .done b => if b then .retTrue else .retFalse
  | _ => .retFalse

/-- Program counter at a source line, with return target `k` where the line is in
`resetPins`; inverse of `Pc.line` and `Pc.ret`. -/
def Pc.ofLine (line : Nat) (k : Ret) : Pc :=
  if line = 87 then .L87 else
  if line = 88 then .L88 else
  if line = 94 then .L94 else
  if line = 108 then .L108 else
  if line = 109 then .L109 else
  if line = 111 then .L111 else
  if line = 112 then .L112 else
  if line = 113 then .L113 else
  if line = 115 then .L115 else
  if line = 121 then .L121 else
  if line = 124 then .L124 else
  if line = 125 then .L125 else
  if line = 127 then .L127 else
  if line = 128 then .L128 else
  if line = 135 then .L135 else
  if line = 138 then .L138 else
  if line = 140 then .L140 else
  if line = 146 then .L146 else
  if line = 147 then .L147 else
  if line = 151 then .L151 else
  if line = 152 then .L152 else
  if line = 153 then .L153 else
  if line = 155 then .L155 else
  if line = 157 then .L157 else
  if line = 164 then .L164 else
  if line = 167 then .L167 else
  if line = 169 then .L169 else
  if line = 175 then .L175 else
  if line = 176 then .L176 else
  if line = 178 then .L178 else
  if line = 179 then .L179 else
  if line = 196 then .L196 else
  if line = 211 then .L211 else
  if line = 212 then .L212 else
  if line = 213 then .L213 else
  if line = 215 then .L215 else
  if line = 217 then .L217 else
  if line = 219 then .L219 else
  if line = 220 then .L220 else
  if line = 222 then .L222 else
  if line = 228 then .L228 else
  if line = 230 then .L230 else
  if line = 237 then .L237 else
  if line = 238 then .L238 else
  if line = 240 then .L240 else
  if line = 242 then .L242 else
  if line = 244 then .L244 else
  if line = 245 then .L245 else
  if line = 247 then .L247 else
  if line = 248 then .L248 else
  if line = 254 then .L254 else
  if line = 255 then .L255 else
  if line = 257 then .L257 else
  if line = 263 then .L263 else
  if line = 266 then .L266 else
  if line = 268 then .L268 else
  if line = 270 then .L270 else
  if line = 272 then .L272 else
  if line = 273 then .L273 else
  if line = 279 then .L279 else
  if line = 283 then .L283 else
  if line = 284 then .L284 else
  if line = 307 then .R307 k else
  if line = 308 then .R308 k else
  if line = 309 then .R309 k else
  if line = 311 then .R311 k else
  if line = 312 then .R312 k else
  if line = 313 then .R313 k else
  if k = .retTrue then .done true else .done false

instance : DecidableEq Pc := fun a b =>
  have key : ∀ pc : Pc, Pc.ofLine pc.line pc.ret = pc := by
    intro pc
    cases pc <;> first | rfl | (rename_i b; cases b <;> rfl)
  decidable_of_iff (a.line = b.line ∧ a.ret = b.ret)
    ⟨fun h => by rw [← key a, ← key b, h.1, h.2], fun h => by rw [h]; exact ⟨rfl, rfl⟩⟩

/-- Machine state: program counter, the `DSA` object, the caller's `opcode` / `parameter`
(arguments of `sendMessage`, pointees of `receiveMessage`), and the locals of the function
being executed: `int command` of `sendMessage` (`scommand`), `word command` of
`receiveMessage` (`rcommand`), `unsigned int mask` and `int i`. -/
structure State where
  pc : Pc
  link : Link
  opcode : Nat
  parameter : Nat
  scommand : Int
  rcommand : Nat
  mask : Nat
  i : Nat
deriving DecidableEq, Repr

/-! ## Arduino primitives -/

/-- Effect of `pinMode` on one pin. -/
def setMode (cfg : Config) (m : PinMode) (p : PinState) : PinState :=
  match m with
  | .OUTPUT => { p with mode := .OUTPUT }
  | .INPUT => { mode := .INPUT, level := if cfg.inputClearsLatch then LOW else p.level }

/-- Arduino `pinMode(pin, mode)`. -/
def pinMode (cfg : Config) (pin : Pin) (m : PinMode) (l : Link) : Link :=
  match pin with
  | .DSApin => { l with dsa := setMode cfg m l.dsa }
  | .STBpin => { l with stb := setMode cfg m l.stb }
  | .ACKpin => { l with ack := setMode cfg m l.ack }

/-- Arduino `digitalWrite(pin, value)`: sets the output latch of the pin. -/
def digitalWrite (pin : Pin) (v : Bool) (l : Link) : Link :=
  match pin with
  | .DSApin => { l with dsa := { l.dsa with level := v } }
  | .STBpin => { l with stb := { l.stb with level := v } }
  | .ACKpin => { l with ack := { l.ack with level := v } }

/-- Arduino `digitalRead(pin)`: the level the environment presents on the line (the code
reads a line only while its own pin on that line is an input). -/
def digitalRead (pin : Pin) (o : Obs) : Bool :=
  match pin with
  | .DSApin => o.data
  | .STBpin => o.strobe
  | .ACKpin => o.ack

/-- Arduino `millis()`: an `unsigned long`, 32 bits wide. -/
def millis (o : Obs) : Nat := o.now % 2 ^ 32

/-- Arduino `lowByte(w)`. -/
def lowByte (w : Nat) : Nat := w % 256

/-- Arduino `highByte(w)`. -/
def highByte (w : Nat) : Nat := (w / 256) % 256

/-- Value of a 16-bit two's-complement `int` after an arithmetic result `x`. -/
def wrap16 (x : Int) : Int := (x + 32768) % 65536 - 32768

/-- The test `command & mask` of `sendMessage`: the `int` is converted to `unsigned int`
before the bitwise and. -/
def andMask (command : Int) (mask : Nat) : Nat := (command % 65536).toNat &&& mask

/-! ## Helpers of `DSA.cpp` -/

/-- `DSA::startTimeoutTimer(time)`, lines 294-297. -/
def startTimeoutTimer (time : Nat) (o : Obs) (l : Link) : Link :=
  { l with timeoutTime := time, timeoutStartTime := millis o }

/-- `DSA::timeOut()`, lines 299-304: `millis() - _timeoutStartTime > _timeoutTime` in
32-bit unsigned arithmetic. -/
def timeOut (o : Obs) (l : Link) : Bool :=
  decide ((millis o + 2 ^ 32 - l.timeoutStartTime % 2 ^ 32) % 2 ^ 32 > l.timeoutTime)

/-- `DSA::resetPins()`, lines 306-314, as one function. -/
def resetPins (cfg : Config) (l : Link) : Link :=
  digitalWrite .ACKpin HIGH
    (digitalWrite .STBpin HIGH
      (digitalWrite .DSApin HIGH
        (pinMode cfg .ACKpin .INPUT
          (pinMode cfg .STBpin .INPUT
            (pinMode cfg .DSApin .INPUT l)))))

/-- `DSA::DSA(DSApin, STBpin, ACKpin)`, lines 52-59: binds the pins and calls `resetPins`. -/
def construct (cfg : Config) (l : Link) : Link := resetPins cfg l

/-- `DSA::transmitRequested()`, lines 67-70: the result and the object state afterwards. -/
def transmitRequested (o : Obs) (l : Link) : Bool × Link :=
  (!digitalRead .DSApin o, l)

/-- Polling `transmitRequested()` once per observation of a list; returns the results and
the object state after the last poll. -/
def pollRequests : List Obs → Link → List Bool × Link
  | [], l => ([], l)
  | o :: os, l =>
    let r := transmitRequested o l
    let rest := pollRequests os r.2
    (r.1 :: rest.1, rest.2)

/-! ## The step machine -/

/-- Continuation of `resetPins`. -/
def Ret.target : Ret → Pc
  | .L111 => .L111
  | .L217 => .L217
  | .L268 => .L268
  | .retFalse => .done false
  | .retTrue => .done true

/-- One poll of a busy-wait loop `while (<not ready>) { if (timeOut()) { resetPins(); return
false; } }`: leave the loop when the line condition holds, otherwise check the timer. -/
def await (o : Obs) (s : State) (ready : Bool) (next : Pc) : State :=
  if ready then { s with pc := next }
  else if timeOut o s.link then { s with pc := .R307 .retFalse }
  else s

/-- One step of the machine: the effect of the source line named by the program counter.
A busy-wait loop executes one poll per step (`await`). The headers of the two `for` loops
are split: `mask = 0x8000` (lines 125, 242) also performs `i = 0`, the test `i < 16` is the
step at lines 127 and 244, and `mask = mask >> 1` (lines 147, 263) also performs `i++`.
Calls of `resetPins` continue at `R307` with the return target; `return receiveMessage(..)`
(line 94) continues at line 108. -/
def step (cfg : Config) (o : Obs) (s : State) : State :=
  match s.pc with
  -- waitForMessage, lines 85-95
  | .L87 => { s with link := startTimeoutTimer cfg.DSA_TIMEOUT o s.link, pc := .L88 }
  | .L88 => await o s (transmitRequested o s.link).1 .L94
  | .L94 => { s with pc := .L108 }
  -- receiveMessage, lines 105-183
  | .L108 => { s with rcommand := 0, pc := .L109 }
  | .L109 => { s with link := digitalWrite .ACKpin HIGH s.link, pc := .R307 .L111 }
  | .L111 => { s with link := pinMode cfg .ACKpin .OUTPUT s.link, pc := .L112 }
  | .L112 => { s with link := startTimeoutTimer cfg.DSA_TIMEOUT o s.link, pc := .L113 }
  | .L113 => { s with link := digitalWrite .ACKpin LOW s.link, pc := .L115 }
  | .L115 => await o s (digitalRead .DSApin o) .L121
  | .L121 => { s with link := digitalWrite .ACKpin HIGH s.link, pc := .L124 }
  | .L124 => { s with link := startTimeoutTimer cfg.DSA_TIMEOUT o s.link, pc := .L125 }
  | .L125 => { s with mask := 0x8000, i := 0, pc := .L127 }
  | .L127 => if s.i < 16 then { s with pc := .L128 } else { s with pc := .L151 }
  | .L128 => await o s (!digitalRead .STBpin o) .L135
  | .L135 =>
    if digitalRead .DSApin o then { s with rcommand := s.rcommand ||| s.mask, pc := .L138 }
    else { s with pc := .L138 }
  | .L138 => { s with link := digitalWrite .ACKpin LOW s.link, pc := .L140 }
  | .L140 => await o s (digitalRead .STBpin o) .L146
  | .L146 => { s with link := digitalWrite .ACKpin HIGH s.link, pc := .L147 }
  | .L147 => { s with mask := s.mask >>> 1, i := s.i + 1, pc := .L127 }
  | .L151 => { s with link := pinMode cfg .STBpin .OUTPUT s.link, pc := .L152 }
  | .L152 => { s with link := pinMode cfg .DSApin .OUTPUT s.link, pc := .L153 }
  | .L153 => { s with link := pinMode cfg .ACKpin .INPUT s.link, pc := .L155 }
  | .L155 => { s with link := startTimeoutTimer cfg.DSA_TIMEOUT o s.link, pc := .L157 }
  | .L157 => await o s (!digitalRead .ACKpin o) .L164
  | .L164 =>
    if s.i ≠ 16 then { s with link := digitalWrite .DSApin LOW s.link, pc := .L167 }
    else { s with pc := .L167 }
  | .L167 => { s with link := digitalWrite .STBpin LOW s.link, pc := .L169 }
  | .L169 => await o s (digitalRead .ACKpin o) .L175
  | .L175 => { s with link := digitalWrite .DSApin HIGH s.link, pc := .L176 }
  | .L176 => { s with link := digitalWrite .STBpin HIGH s.link, pc := .L178 }
  | .L178 => { s with parameter := lowByte s.rcommand, pc := .L179 }
  | .L179 => { s with opcode := highByte s.rcommand, pc := .R307 .retTrue }
  -- sendMessage(opcode), lines 194-197
  | .L196 => { s with parameter := 0, pc := .L211 }
  -- sendMessage(opcode, parameter), lines 208-292
  | .L211 => { s with scommand := (s.opcode : Int), pc := .L212 }
  | .L212 => { s with scommand := wrap16 (s.scommand * 256), pc := .L213 }
  | .L213 => { s with scommand := wrap16 (s.scommand + (s.parameter : Int)), pc := .L215 }
  | .L215 => { s with link := digitalWrite .DSApin HIGH s.link, pc := .R307 .L217 }
  | .L217 => { s with link := pinMode cfg .DSApin .OUTPUT s.link, pc := .L219 }
  | .L219 => { s with link := startTimeoutTimer cfg.DSA_TIMEOUT o s.link, pc := .L220 }
  | .L220 => { s with link := digitalWrite .DSApin LOW s.link, pc := .L222 }
  | .L222 => await o s (!digitalRead .ACKpin o) .L228
  | .L228 => { s with link := digitalWrite .DSApin HIGH s.link, pc := .L230 }
  | .L230 => await o s (digitalRead .ACKpin o) .L237
  | .L237 => { s with link := digitalWrite .STBpin HIGH s.link, pc := .L238 }
  | .L238 => { s with link := pinMode cfg .STBpin .OUTPUT s.link, pc := .L240 }
  | .L240 => { s with link := startTimeoutTimer cfg.DSA_TIMEOUT o s.link, pc := .L242 }
  | .L242 => { s with mask := 0x8000, i := 0, pc := .L244 }
  | .L244 => if s.i < 16 then { s with pc := .L245 } else { s with pc := .L266 }
  | .L245 =>
    if andMask s.scommand s.mask = 0 then
      { s with link := digitalWrite .DSApin LOW s.link, pc := .L247 }
    else { s with pc := .L247 }
  | .L247 => { s with link := digitalWrite .STBpin LOW s.link, pc := .L248 }
  | .L248 => await o s (!digitalRead .ACKpin o) .L254
  | .L254 => { s with link := digitalWrite .STBpin HIGH s.link, pc := .L255 }
  | .L255 => { s with link := digitalWrite .DSApin HIGH s.link, pc := .L257 }
  | .L257 => await o s (digitalRead .ACKpin o) .L263
  | .L263 => { s with mask := s.mask >>> 1, i := s.i + 1, pc := .L244 }
  | .L266 => { s with link := digitalWrite .ACKpin HIGH s.link, pc := .R307 .L268 }
  | .L268 => { s with link := pinMode cfg .ACKpin .OUTPUT s.link, pc := .L270 }
  | .L270 => { s with link := startTimeoutTimer cfg.DSA_TIMEOUT o s.link, pc := .L272 }
  | .L272 => { s with link := digitalWrite .ACKpin LOW s.link, pc := .L273 }
  | .L273 => await o s (!digitalRead .STBpin o) .L279
  | .L279 =>
    if !digitalRead .DSApin o then { s with pc := .R307 .retFalse }
    else { s with pc := .L283 }
  | .L283 => { s with link := digitalWrite .ACKpin HIGH s.link, pc := .L284 }
  | .L284 => await o s (digitalRead .STBpin o) (.R307 .retTrue)
  -- resetPins, lines 306-314
  | .R307 k => { s with link := pinMode cfg .DSApin .INPUT s.link, pc := .R308 k }
  | .R308 k => { s with link := pinMode cfg .STBpin .INPUT s.link, pc := .R309 k }
  | .R309 k => { s with link := pinMode cfg .ACKpin .INPUT s.link, pc := .R311 k }
  | .R311 k => { s with link := digitalWrite .DSApin HIGH s.link, pc := .R312 k }
  | .R312 k => { s with link := digitalWrite .STBpin HIGH s.link, pc := .R313 k }
  | .R313 k => { s with link := digitalWrite .ACKpin HIGH s.link, pc := k.target }
  | .done _ => s

/-- State after `n` steps, the `k`-th step seeing the observation `env k`. -/
def run (cfg : Config) (env : Nat → Obs) : Nat → State → State
  | 0, s => s
  | n + 1, s => step cfg (env n) (run cfg env n s)

/-! ## Two links wired together -/

/-- Level a peer reads on a line to which this pin is connected: the driven level when the
pin is an output, `HIGH` (pull-up) when it is not driven. -/
def sense (p : PinState) : Bool :=
  if p.mode = .OUTPUT then p.level else HIGH

/-- Observation a link makes when its three lines are wired to the pins of `peer` and its
own clock reads `now`. -/
def observe (peer : Link) (now : Nat) : Obs :=
  { data := sense peer.dsa, strobe := sense peer.stb, ack := sense peer.ack, now := now }

/-- One scheduling decision for two links that run concurrently: which of them executes its
next source line, and what its clock reads. -/
structure Tick where
  sender : Bool
  now : Nat
deriving DecidableEq, Repr

/-- One step of the pair (sender, receiver): the scheduled link steps, observing the other's
pins. -/
def stepPair (cfg : Config) (t : Tick) (p : State × State) : State × State :=
  if t.sender then (step cfg (observe p.2.link t.now) p.1, p.2)
  else (p.1, step cfg (observe p.1.link t.now) p.2)

/-- Run of the pair under a schedule. -/
def runPair (cfg : Config) : List Tick → State × State → State × State
  | [], p => p
  | t :: ts, p => runPair cfg ts (stepPair cfg t p)

/-- The idle object state: all three pins inputs with pull-ups, as `resetPins` leaves them. -/
def Link.idle (l : Link) : Prop :=
  l.dsa = { mode := .INPUT, level := HIGH } ∧
  l.stb = { mode := .INPUT, level := HIGH } ∧
  l.ack = { mode := .INPUT, level := HIGH }

instance (l : Link) : Decidable l.idle := by
  unfold Link.idle; infer_instance

/-! ## Calls, events and concrete environments -/

/-- Call of `sendMessage(opcode, parameter)` from machine state `s` (whose locals hold
whatever was there before). -/
def callSendMessage (opcode parameter : Nat) (s : State) : State :=
  { s with pc := .L211, opcode := opcode, parameter := parameter }

/-- Call of `receiveMessage(&opcode, &parameter)`; `s.opcode` and `s.parameter` are the
caller's variables. -/
def callReceiveMessage (s : State) : State := { s with pc := .L108 }

/-- Call of `waitForMessage(&opcode, &parameter)`. -/
def callWaitForMessage (s : State) : State := { s with pc := .L87 }

/-- The busy-wait loops: the line a loop polls and the level that ends it. -/
def Pc.polls : Pc → Option (Pin × Bool)
  | .L88 => some (.DSApin, LOW)
  | .L115 => some (.DSApin, HIGH)
  | .L128 => some (.STBpin, LOW)
  | .L140 => some (.STBpin, HIGH)
  | .L157 => some (.ACKpin, LOW)
  | .L169 => some (.ACKpin, HIGH)
  | .L222 => some (.ACKpin, LOW)
  | .L230 => some (.ACKpin, HIGH)
  | .L248 => some (.ACKpin, LOW)
  | .L257 => some (.ACKpin, HIGH)
  | .L273 => some (.STBpin, LOW)
  | .L284 => some (.STBpin, HIGH)
  | .L87 | .L94 | .L108 | .L109 | .L111 | .L112 | .L113 | .L121 | .L124 | .L125 | .L127
  | .L135 | .L138 | .L146 | .L147 | .L151 | .L152 | .L153 | .L155 | .L164 | .L167 | .L175
  | .L176 | .L178 | .L179 | .L196 | .L211 | .L212 | .L213 | .L215 | .L217 | .L219 | .L220
  | .L228 | .L237 | .L238 | .L240 | .L242 | .L244 | .L245 | .L247 | .L254 | .L255 | .L263
  | .L266 | .L268 | .L270 | .L272 | .L279 | .L283 => none
  | .R307 _ | .R308 _ | .R309 _ | .R311 _ | .R312 _ | .R313 _ => none
  | .done _ => none

/-- A busy-wait times out at this step: the machine is in a busy-wait loop, the polled line
does not have the awaited level, and `timeOut()` answers true. -/
def timesOut (o : Obs) (s : State) : Bool :=
  match s.pc.polls with
  | some (pin, lvl) => (digitalRead pin o != lvl) && timeOut o s.link
  | none => false

/-- The sender's final check (line 279) finds Data `LOW` at this step. -/
def dataLowAtCheck (o : Obs) (s : State) : Bool :=
  decide (s.pc = .L279) && !digitalRead .DSApin o

/-- A configuration used for concrete runs. -/
def cfg0 : Config := { DSA_TIMEOUT := 250, inputClearsLatch := true }

/-- A machine state with idle pins and zeroed fields, used for concrete runs. -/
def state0 : State :=
  { pc := .done false
    link := { dsa := ⟨.INPUT, HIGH⟩, stb := ⟨.INPUT, HIGH⟩, ack := ⟨.INPUT, HIGH⟩,
              timeoutTime := 0, timeoutStartTime := 0 }
    opcode := 17, parameter := 42, scommand := 0, rcommand := 0, mask := 0, i := 0 }

/-- A machine state with all pins driven `LOW` and stale fields, used for concrete runs. -/
def state1 : State :=
  { pc := .done true
    link := { dsa := ⟨.OUTPUT, LOW⟩, stb := ⟨.OUTPUT, LOW⟩, ack := ⟨.OUTPUT, LOW⟩,
              timeoutTime := 7, timeoutStartTime := 99 }
    opcode := 17, parameter := 42, scommand := -3, rcommand := 999, mask := 5, i := 3 }

/-- An environment whose Strobe and Acknowledge lines toggle at every step while Data stays
`HIGH` and the clock stands still: every busy-wait of `sendMessage` ends within two polls. -/
def envToggle (k : Nat) : Obs :=
  { data := HIGH, strobe := k % 2 == 1, ack := k % 2 == 1, now := 0 }

/-- An environment like `envToggle` whose Data line is `HIGH` at every third step only. -/
def envData (k : Nat) : Obs :=
  { data := k % 3 == 0, strobe := k % 2 == 1, ack := k % 2 == 1, now := 0 }

/-- An environment with no peer: all lines read `HIGH`, the clock advances 100 ms per step. -/
def envSilent (k : Nat) : Obs :=
  { data := HIGH, strobe := HIGH, ack := HIGH, now := 100 * k }

/-- An environment with no peer whose clock advances 100 ms per step up to 5 s. -/
def envAbsent (k : Nat) : Obs :=
  { data := HIGH, strobe := HIGH, ack := HIGH, now := min (100 * k) 5000 }

/-- A schedule for two links: the sender executes its first 13 lines (up to its request),
then receiver and sender alternate for `n` ticks; the clocks stand still. -/
def sched0 (n : Nat) : List Tick :=
  List.replicate 13 ⟨true, 0⟩ ++ (List.range n).map (fun k => ⟨k % 2 == 0, 0⟩)

/-- Program counters of `receiveMessage` (and of `resetPins` when called from it). -/
def Pc.inReceive : Pc → Bool
  | .L108 | .L109 | .L111 | .L112 | .L113 | .L115 | .L121 | .L124 | .L125 | .L127 | .L128
  | .L135 | .L138 | .L140 | .L146 | .L147 | .L151 | .L152 | .L153 | .L155 | .L157 | .L164
  | .L167 | .L169 | .L175 | .L176 | .L178 | .L179 => true
  | .R307 k | .R308 k | .R309 k | .R311 k | .R312 k | .R313 k =>
    decide (k = .L111 ∨ k = .retFalse ∨ k = .retTrue)
  | .done _ => true
  | .L87 | .L88 | .L94 | .L196 | .L211 | .L212 | .L213 | .L215 | .L217 | .L219 | .L220
  | .L222 | .L228 | .L230 | .L237 | .L238 | .L240 | .L242 | .L244 | .L245 | .L247 | .L248
  | .L254 | .L255 | .L257 | .L263 | .L266 | .L268 | .L270 | .L272 | .L273 | .L279 | .L283
  | .L284 => false

/-- Program counters of `sendMessage(opcode, parameter)` (and of `resetPins` when called
from it). -/
def Pc.inSend : Pc → Bool
  | .L211 | .L212 | .L213 | .L215 | .L217 | .L219 | .L220 | .L222 | .L228 | .L230 | .L237
  | .L238 | .L240 | .L242 | .L244 | .L245 | .L247 | .L248 | .L254 | .L255 | .L257 | .L263
  | .L266 | .L268 | .L270 | .L272 | .L273 | .L279 | .L283 | .L284 => true
  | .R307 k | .R308 k | .R309 k | .R311 k | .R312 k | .R313 k =>
    decide (k = .L217 ∨ k = .L268 ∨ k = .retFalse ∨ k = .retTrue)
  | .done _ => true
  | .L87 | .L88 | .L94 | .L108 | .L109 | .L111 | .L112 | .L113 | .L115 | .L121 | .L124
  | .L125 | .L127 | .L128 | .L135 | .L138 | .L140 | .L146 | .L147 | .L151 | .L152 | .L153
  | .L155 | .L157 | .L164 | .L167 | .L169 | .L175 | .L176 | .L178 | .L179 | .L196 => false

/-- The failure path: `resetPins(); return false;` and the return itself. -/
def Pc.failing : Pc → Bool
  | .R307 k | .R308 k | .R309 k | .R311 k | .R312 k | .R313 k => decide (k = .retFalse)
  | .done b => !b
  | .L87 | .L88 | .L94 | .L108 | .L109 | .L111 | .L112 | .L113 | .L115 | .L121 | .L124
  | .L125 | .L127 | .L128 | .L135 | .L138 | .L140 | .L146 | .L147 | .L151 | .L152 | .L153
  | .L155 | .L157 | .L164 | .L167 | .L169 | .L175 | .L176 | .L178 | .L179 | .L196 | .L211
  | .L212 | .L213 | .L215 | .L217 | .L219 | .L220 | .L222 | .L228 | .L230 | .L237 | .L238
  | .L240 | .L242 | .L244 | .L245 | .L247 | .L248 | .L254 | .L255 | .L257 | .L263 | .L266
  | .L268 | .L270 | .L272 | .L273 | .L279 | .L283 | .L284 => false

/-- The tail of a successful call: the final `resetPins(); return true;`. -/
def Pc.succeeding : Pc → Bool
  | .R307 k | .R308 k | .R309 k | .R311 k | .R312 k | .R313 k => decide (k = .retTrue)
  | .done b => b
  | .L87 | .L88 | .L94 | .L108 | .L109 | .L111 | .L112 | .L113 | .L115 | .L121 | .L124
  | .L125 | .L127 | .L128 | .L135 | .L138 | .L140 | .L146 | .L147 | .L151 | .L152 | .L153
  | .L155 | .L157 | .L164 | .L167 | .L169 | .L175 | .L176 | .L178 | .L179 | .L196 | .L211
  | .L212 | .L213 | .L215 | .L217 | .L219 | .L220 | .L222 | .L228 | .L230 | .L237 | .L238
  | .L240 | .L242 | .L244 | .L245 | .L247 | .L248 | .L254 | .L255 | .L257 | .L263 | .L266
  | .L268 | .L270 | .L272 | .L273 | .L279 | .L283 | .L284 => false

/-! ## Invariants and trace functions -/

/-- Progress of `resetPins`: what the statements already executed have established. -/
def ResetInv (s : State) : Prop :=
  match s.pc with
  | .R308 _ => s.link.dsa.mode = .INPUT
  | .R309 _ => s.link.dsa.mode = .INPUT ∧ s.link.stb.mode = .INPUT
  | .R311 _ => s.link.dsa.mode = .INPUT ∧ s.link.stb.mode = .INPUT ∧ s.link.ack.mode = .INPUT
  | .R312 _ => s.link.dsa = ⟨.INPUT, HIGH⟩ ∧ s.link.stb.mode = .INPUT ∧ s.link.ack.mode = .INPUT
  | .R313 _ => s.link.dsa = ⟨.INPUT, HIGH⟩ ∧ s.link.stb = ⟨.INPUT, HIGH⟩ ∧ s.link.ack.mode = .INPUT
  | .done _ => s.link.idle
  | _ => True

/-- Program counters at which `receiveMessage` has started to write its outputs: line 179
(line 178 has been executed) and the successful tail. -/
def Pc.delivering (pc : Pc) : Bool := decide (pc = .L179) || pc.succeeding

/-- Outputs of `receiveMessage` are untouched until delivery: the machine is inside
`receiveMessage`, and unless it is delivering, the caller's variables hold `op` and `pa`. -/
def RecvOutInv (op pa : Nat) (s : State) : Prop :=
  s.pc.inReceive = true ∧ (s.pc.delivering = false → s.opcode = op ∧ s.parameter = pa)

/-- Sequence of the values `f` reports along the first `n` steps of a run. -/
def collect {α : Type} (f : Obs → State → Option α) (cfg : Config) (env : Nat → Obs) :
    Nat → State → List α
  | 0, _ => []
  | n + 1, s => collect f cfg env n s ++ (f (env n) (run cfg env n s)).toList

/-- A busy-wait completes at this step: the machine is in a busy-wait loop and the polled
line has the awaited level. -/
def completes (o : Obs) (s : State) : Bool :=
  match s.pc.polls with
  | some (pin, lvl) => digitalRead pin o == lvl
  | none => false

/-- Number of busy-waits completed during the first `n` steps of a run. -/
def completedWaits (cfg : Config) (env : Nat → Obs) (n : Nat) (s : State) : Nat :=
  (collect (fun o s => if completes o s then some () else none) cfg env n s).length

/-- Number of busy-waits `sendMessage` has completed when it stands at `pc` with loop
counter `i` (outside the failure path): 2 in the synchronization phase, 2 per bit, 2 in the
acknowledge phase. -/
def Pc.sendWaitsDone (pc : Pc) (i : Nat) : Nat :=
  match pc with
  | .L228 | .L230 => 1
  | .L237 | .L238 | .L240 | .L242 => 2
  | .L244 | .L245 | .L247 | .L248 => 2 + 2 * i
  | .L254 | .L255 | .L257 => 3 + 2 * i
  | .L263 => 4 + 2 * i
  | .L266 | .L268 | .L270 | .L272 | .L273 => 34
  | .L279 | .L283 | .L284 => 35
  | .R307 k | .R308 k | .R309 k | .R311 k | .R312 k | .R313 k => if k = .retTrue then 36 else if k = .L268 then 34 else 0
  | .done b => if b then 36 else 0
  | .L87 | .L88 | .L94 | .L108 | .L109 | .L111 | .L112 | .L113 | .L115 | .L121 | .L124 | .L125
  | .L127 | .L128 | .L135 | .L138 | .L140 | .L146 | .L147 | .L151 | .L152 | .L153 | .L155
  | .L157 | .L164 | .L167 | .L169 | .L175 | .L176 | .L178 | .L179 | .L196 | .L211 | .L212
  | .L213 | .L215 | .L217 | .L219 | .L220 | .L222 => 0

/-- Range of the loop counter of `sendMessage` at each program counter. -/
def Pc.sendLoopBound (pc : Pc) (i : Nat) : Prop :=
  match pc with
  | .L244 => i ≤ 16
  | .L245 | .L247 | .L248 | .L254 | .L255 | .L257 | .L263 => i < 16
  | .L87 | .L88 | .L94 | .L108 | .L109 | .L111 | .L112 | .L113 | .L115 | .L121 | .L124 | .L125
  | .L127 | .L128 | .L135 | .L138 | .L140 | .L146 | .L147 | .L151 | .L152 | .L153 | .L155
  | .L157 | .L164 | .L167 | .L169 | .L175 | .L176 | .L178 | .L179 | .L196 | .L211 | .L212
  | .L213 | .L215 | .L217 | .L219 | .L220 | .L222 | .L228 | .L230 | .L237 | .L238 | .L240
  | .L242 | .L266 | .L268 | .L270 | .L272 | .L273 | .L279 | .L283 | .L284 => True
  | .R307 _ | .R308 _ | .R309 _ | .R311 _ | .R312 _ | .R313 _ => True
  | .done _ => True

/-- Bookkeeping invariant of `sendMessage`: `t` busy-waits have been completed. -/
def SendWaitInv (s : State) (t : Nat) : Prop :=
  s.pc.inSend = true ∧ (s.pc.failing = true → t < 36) ∧
  (s.pc.failing = false → t = s.pc.sendWaitsDone s.i ∧ s.pc.sendLoopBound s.i)

/-- Program counters of `sendMessage` after the final check of Data, line 279. -/
def Pc.afterCheck : Pc → Bool
  | .L283 | .L284 => true
  | .R307 k | .R308 k | .R309 k | .R311 k | .R312 k | .R313 k => decide (k = .retTrue)
  | .done b => b
  | .L87 | .L88 | .L94 | .L108 | .L109 | .L111 | .L112 | .L113 | .L115 | .L121 | .L124 | .L125
  | .L127 | .L128 | .L135 | .L138 | .L140 | .L146 | .L147 | .L151 | .L152 | .L153 | .L155
  | .L157 | .L164 | .L167 | .L169 | .L175 | .L176 | .L178 | .L179 | .L196 | .L211 | .L212
  | .L213 | .L215 | .L217 | .L219 | .L220 | .L222 | .L228 | .L230 | .L237 | .L238 | .L240
  | .L242 | .L244 | .L245 | .L247 | .L248 | .L254 | .L255 | .L257 | .L263 | .L266 | .L268
  | .L270 | .L272 | .L273 | .L279 => false

/-- The 16 bits of a word, most significant first. -/
def wordBits (w : Nat) : List Bool := (List.range 16).map (fun k => w.testBit (15 - k))

/-- State of the Data pin at each step of the first `n` that drives Strobe `LOW` in the
data phase of `sendMessage` (source line 247). -/
def strobedData (cfg : Config) (env : Nat → Obs) (n : Nat) (s : State) : List PinState :=
  collect (fun _ s => if s.pc = .L247 then some s.link.dsa else none) cfg env n s

/-- What `sendMessage` must present on Data for the word `w`: an output driving each bit in
turn, most significant first. -/
def sendLevels (w : Nat) : List PinState := (wordBits w).map (fun b => ⟨.OUTPUT, b⟩)

/-- Number of times `sendMessage` has driven Strobe `LOW` when it stands at `pc` with loop
counter `i` (outside the failure path). -/
def Pc.sendSent (pc : Pc) (i : Nat) : Nat :=
  match pc with
  | .L244 | .L245 | .L247 => i
  | .L248 | .L254 | .L255 | .L257 | .L263 => i + 1
  | .L266 | .L268 | .L270 | .L272 | .L273 | .L279 | .L283 | .L284 => 16
  | .R307 k | .R308 k | .R309 k | .R311 k | .R312 k | .R313 k => if k = .L268 ∨ k = .retTrue then 16 else 0
  | .done b => if b then 16 else 0
  | .L87 | .L88 | .L94 | .L108 | .L109 | .L111 | .L112 | .L113 | .L115 | .L121 | .L124 | .L125
  | .L127 | .L128 | .L135 | .L138 | .L140 | .L146 | .L147 | .L151 | .L152 | .L153 | .L155
  | .L157 | .L164 | .L167 | .L169 | .L175 | .L176 | .L178 | .L179 | .L196 | .L211 | .L212
  | .L213 | .L215 | .L217 | .L219 | .L220 | .L222 | .L228 | .L230 | .L237 | .L238 | .L240
  | .L242 => 0

/-- Data-phase invariant of `sendMessage(op, pa)`: the command word, the mask, the loop
counter and the Data pin at each program counter. -/
def SendDataInv (op pa : Nat) (s : State) : Prop :=
  match s.pc with
  | .L211 => s.opcode = op ∧ s.parameter = pa
  | .L212 => s.scommand = (op : Int) ∧ s.parameter = pa
  | .L213 => s.scommand = wrap16 ((op : Int) * 256) ∧ s.parameter = pa
  | .L215 | .L217 => (s.scommand % 65536).toNat = (op * 256 + pa) % 65536
  | .L219 | .L220 | .L222 | .L228 => (s.scommand % 65536).toNat = (op * 256 + pa) % 65536 ∧ s.link.dsa.mode = .OUTPUT
  | .L230 | .L237 | .L238 | .L240 | .L242 => (s.scommand % 65536).toNat = (op * 256 + pa) % 65536 ∧ s.link.dsa = ⟨.OUTPUT, HIGH⟩
  | .L244 => (s.scommand % 65536).toNat = (op * 256 + pa) % 65536 ∧ s.i ≤ 16 ∧ s.mask = 0x8000 >>> s.i ∧ s.link.dsa = ⟨.OUTPUT, HIGH⟩
  | .L245 | .L257 | .L263 => (s.scommand % 65536).toNat = (op * 256 + pa) % 65536 ∧ s.i < 16 ∧ s.mask = 0x8000 >>> s.i ∧ s.link.dsa = ⟨.OUTPUT, HIGH⟩
  | .L247 => (s.scommand % 65536).toNat = (op * 256 + pa) % 65536 ∧ s.i < 16 ∧ s.mask = 0x8000 >>> s.i ∧
      s.link.dsa = ⟨.OUTPUT, (op * 256 + pa).testBit (15 - s.i)⟩
  | .L248 | .L254 | .L255 => (s.scommand % 65536).toNat = (op * 256 + pa) % 65536 ∧ s.i < 16 ∧ s.mask = 0x8000 >>> s.i ∧ s.link.dsa.mode = .OUTPUT
  | .R307 k | .R308 k | .R309 k | .R311 k | .R312 k | .R313 k => k = .L217 → (s.scommand % 65536).toNat = (op * 256 + pa) % 65536
  | .L87 | .L88 | .L94 | .L108 | .L109 | .L111 | .L112 | .L113 | .L115 | .L121 | .L124 | .L125
  | .L127 | .L128 | .L135 | .L138 | .L140 | .L146 | .L147 | .L151 | .L152 | .L153 | .L155
  | .L157 | .L164 | .L167 | .L169 | .L175 | .L176 | .L178 | .L179 | .L196 | .L266 | .L268
  | .L270 | .L272 | .L273 | .L279 | .L283 | .L284 => True
  | .done _ => True

/-- Trace invariant of `sendMessage(op, pa)`: `t` lists the Data pin at the Strobe pulses
made so far. -/
def SendBitsInv (op pa : Nat) (s : State) (t : List PinState) : Prop :=
  s.pc.inSend = true ∧ SendDataInv op pa s ∧
  (s.pc.failing = true → ∃ j, t = (sendLevels (op * 256 + pa)).take j) ∧
  (s.pc.failing = false → t = (sendLevels (op * 256 + pa)).take (s.pc.sendSent s.i))

/-- Data levels `receiveMessage` samples (source line 135) during the first `n` steps. -/
def sampledData (cfg : Config) (env : Nat → Obs) (n : Nat) (s : State) : List Bool :=
  collect (fun o s => if s.pc = .L135 then some (digitalRead .DSApin o) else none) cfg env n s

/-- The number whose binary digits, most significant first, are `bs` (`HIGH` = 1). -/
def ofBits (bs : List Bool) : Nat := bs.foldl (fun acc b => 2 * acc + b.toNat) 0

/-- Data-phase invariant of `receiveMessage`: `t` lists the levels sampled so far, and the
accumulated `command` holds them in its top bits. -/
def RecvBitsInv (s : State) (t : List Bool) : Prop :=
  s.pc.inReceive = true ∧
  match s.pc with
  | .L109 | .L111 | .L112 | .L113 | .L115 | .L121 | .L124 | .L125 => s.rcommand = 0 ∧ t = []
  | .L127 => s.i ≤ 16 ∧ s.mask = 0x8000 >>> s.i ∧ t.length = s.i ∧ s.rcommand = ofBits t * 2 ^ (16 - s.i)
  | .L128 | .L135 => s.i < 16 ∧ s.mask = 0x8000 >>> s.i ∧ t.length = s.i ∧ s.rcommand = ofBits t * 2 ^ (16 - s.i)
  | .L138 | .L140 | .L146 | .L147 => s.i < 16 ∧ s.mask = 0x8000 >>> s.i ∧ t.length = s.i + 1 ∧
      s.rcommand = ofBits t * 2 ^ (15 - s.i)
  | .L151 | .L152 | .L153 | .L155 | .L157 | .L164 | .L167 | .L169 | .L175 | .L176 | .L178 => t.length = 16 ∧ s.rcommand = ofBits t
  | .L179 => t.length = 16 ∧ s.rcommand = ofBits t ∧ s.parameter = lowByte (ofBits t)
  | .L108 => t = []
  | .R307 k | .R308 k | .R309 k | .R311 k | .R312 k | .R313 k => (k = .L111 → s.rcommand = 0 ∧ t = []) ∧
      (k = .retTrue → t.length = 16 ∧ s.parameter = lowByte (ofBits t) ∧ s.opcode = highByte (ofBits t))
  | .done b => (b = true → t.length = 16 ∧ s.parameter = lowByte (ofBits t) ∧ s.opcode = highByte (ofBits t))
  | .L87 | .L88 | .L94 | .L196 | .L211 | .L212 | .L213 | .L215 | .L217 | .L219 | .L220 | .L222
  | .L228 | .L230 | .L237 | .L238 | .L240 | .L242 | .L244 | .L245 | .L247 | .L248 | .L254
  | .L255 | .L257 | .L263 | .L266 | .L268 | .L270 | .L272 | .L273 | .L279 | .L283 | .L284 => True

/-- Program counters of the synchronization phase of `sendMessage` up to its first
busy-wait, together with the failure path. -/
def Pc.sendSync : Pc → Bool
  | .L211 | .L212 | .L213 | .L215 | .L217 | .L219 | .L220 | .L222 => true
  | .R307 k | .R308 k | .R309 k | .R311 k | .R312 k | .R313 k => decide (k = .L217 ∨ k = .retFalse)
  | .done b => !b
  | .L87 | .L88 | .L94 | .L108 | .L109 | .L111 | .L112 | .L113 | .L115 | .L121 | .L124 | .L125
  | .L127 | .L128 | .L135 | .L138 | .L140 | .L146 | .L147 | .L151 | .L152 | .L153 | .L155
  | .L157 | .L164 | .L167 | .L169 | .L175 | .L176 | .L178 | .L179 | .L196 | .L228 | .L230
  | .L237 | .L238 | .L240 | .L242 | .L244 | .L245 | .L247 | .L248 | .L254 | .L255 | .L257
  | .L263 | .L266 | .L268 | .L270 | .L272 | .L273 | .L279 | .L283 | .L284 => false

/-- Program counters of the polling loop of `waitForMessage` and of its failure path. -/
def Pc.waitPoll : Pc → Bool
  | .L87 | .L88 => true
  | .R307 k | .R308 k | .R309 k | .R311 k | .R312 k | .R313 k => decide (k = .retFalse)
  | .done b => !b
  | .L94 | .L108 | .L109 | .L111 | .L112 | .L113 | .L115 | .L121 | .L124 | .L125 | .L127
  | .L128 | .L135 | .L138 | .L140 | .L146 | .L147 | .L151 | .L152 | .L153 | .L155 | .L157
  | .L164 | .L167 | .L169 | .L175 | .L176 | .L178 | .L179 | .L196 | .L211 | .L212 | .L213
  | .L215 | .L217 | .L219 | .L220 | .L222 | .L228 | .L230 | .L237 | .L238 | .L240 | .L242
  | .L244 | .L245 | .L247 | .L248 | .L254 | .L255 | .L257 | .L263 | .L266 | .L268 | .L270
  | .L272 | .L273 | .L279 | .L283 | .L284 => false

/-- No pin that was an input in `l0` is an output in `l`. -/
def noNewOutput (l0 l : Link) : Prop :=
  (l.dsa.mode = .OUTPUT → l0.dsa.mode = .OUTPUT) ∧
  (l.stb.mode = .OUTPUT → l0.stb.mode = .OUTPUT) ∧
  (l.ack.mode = .OUTPUT → l0.ack.mode = .OUTPUT)

/-- Invariant of the polling loop of `waitForMessage` called from `s0`. -/
def WaitPollInv (cfg : Config) (o0 : Obs) (s0 : State) (s : State) : Prop :=
  s.pc.waitPoll = true ∧ s.pc ≠ .L87 ∧ s.opcode = s0.opcode ∧ s.parameter = s0.parameter ∧
  noNewOutput s0.link s.link ∧
  (s.pc = .L88 →
    s = { s0 with pc := .L88, link := startTimeoutTimer cfg.DSA_TIMEOUT o0 s0.link })

/-- Program counters at which the timer fields have been set by the current call. -/
def Pc.timerLive : Pc → Bool
  | .L88 | .L94 | .L113 | .L115 | .L121 | .L124 | .L125 | .L127 | .L128 | .L135 | .L138
  | .L140 | .L146 | .L147 | .L151 | .L152 | .L153 | .L155 | .L157 | .L164 | .L167 | .L169
  | .L175 | .L176 | .L178 | .L179 | .L220 | .L222 | .L228 | .L230 | .L237 | .L238 | .L240
  | .L242 | .L244 | .L245 | .L247 | .L248 | .L254 | .L255 | .L257 | .L263 | .L266 | .L268
  | .L270 | .L272 | .L273 | .L279 | .L283 | .L284 => true
  | .R307 k | .R308 k | .R309 k | .R311 k | .R312 k | .R313 k => decide (k = .L268 ∨ k = .retFalse ∨ k = .retTrue)
  | .done _ => true
  | .L87 | .L108 | .L109 | .L111 | .L112 | .L196 | .L211 | .L212 | .L213 | .L215 | .L217
  | .L219 => false

/-- Program counters at which `int command` of `sendMessage` has been initialised and may
still be read. -/
def Pc.scommandLive : Pc → Bool
  | .L212 | .L213 | .L215 | .L217 | .L219 | .L220 | .L222 | .L228 | .L230 | .L237 | .L238
  | .L240 | .L242 | .L244 | .L245 | .L247 | .L248 | .L254 | .L255 | .L257 | .L263 => true
  | .R307 k | .R308 k | .R309 k | .R311 k | .R312 k | .R313 k => decide (k = .L217)
  | .done _ => false
  | .L87 | .L88 | .L94 | .L108 | .L109 | .L111 | .L112 | .L113 | .L115 | .L121 | .L124 | .L125
  | .L127 | .L128 | .L135 | .L138 | .L140 | .L146 | .L147 | .L151 | .L152 | .L153 | .L155
  | .L157 | .L164 | .L167 | .L169 | .L175 | .L176 | .L178 | .L179 | .L196 | .L211 | .L266
  | .L268 | .L270 | .L272 | .L273 | .L279 | .L283 | .L284 => false

/-- Program counters at which `word command` of `receiveMessage` has been initialised. -/
def Pc.rcommandLive : Pc → Bool
  | .L109 | .L111 | .L112 | .L113 | .L115 | .L121 | .L124 | .L125 | .L127 | .L128 | .L135
  | .L138 | .L140 | .L146 | .L147 | .L151 | .L152 | .L153 | .L155 | .L157 | .L164 | .L167
  | .L169 | .L175 | .L176 | .L178 | .L179 => true
  | .R307 k | .R308 k | .R309 k | .R311 k | .R312 k | .R313 k => decide (k = .L111)
  | .done _ => false
  | .L87 | .L88 | .L94 | .L108 | .L196 | .L211 | .L212 | .L213 | .L215 | .L217 | .L219 | .L220
  | .L222 | .L228 | .L230 | .L237 | .L238 | .L240 | .L242 | .L244 | .L245 | .L247 | .L248
  | .L254 | .L255 | .L257 | .L263 | .L266 | .L268 | .L270 | .L272 | .L273 | .L279 | .L283
  | .L284 => false

/-- Program counters at which `mask` and `i` have been initialised and may still be read. -/
def Pc.loopLive : Pc → Bool
  | .L127 | .L128 | .L135 | .L138 | .L140 | .L146 | .L147 | .L151 | .L152 | .L153 | .L155
  | .L157 | .L164 | .L244 | .L245 | .L247 | .L248 | .L254 | .L255 | .L257 | .L263 => true
  | .L87 | .L88 | .L94 | .L108 | .L109 | .L111 | .L112 | .L113 | .L115 | .L121 | .L124 | .L125
  | .L167 | .L169 | .L175 | .L176 | .L178 | .L179 | .L196 | .L211 | .L212 | .L213 | .L215
  | .L217 | .L219 | .L220 | .L222 | .L228 | .L230 | .L237 | .L238 | .L240 | .L242 | .L266
  | .L268 | .L270 | .L272 | .L273 | .L279 | .L283 | .L284 => false
  | .R307 _ | .R308 _ | .R309 _ | .R311 _ | .R312 _ | .R313 _ => false
  | .done _ => false

/-- Two machine states agree on everything the rest of the call can depend on: program
counter, the caller's variables, and those fields and locals that the call has already
initialised. Pin directions, latches and stale fields may differ. -/
def Agree (s t : State) : Prop :=
  s.pc = t.pc ∧ s.opcode = t.opcode ∧ s.parameter = t.parameter ∧
  (s.pc.timerLive = true → s.link.timeoutTime = t.link.timeoutTime ∧
    s.link.timeoutStartTime = t.link.timeoutStartTime) ∧
  (s.pc.scommandLive = true → s.scommand = t.scommand) ∧
  (s.pc.rcommandLive = true → s.rcommand = t.rcommand) ∧
  (s.pc.loopLive = true → s.mask = t.mask ∧ s.i = t.i)

/-- Two executions have the same outcome so far: same program counter (hence the same
result once returned), same values in the caller's variables, and the same object state
once returned. -/
def SameOutcome (a b : State) : Prop :=
  a.pc = b.pc ∧ a.opcode = b.opcode ∧ a.parameter = b.parameter ∧
  ∀ r, a.pc = .done r → a.link = b.link

/-- The link drives no line `LOW`: a peer reads `HIGH` on all three lines. -/
def Link.quiet (l : Link) : Prop :=
  sense l.dsa = HIGH ∧ sense l.stb = HIGH ∧ sense l.ack = HIGH

/-- Pin states of the sender at each program counter of `sendMessage`, for the word `w`,
when the call started from a link that drove no line `LOW`. -/
def SendPinsInv (w : Nat) (s : State) : Prop :=
  match s.pc with
  | .L211 | .L212 | .L213 | .L215 => s.link.quiet
  | .L217 | .L268 => s.link.dsa = ⟨.INPUT, HIGH⟩ ∧ s.link.stb = ⟨.INPUT, HIGH⟩ ∧ s.link.ack = ⟨.INPUT, HIGH⟩
  | .L219 | .L220 => s.link.dsa = ⟨.OUTPUT, HIGH⟩ ∧ s.link.stb = ⟨.INPUT, HIGH⟩ ∧ s.link.ack = ⟨.INPUT, HIGH⟩
  | .L222 | .L228 => s.link.dsa = ⟨.OUTPUT, LOW⟩ ∧ s.link.stb = ⟨.INPUT, HIGH⟩ ∧ s.link.ack = ⟨.INPUT, HIGH⟩
  | .L230 | .L237 | .L238 => s.link.dsa = ⟨.OUTPUT, HIGH⟩ ∧ s.link.stb = ⟨.INPUT, HIGH⟩ ∧ s.link.ack = ⟨.INPUT, HIGH⟩
  | .L240 | .L242 | .L244 | .L245 => s.link.dsa = ⟨.OUTPUT, HIGH⟩ ∧ s.link.stb = ⟨.OUTPUT, HIGH⟩ ∧ s.link.ack = ⟨.INPUT, HIGH⟩
  | .L247 => s.link.dsa = ⟨.OUTPUT, w.testBit (15 - s.i)⟩ ∧ s.link.stb = ⟨.OUTPUT, HIGH⟩ ∧ s.link.ack = ⟨.INPUT, HIGH⟩
  | .L248 | .L254 => s.link.dsa = ⟨.OUTPUT, w.testBit (15 - s.i)⟩ ∧ s.link.stb = ⟨.OUTPUT, LOW⟩ ∧ s.link.ack = ⟨.INPUT, HIGH⟩
  | .L255 => s.link.dsa = ⟨.OUTPUT, w.testBit (15 - s.i)⟩ ∧ s.link.stb = ⟨.OUTPUT, HIGH⟩ ∧ s.link.ack = ⟨.INPUT, HIGH⟩
  | .L257 | .L263 | .L266 => s.link.dsa = ⟨.OUTPUT, HIGH⟩ ∧ s.link.stb = ⟨.OUTPUT, HIGH⟩ ∧ s.link.ack = ⟨.INPUT, HIGH⟩
  | .L270 | .L272 | .L284 => s.link.dsa = ⟨.INPUT, HIGH⟩ ∧ s.link.stb = ⟨.INPUT, HIGH⟩ ∧ s.link.ack = ⟨.OUTPUT, HIGH⟩
  | .L273 | .L279 | .L283 => s.link.dsa = ⟨.INPUT, HIGH⟩ ∧ s.link.stb = ⟨.INPUT, HIGH⟩ ∧ s.link.ack = ⟨.OUTPUT, LOW⟩
  | .R307 k | .R308 k | .R309 k | .R311 k | .R312 k | .R313 k => k ≠ .retFalse → s.link.quiet
  | .done b => b = true → s.link.quiet
  | .L87 | .L88 | .L94 | .L108 | .L109 | .L111 | .L112 | .L113 | .L115 | .L121 | .L124 | .L125
  | .L127 | .L128 | .L135 | .L138 | .L140 | .L146 | .L147 | .L151 | .L152 | .L153 | .L155
  | .L157 | .L164 | .L167 | .L169 | .L175 | .L176 | .L178 | .L179 | .L196 => True

/-- Pin states of the receiver at each program counter of `receiveMessage`, and the range
of its loop counter, when the call started from a link that drove no line `LOW`. -/
def RecvPinsInv (cfg : Config) (s : State) : Prop :=
  match s.pc with
  | .L108 | .L109 => s.link.quiet
  | .L111 => s.link.dsa = ⟨.INPUT, HIGH⟩ ∧ s.link.stb = ⟨.INPUT, HIGH⟩ ∧ s.link.ack = ⟨.INPUT, HIGH⟩
  | .L112 | .L113 | .L124 | .L125 => s.link.dsa = ⟨.INPUT, HIGH⟩ ∧ s.link.stb = ⟨.INPUT, HIGH⟩ ∧ s.link.ack = ⟨.OUTPUT, HIGH⟩
  | .L115 | .L121 => s.link.dsa = ⟨.INPUT, HIGH⟩ ∧ s.link.stb = ⟨.INPUT, HIGH⟩ ∧ s.link.ack = ⟨.OUTPUT, LOW⟩
  | .L127 => s.link.dsa = ⟨.INPUT, HIGH⟩ ∧ s.link.stb = ⟨.INPUT, HIGH⟩ ∧ s.link.ack = ⟨.OUTPUT, HIGH⟩ ∧ s.i ≤ 16
  | .L128 | .L135 | .L138 | .L147 => s.link.dsa = ⟨.INPUT, HIGH⟩ ∧ s.link.stb = ⟨.INPUT, HIGH⟩ ∧ s.link.ack = ⟨.OUTPUT, HIGH⟩ ∧ s.i < 16
  | .L140 | .L146 => s.link.dsa = ⟨.INPUT, HIGH⟩ ∧ s.link.stb = ⟨.INPUT, HIGH⟩ ∧ s.link.ack = ⟨.OUTPUT, LOW⟩ ∧ s.i < 16
  | .L151 => s.link.dsa = ⟨.INPUT, HIGH⟩ ∧ s.link.stb = ⟨.INPUT, HIGH⟩ ∧ s.link.ack = ⟨.OUTPUT, HIGH⟩ ∧ s.i = 16
  | .L152 => s.link.dsa = ⟨.INPUT, HIGH⟩ ∧ s.link.stb = ⟨.OUTPUT, HIGH⟩ ∧ s.link.ack = ⟨.OUTPUT, HIGH⟩ ∧ s.i = 16
  | .L153 => s.link.dsa = ⟨.OUTPUT, HIGH⟩ ∧ s.link.stb = ⟨.OUTPUT, HIGH⟩ ∧ s.link.ack = ⟨.OUTPUT, HIGH⟩ ∧ s.i = 16
  | .L155 | .L157 | .L164 => s.link.dsa = ⟨.OUTPUT, HIGH⟩ ∧ s.link.stb = ⟨.OUTPUT, HIGH⟩ ∧ s.link.ack = setMode cfg .INPUT ⟨.OUTPUT, HIGH⟩ ∧ s.i = 16
  | .L167 | .L178 | .L179 => s.link.dsa = ⟨.OUTPUT, HIGH⟩ ∧ s.link.stb = ⟨.OUTPUT, HIGH⟩ ∧ s.link.ack = setMode cfg .INPUT ⟨.OUTPUT, HIGH⟩
  | .L169 | .L175 | .L176 => s.link.dsa = ⟨.OUTPUT, HIGH⟩ ∧ s.link.stb = ⟨.OUTPUT, LOW⟩ ∧ s.link.ack = setMode cfg .INPUT ⟨.OUTPUT, HIGH⟩
  | .R307 k | .R308 k | .R309 k | .R311 k | .R312 k | .R313 k => k ≠ .retFalse → s.link.quiet
  | .done b => b = true → s.link.quiet
  | .L87 | .L88 | .L94 | .L196 | .L211 | .L212 | .L213 | .L215 | .L217 | .L219 | .L220 | .L222
  | .L228 | .L230 | .L237 | .L238 | .L240 | .L242 | .L244 | .L245 | .L247 | .L248 | .L254
  | .L255 | .L257 | .L263 | .L266 | .L268 | .L270 | .L272 | .L273 | .L279 | .L283 | .L284 => True

/-- Handshake progress of the sender: 0 before the request, 1 while requesting, then one
unit per handshake edge (four per bit), 68..72 in the acknowledge phase. -/
def sRank (s : State) : Nat :=
  match s.pc with
  | .L222 => 1
  | .L228 => 2
  | .L230 => 3
  | .L237 | .L238 | .L240 | .L242 => 4
  | .L244 | .L245 | .L247 => 4 + 4 * s.i
  | .L248 => 5 + 4 * s.i
  | .L254 => 6 + 4 * s.i
  | .L255 | .L257 => 7 + 4 * s.i
  | .L263 => 8 + 4 * s.i
  | .L266 | .L268 | .L270 | .L272 => 68
  | .L273 => 69
  | .L279 | .L283 => 70
  | .L284 => 71
  | .R307 k | .R308 k | .R309 k | .R311 k | .R312 k | .R313 k => if k = .L268 then 68 else if k = .retTrue then 72 else 0
  | .done b => if b then 72 else 0
  | .L87 | .L88 | .L94 | .L108 | .L109 | .L111 | .L112 | .L113 | .L115 | .L121 | .L124 | .L125
  | .L127 | .L128 | .L135 | .L138 | .L140 | .L146 | .L147 | .L151 | .L152 | .L153 | .L155
  | .L157 | .L164 | .L167 | .L169 | .L175 | .L176 | .L178 | .L179 | .L196 | .L211 | .L212
  | .L213 | .L215 | .L217 | .L219 | .L220 => 0

/-- Handshake progress of the receiver, on the scale of `sRank`. -/
def rRank (s : State) : Nat :=
  match s.pc with
  | .L115 => 1
  | .L121 => 2
  | .L124 | .L125 => 3
  | .L127 | .L128 => 3 + 4 * s.i
  | .L135 | .L138 => 4 + 4 * s.i
  | .L140 => 5 + 4 * s.i
  | .L146 => 6 + 4 * s.i
  | .L147 => 7 + 4 * s.i
  | .L151 | .L152 | .L153 | .L155 | .L157 => 67
  | .L164 | .L167 => 68
  | .L169 => 69
  | .L175 | .L176 => 70
  | .L178 | .L179 => 71
  | .R307 k | .R308 k | .R309 k | .R311 k | .R312 k | .R313 k => if k = .retTrue then 71 else 0
  | .done b => if b then 71 else 0
  | .L87 | .L88 | .L94 | .L108 | .L109 | .L111 | .L112 | .L113 | .L196 | .L211 | .L212 | .L213
  | .L215 | .L217 | .L219 | .L220 | .L222 | .L228 | .L230 | .L237 | .L238 | .L240 | .L242
  | .L244 | .L245 | .L247 | .L248 | .L254 | .L255 | .L257 | .L263 | .L266 | .L268 | .L270
  | .L272 | .L273 | .L279 | .L283 | .L284 => 0

/-- Lockstep relation between the progress `σ` of the sender and `ρ` of the receiver:
during synchronization the receiver may run ahead up to its first wait for Strobe; from the
data phase on the receiver is at most two handshake edges behind the sender and never
ahead, and exactly one behind whenever the sender is about to signal. -/
def InStep (σ ρ : Nat) : Prop :=
  (σ ≤ 3 → ρ ≤ 3 ∧ (2 ≤ σ → 1 ≤ ρ)) ∧
  (4 ≤ σ → ρ ≤ σ ∧ σ ≤ ρ + 2 ∧ (σ % 2 = 0 → ρ + 1 = σ))

/-- What the receiver has accumulated of the word `w` at each program counter: the top
`i` bits (or `i + 1` once the current bit has been sampled), then the whole word, then the
outputs. -/
def RecvDataInv (w : Nat) (s : State) : Prop :=
  match s.pc with
  | .L109 | .L111 | .L112 | .L113 | .L115 | .L121 | .L124 | .L125 => s.rcommand = 0
  | .L127 | .L128 | .L135 => s.mask = 0x8000 >>> s.i ∧ s.rcommand = w / 2 ^ (16 - s.i) * 2 ^ (16 - s.i)
  | .L138 | .L140 | .L146 | .L147 => s.mask = 0x8000 >>> s.i ∧ s.rcommand = w / 2 ^ (15 - s.i) * 2 ^ (15 - s.i)
  | .L151 | .L152 | .L153 | .L155 | .L157 | .L164 | .L167 | .L169 | .L175 | .L176 | .L178 => s.rcommand = w
  | .L179 => s.rcommand = w ∧ s.parameter = lowByte w
  | .R307 k | .R308 k | .R309 k | .R311 k | .R312 k | .R313 k => (k = .L111 → s.rcommand = 0) ∧
      (k = .retTrue → s.parameter = lowByte w ∧ s.opcode = highByte w)
  | .done b => b = true → s.parameter = lowByte w ∧ s.opcode = highByte w
  | .L87 | .L88 | .L94 | .L108 | .L196 | .L211 | .L212 | .L213 | .L215 | .L217 | .L219 | .L220
  | .L222 | .L228 | .L230 | .L237 | .L238 | .L240 | .L242 | .L244 | .L245 | .L247 | .L248
  | .L254 | .L255 | .L257 | .L263 | .L266 | .L268 | .L270 | .L272 | .L273 | .L279 | .L283
  | .L284 => True

/-- Invariant of a sender and a receiver running against each other, for the word `w`:
unless one of them is on its failure path, both have the pin states of their program
counters, they are in lockstep, and the receiver has accumulated the right bits. -/
def PairInv (cfg : Config) (op pa : Nat) (p : State × State) : Prop :=
  p.1.pc.inSend = true ∧ p.2.pc.inReceive = true ∧ ResetInv p.1 ∧ ResetInv p.2 ∧
  SendDataInv op pa p.1 ∧
  (p.1.pc.failing = true ∨ p.2.pc.failing = true ∨
    (SendPinsInv (op * 256 + pa) p.1 ∧ RecvPinsInv cfg p.2 ∧
      InStep (sRank p.1) (rRank p.2) ∧ RecvDataInv (op * 256 + pa) p.2))

/-! ## Definitions for the overload, line ownership, timers and masks -/

/-- Call of the overload `sendMessage(opcode)`, lines 194-197, from machine state `s`. -/
def callSendOpcode (opcode : Nat) (s : State) : State :=
  { s with pc := .L196, opcode := opcode }

/-- Pin states of the three lines after each of the first `n` steps of a run: every
`pinMode` and `digitalWrite` the code performs shows as a change in this sequence. -/
def lineStates (cfg : Config) (env : Nat → Obs) (n : Nat) (s : State) :
    List (PinState × PinState × PinState) :=
  (List.range n).map (fun k =>
    ((run cfg env (k + 1) s).link.dsa, (run cfg env (k + 1) s).link.stb,
      (run cfg env (k + 1) s).link.ack))

/-- The three phases of a transfer, as the comments of `sendMessage` and `receiveMessage`
mark them: "synchPhase", "data transfer phase" and "acknowledge phase" (the completion
phase). -/
inductive Phase where
  | sync
  | data
  | acknowledge
deriving DecidableEq, Repr

/-- Phase to which a program counter of `sendMessage` or `receiveMessage` belongs, by the
comments that divide the two function bodies; a `resetPins` belongs to the phase of its
call site, the failure path and the return to none. -/
def Pc.phase : Pc → Option Phase
  | .L108 | .L109 | .L111 | .L112 | .L113 | .L115 | .L121 | .L211 | .L212 | .L213 | .L215
  | .L217 | .L219 | .L220 | .L222 | .L228 | .L230 => some .sync
  | .L124 | .L125 | .L127 | .L128 | .L135 | .L138 | .L140 | .L146 | .L147 | .L237 | .L238
  | .L240 | .L242 | .L244 | .L245 | .L247 | .L248 | .L254 | .L255 | .L257 | .L263 => some .data
  | .L151 | .L152 | .L153 | .L155 | .L157 | .L164 | .L167 | .L169 | .L175 | .L176 | .L178
  | .L179 | .L266 | .L268 | .L270 | .L272 | .L273 | .L279 | .L283 | .L284 => some .acknowledge
  | .R307 k | .R308 k | .R309 k | .R311 k | .R312 k | .R313 k => match k with
    | .L111 | .L217 => some .sync
    | .L268 | .retTrue => some .acknowledge
    | .retFalse => none
  | .L87 | .L88 | .L94 | .L196 => none
  | .done _ => none

/-- The pin of a link on a given line. -/
def Link.pin (l : Link) : Pin → PinState
  | .DSApin => l.dsa
  | .STBpin => l.stb
  | .ACKpin => l.ack

/-- The lines a link has configured as output, in the order Data, Strobe, Acknowledge. -/
def outputLines (l : Link) : List Pin :=
  [Pin.DSApin, Pin.STBpin, Pin.ACKpin].filter (fun p => decide ((l.pin p).mode = .OUTPUT))

/-- Pin states of the receiver at each program counter of `receiveMessage` from its first
`resetPins` on, and the range of its loop counter, whatever the pins were when the call
started. On the way into a `resetPins` that ends the call the Data pin is not driven
`LOW`. -/
def RecvLineInv (cfg : Config) (s : State) : Prop :=
  match s.pc with
  | .L108 | .L109 => True
  | .L111 => s.link.dsa = ⟨.INPUT, HIGH⟩ ∧ s.link.stb = ⟨.INPUT, HIGH⟩ ∧ s.link.ack = ⟨.INPUT, HIGH⟩
  | .L112 | .L113 | .L124 | .L125 => s.link.dsa = ⟨.INPUT, HIGH⟩ ∧ s.link.stb = ⟨.INPUT, HIGH⟩ ∧ s.link.ack = ⟨.OUTPUT, HIGH⟩
  | .L115 | .L121 => s.link.dsa = ⟨.INPUT, HIGH⟩ ∧ s.link.stb = ⟨.INPUT, HIGH⟩ ∧ s.link.ack = ⟨.OUTPUT, LOW⟩
  | .L127 => s.link.dsa = ⟨.INPUT, HIGH⟩ ∧ s.link.stb = ⟨.INPUT, HIGH⟩ ∧ s.link.ack = ⟨.OUTPUT, HIGH⟩ ∧ s.i ≤ 16
  | .L128 | .L135 | .L138 | .L147 => s.link.dsa = ⟨.INPUT, HIGH⟩ ∧ s.link.stb = ⟨.INPUT, HIGH⟩ ∧ s.link.ack = ⟨.OUTPUT, HIGH⟩ ∧ s.i < 16
  | .L140 | .L146 => s.link.dsa = ⟨.INPUT, HIGH⟩ ∧ s.link.stb = ⟨.INPUT, HIGH⟩ ∧ s.link.ack = ⟨.OUTPUT, LOW⟩ ∧ s.i < 16
  | .L151 => s.link.dsa = ⟨.INPUT, HIGH⟩ ∧ s.link.stb = ⟨.INPUT, HIGH⟩ ∧ s.link.ack = ⟨.OUTPUT, HIGH⟩ ∧ s.i = 16
  | .L152 => s.link.dsa = ⟨.INPUT, HIGH⟩ ∧ s.link.stb = ⟨.OUTPUT, HIGH⟩ ∧ s.link.ack = ⟨.OUTPUT, HIGH⟩ ∧ s.i = 16
  | .L153 => s.link.dsa = ⟨.OUTPUT, HIGH⟩ ∧ s.link.stb = ⟨.OUTPUT, HIGH⟩ ∧ s.link.ack = ⟨.OUTPUT, HIGH⟩ ∧ s.i = 16
  | .L155 | .L157 | .L164 => s.link.dsa = ⟨.OUTPUT, HIGH⟩ ∧ s.link.stb = ⟨.OUTPUT, HIGH⟩ ∧ s.link.ack = setMode cfg .INPUT ⟨.OUTPUT, HIGH⟩ ∧ s.i = 16
  | .L167 | .L178 | .L179 => s.link.dsa = ⟨.OUTPUT, HIGH⟩ ∧ s.link.stb = ⟨.OUTPUT, HIGH⟩ ∧ s.link.ack = setMode cfg .INPUT ⟨.OUTPUT, HIGH⟩
  | .L169 | .L175 | .L176 => s.link.dsa = ⟨.OUTPUT, HIGH⟩ ∧ s.link.stb = ⟨.OUTPUT, LOW⟩ ∧ s.link.ack = setMode cfg .INPUT ⟨.OUTPUT, HIGH⟩
  | .R307 k => k = .L111 ∨ sense s.link.dsa = HIGH
  | .R308 _ => True
  | .R309 _ => True
  | .R311 _ => True
  | .R312 _ => True
  | .R313 _ => True
  | .done _ => True
  | .L87 | .L88 | .L94 | .L196 | .L211 | .L212 | .L213 | .L215 | .L217 | .L219 | .L220 | .L222
  | .L228 | .L230 | .L237 | .L238 | .L240 | .L242 | .L244 | .L245 | .L247 | .L248 | .L254
  | .L255 | .L257 | .L263 | .L266 | .L268 | .L270 | .L272 | .L273 | .L279 | .L283 | .L284 => True

/-- Program counters of `receiveMessage` before the first statement of its first
`resetPins` has been executed: the pins are still as the caller left them. -/
def Pc.beforeReset (pc : Pc) : Bool :=
  decide (pc = .L108) || decide (pc = .L109) || decide (pc = .R307 .L111)

/-- Program counters of the data-phase loop of `receiveMessage`, lines 127-148. -/
def Pc.recvLoop : Pc → Bool
  | .L127 | .L128 | .L135 | .L138 | .L140 | .L146 | .L147 => true
  | .L87 | .L88 | .L94 | .L108 | .L109 | .L111 | .L112 | .L113 | .L115 | .L121 | .L124 | .L125
  | .L151 | .L152 | .L153 | .L155 | .L157 | .L164 | .L167 | .L169 | .L175 | .L176 | .L178
  | .L179 | .L196 | .L211 | .L212 | .L213 | .L215 | .L217 | .L219 | .L220 | .L222 | .L228
  | .L230 | .L237 | .L238 | .L240 | .L242 | .L244 | .L245 | .L247 | .L248 | .L254 | .L255
  | .L257 | .L263 | .L266 | .L268 | .L270 | .L272 | .L273 | .L279 | .L283 | .L284 => false
  | .R307 _ | .R308 _ | .R309 _ | .R311 _ | .R312 _ | .R313 _ => false
  | .done _ => false

/-- Program counters of `receiveMessage` after its wait for Acknowledge `LOW` (line 157)
has ended: the test of line 164 and the write of line 167. -/
def Pc.sawAckLow (pc : Pc) : Bool := decide (pc = .L164) || decide (pc = .L167)

/-- Program counters whose step is a call `startTimeoutTimer(DSA_TIMEOUT)`. -/
def Pc.startsTimer : Pc → Bool
  | .L87 | .L112 | .L124 | .L155 | .L219 | .L240 | .L270 => true
  | .L88 | .L94 | .L108 | .L109 | .L111 | .L113 | .L115 | .L121 | .L125 | .L127 | .L128
  | .L135 | .L138 | .L140 | .L146 | .L147 | .L151 | .L152 | .L153 | .L157 | .L164 | .L167
  | .L169 | .L175 | .L176 | .L178 | .L179 | .L196 | .L211 | .L212 | .L213 | .L215 | .L217
  | .L220 | .L222 | .L228 | .L230 | .L237 | .L238 | .L242 | .L244 | .L245 | .L247 | .L248
  | .L254 | .L255 | .L257 | .L263 | .L266 | .L268 | .L272 | .L273 | .L279 | .L283 | .L284 => false
  | .R307 _ | .R308 _ | .R309 _ | .R311 _ | .R312 _ | .R313 _ => false
  | .done _ => false

/-- Clock readings taken by the calls of `startTimeoutTimer` executed during the first `n`
steps, in order. -/
def timerReadings (cfg : Config) (env : Nat → Obs) (n : Nat) (s : State) : List Nat :=
  collect (fun o s => if s.pc.startsTimer then some (millis o) else none) cfg env n s

/-- Number of calls of `startTimeoutTimer` that `sendMessage` or `receiveMessage` has
executed when it stands at a program counter (outside the failure path). -/
def Pc.timersStarted : Pc → Nat
  | .L113 | .L115 | .L121 | .L124 | .L220 | .L222 | .L228 | .L230 | .L237 | .L238 | .L240 => 1
  | .L125 | .L127 | .L128 | .L135 | .L138 | .L140 | .L146 | .L147 | .L151 | .L152 | .L153
  | .L155 | .L242 | .L244 | .L245 | .L247 | .L248 | .L254 | .L255 | .L257 | .L263 | .L266
  | .L268 | .L270 => 2
  | .L157 | .L164 | .L167 | .L169 | .L175 | .L176 | .L178 | .L179 | .L272 | .L273 | .L279
  | .L283 | .L284 => 3
  | .R307 k | .R308 k | .R309 k | .R311 k | .R312 k | .R313 k => match k with
    | .L111 | .L217 | .retFalse => 0
    | .L268 => 2
    | .retTrue => 3
  | .done b => if b then 3 else 0
  | .L87 | .L88 | .L94 | .L108 | .L109 | .L111 | .L112 | .L196 | .L211 | .L212 | .L213 | .L215
  | .L217 | .L219 => 0

/-- Position of a phase in the call: 1, 2, 3. -/
def Phase.index : Phase → Nat
  | .sync => 1
  | .data => 2
  | .acknowledge => 3

/-- Elapsed time `now - start` of `timeOut()`, in the 32-bit unsigned arithmetic of
`millis()`. -/
def elapsed (start now : Nat) : Nat := (now + 2 ^ 32 - start) % 2 ^ 32

/-- Timer invariant of `sendMessage` and `receiveMessage`: `t` lists the readings taken by
the timer starts so far; outside the failure path their number is the one of the program
counter, and once a timer has been started the timer fields hold `DSA_TIMEOUT` and the
last reading. -/
def TimerInv (cfg : Config) (s : State) (t : List Nat) : Prop :=
  (s.pc.inSend = true ∨ s.pc.inReceive = true) ∧
  (s.pc.failing = true → t.length ≤ 3) ∧
  (s.pc.failing = false → t.length = s.pc.timersStarted ∧
    (1 ≤ s.pc.timersStarted → s.link.timeoutTime = cfg.DSA_TIMEOUT ∧
      s.link.timeoutStartTime < 2 ^ 32 ∧ t.getLast? = some s.link.timeoutStartTime))

/-- Value of `int command` after lines 211-213 of `sendMessage(opcode, parameter)`:
`command = opcode; command = command << 8; command += parameter;` in 16-bit
two's-complement arithmetic. -/
def composeCommand (opcode parameter : Nat) : Int :=
  wrap16 (wrap16 ((opcode : Int) * 256) + (parameter : Int))

/-- Values of `mask` at the tests `command & mask` (line 245) executed during the first `n`
steps. -/
def testedMasks (cfg : Config) (env : Nat → Obs) (n : Nat) (s : State) : List Nat :=
  collect (fun _ s => if s.pc = .L245 then some s.mask else none) cfg env n s

/-- The 16 one-bit masks from `0x8000` down to `0x0001`. -/
def maskValues : List Nat :=
  [0x8000, 0x4000, 0x2000, 0x1000, 0x0800, 0x0400, 0x0200, 0x0100,
   0x0080, 0x0040, 0x0020, 0x0010, 0x0008, 0x0004, 0x0002, 0x0001]

/-- The first `k` values of `mask` in the loop of `sendMessage`: `0x8000` shifted right
0, 1, ..., `k - 1` times. -/
def masksUpTo (k : Nat) : List Nat := (List.range k).map (fun j => 0x8000 >>> j)

/-- Number of tests `command & mask` that `sendMessage` has executed when it stands at `pc`
with loop counter `i` (outside the failure path). -/
def Pc.sendTested (pc : Pc) (i : Nat) : Nat :=
  match pc with
  | .L244 | .L245 => i
  | .L247 | .L248 | .L254 | .L255 | .L257 | .L263 => i + 1
  | .L266 | .L268 | .L270 | .L272 | .L273 | .L279 | .L283 | .L284 => 16
  | .R307 k | .R308 k | .R309 k | .R311 k | .R312 k | .R313 k => if k = .L268 ∨ k = .retTrue then 16 else 0
  | .done b => if b then 16 else 0
  | .L87 | .L88 | .L94 | .L108 | .L109 | .L111 | .L112 | .L113 | .L115 | .L121 | .L124 | .L125
  | .L127 | .L128 | .L135 | .L138 | .L140 | .L146 | .L147 | .L151 | .L152 | .L153 | .L155
  | .L157 | .L164 | .L167 | .L169 | .L175 | .L176 | .L178 | .L179 | .L196 | .L211 | .L212
  | .L213 | .L215 | .L217 | .L219 | .L220 | .L222 | .L228 | .L230 | .L237 | .L238 | .L240
  | .L242 => 0

/-- The locals of `sendMessage` at each program counter, for a call that composes the
command `c`: what is still to be computed gives `c`, then `command` holds `c`, and in the
loop `mask` is `0x8000 >> i`. -/
def SendCommandInv (c : Int) (s : State) : Prop :=
  match s.pc with
  | .L211 => composeCommand s.opcode s.parameter = c
  | .L212 => wrap16 (wrap16 (s.scommand * 256) + (s.parameter : Int)) = c
  | .L213 => wrap16 (s.scommand + (s.parameter : Int)) = c
  | .L215 | .L217 | .L219 | .L220 | .L222 | .L228 | .L230 | .L237 | .L238 | .L240 | .L242 => s.scommand = c
  | .L244 => s.scommand = c ∧ s.i ≤ 16 ∧ s.mask = 0x8000 >>> s.i
  | .L245 | .L247 | .L248 | .L254 | .L255 | .L257 | .L263 => s.scommand = c ∧ s.i < 16 ∧ s.mask = 0x8000 >>> s.i
  | .R307 k | .R308 k | .R309 k | .R311 k | .R312 k | .R313 k => k = .L217 → s.scommand = c
  | .L87 | .L88 | .L94 | .L108 | .L109 | .L111 | .L112 | .L113 | .L115 | .L121 | .L124 | .L125
  | .L127 | .L128 | .L135 | .L138 | .L140 | .L146 | .L147 | .L151 | .L152 | .L153 | .L155
  | .L157 | .L164 | .L167 | .L169 | .L175 | .L176 | .L178 | .L179 | .L196 | .L266 | .L268
  | .L270 | .L272 | .L273 | .L279 | .L283 | .L284 => True
  | .done _ => True

/-- Trace invariant of a call of `sendMessage` that composes the command `c`: `t` lists the
masks tested so far. -/
def SendMaskInv (c : Int) (s : State) (t : List Nat) : Prop :=
  s.pc.inSend = true ∧ SendCommandInv c s ∧
  (s.pc.failing = true → ∃ j, j ≤ 16 ∧ t = masksUpTo j) ∧
  (s.pc.failing = false → t = masksUpTo (s.pc.sendTested s.i))

/-! ## Basic facts about runs -/

set_option maxRecDepth 100000

theorem run_succ (cfg : Config) (env : Nat → Obs) (n : Nat) (s : State) :
    run cfg env (n + 1) s = step cfg (env n) (run cfg env n s) := rfl

theorem run_add (cfg : Config) (env : Nat → Obs) (m n : Nat) (s : State) :
    run cfg env (m + n) s = run cfg (fun k => env (m + k)) n (run cfg env m s) := by
  induction n with
  | zero => rfl
  | succ n ih => rw [← Nat.add_assoc, run_succ, ih, run_succ]

theorem run_inv (cfg : Config) (env : Nat → Obs) {P : State → Prop}
    (hstep : ∀ o s, P s → P (step cfg o s)) {s : State} (h0 : P s) (n : Nat) :
    P (run cfg env n s) := by
  induction n with
  | zero => exact h0
  | succ n ih => exact hstep _ _ ih

theorem step_done (cfg : Config) (o : Obs) (s : State) (b : Bool) (h : s.pc = .done b) :
    step cfg o s = s := by
  simp [step, h]

theorem run_done (cfg : Config) (env : Nat → Obs) (n : Nat) (s : State) (b : Bool)
    (h : s.pc = .done b) : run cfg env n s = s := by
  induction n with
  | zero => rfl
  | succ n ih => rw [run_succ, ih, step_done cfg _ s b h]

theorem run_done_le (cfg : Config) (env : Nat → Obs) (m n : Nat) (s : State) (b : Bool)
    (h : (run cfg env m s).pc = .done b) (hmn : m ≤ n) :
    run cfg env n s = run cfg env m s := by
  obtain ⟨d, rfl⟩ := Nat.exists_eq_add_of_le hmn
  rw [run_add, run_done cfg _ d _ b h]

/-- Six steps from the first statement of `resetPins` execute the whole routine and
continue at the return target. -/
theorem run_resetPins (cfg : Config) (env : Nat → Obs) (s : State) (k : Ret)
    (h : s.pc = .R307 k) :
    run cfg env 6 s = { s with link := resetPins cfg s.link, pc := k.target } := by
  obtain ⟨pc, link, op, pa, sc, rc, mask, i⟩ := s
  subst h
  simp [run, step, resetPins]

theorem ResetInv_step (cfg : Config) (o : Obs) (s : State) (h : ResetInv s) :
    ResetInv (step cfg o s) := by
  obtain ⟨pc, link, op, pa, sc, rc, mask, i⟩ := s
  obtain ⟨⟨dm, dl⟩, ⟨sm, sl⟩, ⟨am, al⟩, tt, ts⟩ := link
  cases pc <;> (try (rename_i k; cases k)) <;> simp only [step, await] <;> (try split_ifs) <;>
    simp_all [ResetInv, pinMode, digitalWrite, setMode, Link.idle, startTimeoutTimer, Ret.target]

theorem resetPins_idle (cfg : Config) (l : Link) : (resetPins cfg l).idle := by
  simp [resetPins, Link.idle, pinMode, digitalWrite, setMode]

theorem idle_of_done (cfg : Config) (env : Nat → Obs) (s : State) (h0 : ResetInv s)
    (n : Nat) (b : Bool) (h : (run cfg env n s).pc = .done b) : (run cfg env n s).link.idle := by
  have := run_inv cfg env (ResetInv_step cfg) h0 n
  simpa [ResetInv, h] using this

theorem timesOut_step (cfg : Config) (o : Obs) (s : State) (h : timesOut o s = true) :
    step cfg o s = { s with pc := .R307 .retFalse } := by
  obtain ⟨pc, link, op, pa, sc, rc, mask, i⟩ := s
  cases pc <;> simp_all [timesOut, Pc.polls, step, await, transmitRequested]

theorem failing_run (cfg : Config) (env : Nat → Obs) (s : State) (h : s.pc.failing = true) :
    (run cfg env 6 s).pc = .done false := by
  obtain ⟨pc, link, op, pa, sc, rc, mask, i⟩ := s
  cases pc <;> simp_all [Pc.failing, run, step, Ret.target]

theorem succeeding_run (cfg : Config) (env : Nat → Obs) (s : State) (h : s.pc.succeeding = true) :
    (run cfg env 6 s).pc = .done true := by
  obtain ⟨pc, link, op, pa, sc, rc, mask, i⟩ := s
  cases pc <;> simp_all [Pc.succeeding, run, step, Ret.target]

/-! ## Traces and first entry -/

theorem collect_succ {α : Type} (f : Obs → State → Option α) (cfg : Config) (env : Nat → Obs)
    (n : Nat) (s : State) :
    collect f cfg env (n + 1) s = collect f cfg env n s ++ (f (env n) (run cfg env n s)).toList :=
  rfl

/-- Invariants over a run together with the trace collected along it. -/
theorem collect_inv {α : Type} (f : Obs → State → Option α) (cfg : Config) (env : Nat → Obs)
    (P : State → List α → Prop)
    (hstep : ∀ o s t, P s t → P (step cfg o s) (t ++ (f o s).toList))
    {s : State} (h0 : P s []) (n : Nat) : P (run cfg env n s) (collect f cfg env n s) := by
  induction n with
  | zero => exact h0
  | succ n ih => exact hstep _ _ _ ih

theorem mem_collect {α : Type} (f : Obs → State → Option α) (cfg : Config) (env : Nat → Obs)
    (s : State) (x : α) (n : Nat) (h : x ∈ collect f cfg env n s) :
    ∃ k, k < n ∧ f (env k) (run cfg env k s) = some x := by
  induction n with
  | zero => simp [collect] at h
  | succ n ih =>
    rw [collect_succ, List.mem_append] at h
    rcases h with h | h
    · obtain ⟨k, hk, hx⟩ := ih h
      exact ⟨k, by omega, hx⟩
    · exact ⟨n, by omega, by simpa using h⟩

/-- First step at which a run enters a set of states it did not start in. -/
theorem first_entry (cfg : Config) (env : Nat → Obs) (A : State → Bool) (s : State)
    (h0 : A s = false) (n : Nat) (hn : A (run cfg env n s) = true) :
    ∃ k, k < n ∧ A (run cfg env k s) = false ∧ A (run cfg env (k + 1) s) = true := by
  induction n with
  | zero => simp [run, h0] at hn
  | succ n ih =>
    cases hA : A (run cfg env n s) with
    | false => exact ⟨n, by omega, hA, hn⟩
    | true =>
      obtain ⟨k, hk, h1, h2⟩ := ih hA
      exact ⟨k, by omega, h1, h2⟩

/-! ## C2: bit ordering of send -/

theorem and_two_pow_eq_zero (x j : Nat) : x &&& 2 ^ j = 0 ↔ x.testBit j = false := by
  constructor
  · intro h
    have := congrArg (fun y => Nat.testBit y j) h
    simpa [Nat.testBit_two_pow] using this
  · intro h
    apply Nat.eq_of_testBit_eq
    intro k
    by_cases hk : j = k
    · subst hk; simp [h]
    · simp [Nat.testBit_two_pow, hk]

theorem mask_eq (i : Nat) (h : i < 16) : 0x8000 >>> i = 2 ^ (15 - i) := by
  interval_cases i <;> rfl

theorem wrap16_toNat (op pa : Nat) :
    ((wrap16 (wrap16 ((op : Int) * 256) + (pa : Int))) % 65536).toNat =
      (op * 256 + pa) % 65536 := by
  unfold wrap16
  omega

theorem andMask_eq_zero (c : Int) (w i : Nat) (hc : (c % 65536).toNat = w % 65536)
    (hi : i < 16) : andMask c (0x8000 >>> i) = 0 ↔ w.testBit (15 - i) = false := by
  unfold andMask
  rw [hc, mask_eq i hi, and_two_pow_eq_zero, show (65536 : Nat) = 2 ^ 16 from rfl,
    Nat.testBit_mod_two_pow]
  have : 15 - i < 16 := by omega
  simp [this]

theorem sendLevels_length (w : Nat) : (sendLevels w).length = 16 := by
  simp [sendLevels, wordBits]

theorem sendLevels_take_succ (w i : Nat) (hi : i < 16) :
    (sendLevels w).take (i + 1) =
      (sendLevels w).take i ++ [⟨.OUTPUT, w.testBit (15 - i)⟩] := by
  rw [List.take_succ]
  congr 1
  simp [sendLevels, wordBits, List.getElem?_map, List.getElem?_range hi]


set_option maxHeartbeats 2000000 in
theorem SendBitsInv_step (cfg : Config) (o : Obs) (op pa : Nat) (s : State)
    (t : List PinState) (h : SendBitsInv op pa s t) :
    SendBitsInv op pa (step cfg o s)
      (t ++ (if s.pc = .L247 then some s.link.dsa else none).toList) := by
  obtain ⟨pc, link, op', pa', sc, rc, mask, i⟩ := s
  obtain ⟨⟨dm, dl⟩, ⟨sm, sl⟩, ⟨am, al⟩, tt, ts⟩ := link
  cases pc
  case L245 =>
    simp [SendBitsInv, SendDataInv, Pc.inSend, Pc.failing, Pc.sendSent] at h
    obtain ⟨⟨h1, h2, h3, h4, h4'⟩, h5⟩ := h
    have hb := andMask_eq_zero sc (op * 256 + pa) i h1 h2
    subst h3 h4 h4' h5
    by_cases hm : andMask sc (0x8000 >>> i) = 0
    · simp [step, hm, SendBitsInv, SendDataInv, Pc.inSend, Pc.failing, Pc.sendSent,
        digitalWrite, h1, h2, hb.1 hm]
    · have : (op * 256 + pa).testBit (15 - i) = true := by
        cases hx : (op * 256 + pa).testBit (15 - i)
        · exact absurd (hb.2 hx) hm
        · rfl
      simp [step, hm, SendBitsInv, SendDataInv, Pc.inSend, Pc.failing, Pc.sendSent, h1, h2,
        this]
  case L247 =>
    simp [SendBitsInv, SendDataInv, Pc.inSend, Pc.failing, Pc.sendSent] at h
    obtain ⟨⟨h1, h2, h3, h4, h4'⟩, h5⟩ := h
    subst h4 h4' h5
    simp [step, SendBitsInv, SendDataInv, Pc.inSend, Pc.failing, Pc.sendSent, digitalWrite,
      h1, h2, h3, sendLevels_take_succ _ _ h2]
  case L263 =>
    simp [SendBitsInv, SendDataInv, Pc.inSend, Pc.failing, Pc.sendSent] at h
    obtain ⟨⟨h1, h2, h3, h4, h4'⟩, h5⟩ := h
    subst h3 h4 h4' h5
    simp [step, SendBitsInv, SendDataInv, Pc.inSend, Pc.failing, Pc.sendSent, h1,
      Nat.shiftRight_add]
    omega
  all_goals
    (try (rename_i k; cases k)) <;> simp only [step, await] <;> (try split_ifs) <;>
    simp_all [SendBitsInv, SendDataInv, Pc.inSend, Pc.failing, Pc.sendSent, Ret.target,
      pinMode, digitalWrite, setMode, startTimeoutTimer, wrap16_toNat, sendLevels_length] <;>
    first | omega | exact ⟨_, rfl⟩ | exact ⟨_, le_refl _⟩

theorem SendBitsInv_run (cfg : Config) (env : Nat → Obs) (op pa : Nat) (s : State) (n : Nat) :
    SendBitsInv op pa (run cfg env n (callSendMessage op pa s))
      (strobedData cfg env n (callSendMessage op pa s)) :=
  collect_inv _ cfg env (SendBitsInv op pa) (fun o s t h => SendBitsInv_step cfg o op pa s t h)
    (by simp [SendBitsInv, SendDataInv, callSendMessage, Pc.inSend, Pc.failing, Pc.sendSent]) n

/-- C2: in every execution of `sendMessage(opcode, parameter)` the Data pin states found at
the steps that drive Strobe `LOW` (line 247) form an initial segment of the 16 states
"output driving bit 15, 14, ..., 0 of `opcode * 256 + parameter`"; once the data phase is
over (line 266 reached, every strobe having been acknowledged) or the call has returned
true, Strobe has been driven `LOW` exactly 16 times and the level driven on Data at the
`k`-th of them is `HIGH` iff bit `15 - k` of the word is 1. For opcode 0xA5 and parameter
0x3C the levels are 1,0,1,0,0,1,0,1,0,0,1,1,1,1,0,0. -/
theorem C2_send_bit_order (cfg : Config) (env : Nat → Obs) (opcode parameter : Nat)
    (s : State) (n : Nat) :
    (∃ j, strobedData cfg env n (callSendMessage opcode parameter s) =
      (sendLevels (opcode * 256 + parameter)).take j) ∧
    ((run cfg env n (callSendMessage opcode parameter s)).pc = .L266 ∨
     (run cfg env n (callSendMessage opcode parameter s)).pc = .done true →
      strobedData cfg env n (callSendMessage opcode parameter s) =
        sendLevels (opcode * 256 + parameter) ∧
      (strobedData cfg env n (callSendMessage opcode parameter s)).length = 16 ∧
      ∀ k, k < 16 → (strobedData cfg env n (callSendMessage opcode parameter s))[k]? =
        some ⟨.OUTPUT, (opcode * 256 + parameter).testBit (15 - k)⟩) ∧
    wordBits (0xA5 * 256 + 0x3C) =
      [true, false, true, false, false, true, false, true,
       false, false, true, true, true, true, false, false] := by
  have hinv := SendBitsInv_run cfg env opcode parameter s n
  obtain ⟨-, -, hf, hnf⟩ := hinv
  refine ⟨?_, ?_, by decide⟩
  · cases hx : (run cfg env n (callSendMessage opcode parameter s)).pc.failing
    · exact ⟨_, hnf hx⟩
    · exact hf hx
  · intro hpc
    have hfull : strobedData cfg env n (callSendMessage opcode parameter s) =
        sendLevels (opcode * 256 + parameter) := by
      rcases hpc with hpc | hpc
      · have := hnf (by rw [hpc]; rfl)
        rw [hpc] at this
        simpa [Pc.sendSent, sendLevels_length] using this
      · have := hnf (by rw [hpc]; rfl)
        rw [hpc] at this
        simpa [Pc.sendSent, sendLevels_length] using this
    refine ⟨hfull, by rw [hfull, sendLevels_length], ?_⟩
    intro k hk
    rw [hfull]
    simp [sendLevels, wordBits, List.getElem?_map, List.getElem?_range hk]

theorem C2_witness :
    strobedData cfg0 envToggle 172 (callSendMessage 0xA5 0x3C state1) =
      sendLevels (0xA5 * 256 + 0x3C) ∧
    (strobedData cfg0 envToggle 172 (callSendMessage 0xA5 0x3C state1)).length = 16 ∧
    ∀ k, k < 16 → (strobedData cfg0 envToggle 172 (callSendMessage 0xA5 0x3C state1))[k]? =
      some ⟨.OUTPUT, (0xA5 * 256 + 0x3C).testBit (15 - k)⟩ :=
  (C2_send_bit_order cfg0 envToggle 0xA5 0x3C state1 172).2.1 (Or.inr (by decide))

/-! ## C3: decoding in receive -/

theorem ofBits_snoc (t : List Bool) (b : Bool) : ofBits (t ++ [b]) = 2 * ofBits t + b.toNat := by
  simp [ofBits, List.foldl_append]

theorem lor_mask (a i : Nat) (hi : i < 16) :
    (a * 2 ^ (16 - i)) ||| (0x8000 >>> i) = (2 * a + 1) * 2 ^ (15 - i) := by
  rw [mask_eq i hi]
  have h : 2 ^ (16 - i) = 2 * 2 ^ (15 - i) := by
    rw [show 16 - i = (15 - i) + 1 by omega, pow_succ]; ring
  have hlt : 2 ^ (15 - i) < 2 ^ (16 - i) := by rw [h]; have := Nat.two_pow_pos (15 - i); omega
  rw [Nat.mul_comm a, ← Nat.mul_add_lt_is_or hlt, h]
  ring

theorem RecvBitsInv_step (cfg : Config) (o : Obs) (s : State) (t : List Bool)
    (h : RecvBitsInv s t) :
    RecvBitsInv (step cfg o s)
      (t ++ (if s.pc = .L135 then some (digitalRead .DSApin o) else none).toList) := by
  obtain ⟨pc, link, op', pa', sc, rc, mask, i⟩ := s
  cases pc
  case L135 =>
    simp [RecvBitsInv, Pc.inReceive] at h
    obtain ⟨h1, h2, h3, h4⟩ := h
    subst h2 h4
    have hp : 2 ^ (16 - i) = 2 * 2 ^ (15 - i) := by
      rw [show 16 - i = (15 - i) + 1 by omega, pow_succ]; ring
    cases hd : digitalRead .DSApin o
    · simp [step, hd, RecvBitsInv, Pc.inReceive, h1, h3, ofBits_snoc, hp]
      ring
    · simp [step, hd, RecvBitsInv, Pc.inReceive, h1, h3, ofBits_snoc, lor_mask _ _ h1]
  case L147 =>
    simp [RecvBitsInv, Pc.inReceive] at h
    obtain ⟨h1, h2, h3, h4⟩ := h
    subst h2 h4
    simp [step, RecvBitsInv, Pc.inReceive, h3, Nat.shiftRight_add]
    omega
  case L127 =>
    simp [RecvBitsInv, Pc.inReceive] at h
    obtain ⟨h1, h2, h3, h4⟩ := h
    subst h2 h4
    by_cases hi : i < 16
    · simp [step, hi, RecvBitsInv, Pc.inReceive, h3]
    · have : i = 16 := by omega
      subst this
      simp [step, RecvBitsInv, Pc.inReceive, h3]
  all_goals
    (try (rename_i k; cases k)) <;> simp only [step, await] <;> (try split_ifs) <;>
    simp_all [RecvBitsInv, Pc.inReceive, Ret.target] <;>
    first | omega | rfl

theorem ofBits_foldl (l : List Bool) (acc : Nat) :
    l.foldl (fun acc b => 2 * acc + b.toNat) acc = acc * 2 ^ l.length + ofBits l := by
  induction l using List.reverseRecOn generalizing acc with
  | nil => simp [ofBits]
  | append_singleton l b ih =>
    rw [List.foldl_append, ofBits_snoc, ih acc]
    simp [pow_succ]
    ring

theorem ofBits_append (a b : List Bool) :
    ofBits (a ++ b) = ofBits a * 2 ^ b.length + ofBits b := by
  unfold ofBits
  rw [List.foldl_append, ofBits_foldl]
  rfl

theorem ofBits_lt (l : List Bool) : ofBits l < 2 ^ l.length := by
  induction l using List.reverseRecOn with
  | nil => simp [ofBits]
  | append_singleton l b ih =>
    rw [ofBits_snoc, List.length_append, List.length_singleton, pow_succ]
    cases b <;> simp <;> omega

theorem ofBits_bytes (t : List Bool) (h : t.length = 16) :
    highByte (ofBits t) = ofBits (t.take 8) ∧ lowByte (ofBits t) = ofBits (t.drop 8) := by
  have h1 := ofBits_append (t.take 8) (t.drop 8)
  rw [List.take_append_drop] at h1
  have h2 := ofBits_lt (t.take 8)
  have h3 := ofBits_lt (t.drop 8)
  have h4 : (t.take 8).length = 8 := by simp [h]
  have h5 : (t.drop 8).length = 8 := by simp [h]
  rw [h4] at h2
  rw [h5] at h3 h1
  norm_num at h1 h2 h3
  unfold highByte lowByte
  omega

theorem RecvBitsInv_run (cfg : Config) (env : Nat → Obs) (s : State) (n : Nat) :
    RecvBitsInv (run cfg env n (callReceiveMessage s))
      (sampledData cfg env n (callReceiveMessage s)) :=
  collect_inv _ cfg env RecvBitsInv (fun o s t h => RecvBitsInv_step cfg o s t h)
    (by simp [RecvBitsInv, callReceiveMessage, Pc.inReceive]) n

/-- C3: in every execution of `receiveMessage` that has returned true, Data was sampled
(line 135, after a Strobe-`LOW` detection) exactly 16 times; with `b0 .. b15` the sampled
levels in order, the output opcode is the byte whose binary digits, most significant
first, are `b0 .. b7` and the output parameter is the byte whose digits are `b8 .. b15`
(`HIGH` = 1, `LOW` = 0). -/
theorem C3_receive_decoding (cfg : Config) (env : Nat → Obs) (s : State) (n : Nat)
    (h : (run cfg env n (callReceiveMessage s)).pc = .done true) :
    (sampledData cfg env n (callReceiveMessage s)).length = 16 ∧
    (run cfg env n (callReceiveMessage s)).opcode =
      ofBits ((sampledData cfg env n (callReceiveMessage s)).take 8) ∧
    (run cfg env n (callReceiveMessage s)).parameter =
      ofBits ((sampledData cfg env n (callReceiveMessage s)).drop 8) ∧
    ofBits [true, false, true, false, false, true, false, true] = 0xA5 := by
  have hinv := (RecvBitsInv_run cfg env s n).2
  rw [h] at hinv
  obtain ⟨h1, h2, h3⟩ := hinv rfl
  have hb := ofBits_bytes _ h1
  exact ⟨h1, by rw [h3, hb.1], by rw [h2, hb.2], by decide⟩

theorem C3_witness :
    (sampledData cfg0 envData 164 (callReceiveMessage state1)).length = 16 ∧
    (run cfg0 envData 164 (callReceiveMessage state1)).opcode =
      ofBits ((sampledData cfg0 envData 164 (callReceiveMessage state1)).take 8) ∧
    (run cfg0 envData 164 (callReceiveMessage state1)).parameter =
      ofBits ((sampledData cfg0 envData 164 (callReceiveMessage state1)).drop 8) ∧
    ofBits [true, false, true, false, false, true, false, true] = 0xA5 :=
  C3_receive_decoding cfg0 envData state1 164 (by decide)


/-! ## C4: request detection -/

/-- C4: `transmitRequested()` returns true iff the Data line is sensed `LOW` at the moment
of the call, and it leaves the object state (pin directions, latches and pull-ups, timer
fields) as it was; hence any number of polls leaves the object state unchanged, each poll
answering the negation of the level then sensed on Data. -/
theorem C4_transmitRequested_pure (o : Obs) (l : Link) :
    ((transmitRequested o l).1 = true ↔ digitalRead .DSApin o = LOW) ∧
    (transmitRequested o l).2 = l ∧
    ∀ os : List Obs, (pollRequests os l).2 = l ∧
      (pollRequests os l).1 = os.map (fun x => !digitalRead .DSApin x) := by
  refine ⟨by simp [transmitRequested], rfl, ?_⟩
  intro os
  induction os with
  | nil => simp [pollRequests]
  | cons x xs ih => simp [pollRequests, transmitRequested, ih]

/-! ## C5: receive is atomic on failure -/

theorem RecvOutInv_step (cfg : Config) (o : Obs) (op pa : Nat) (s : State)
    (h : RecvOutInv op pa s) : RecvOutInv op pa (step cfg o s) := by
  obtain ⟨pc, link, op, pa, sc, rc, mask, i⟩ := s
  cases pc <;> (try (rename_i k; cases k)) <;> simp only [step, await] <;> (try split_ifs) <;>
    simp_all [RecvOutInv, Pc.inReceive, Pc.delivering, Pc.succeeding, Ret.target]

theorem delivering_run (cfg : Config) (env : Nat → Obs) (s : State)
    (h : s.pc.delivering = true) : (run cfg env 7 s).pc = .done true := by
  obtain ⟨pc, link, op, pa, sc, rc, mask, i⟩ := s
  cases pc <;> simp_all [Pc.delivering, Pc.succeeding, run, step, Ret.target]

/-- C5: in every execution of `receiveMessage`, a busy-wait that times out at step `k` makes
the call return false (seven steps later: the failing `resetPins` and the return); whenever
the call has returned false the caller's `opcode` and `parameter` hold the values they had
before the call and all three pins are inputs with pull-ups; and the caller's variables can
differ from their initial values only on the path that returns true. -/
theorem C5_receive_atomic_on_failure (cfg : Config) (env : Nat → Obs) (s : State) :
    (∀ k, timesOut (env k) (run cfg env k (callReceiveMessage s)) = true →
      (run cfg env (k + 7) (callReceiveMessage s)).pc = .done false) ∧
    (∀ n, (run cfg env n (callReceiveMessage s)).pc = .done false →
      (run cfg env n (callReceiveMessage s)).opcode = s.opcode ∧
      (run cfg env n (callReceiveMessage s)).parameter = s.parameter ∧
      (run cfg env n (callReceiveMessage s)).link.idle) ∧
    (∀ n, ((run cfg env n (callReceiveMessage s)).opcode ≠ s.opcode ∨
           (run cfg env n (callReceiveMessage s)).parameter ≠ s.parameter) →
      (run cfg env (n + 7) (callReceiveMessage s)).pc = .done true) := by
  have hinv : ∀ n, RecvOutInv s.opcode s.parameter (run cfg env n (callReceiveMessage s)) :=
    run_inv cfg env (RecvOutInv_step cfg · s.opcode s.parameter) (by
      simp [RecvOutInv, callReceiveMessage, Pc.inReceive, Pc.delivering, Pc.succeeding])
  refine ⟨?_, ?_, ?_⟩
  · intro k hk
    have h1 : run cfg env (k + 1) (callReceiveMessage s) =
        { run cfg env k (callReceiveMessage s) with pc := .R307 .retFalse } := by
      rw [run_succ, timesOut_step cfg _ _ hk]
    have : k + 7 = (k + 1) + 6 := by omega
    rw [this, run_add]
    exact failing_run cfg _ _ (by rw [h1]; rfl)
  · intro n hn
    have h := (hinv n).2 (by simp [Pc.delivering, Pc.succeeding, hn])
    exact ⟨h.1, h.2, idle_of_done cfg env _ (by simp [ResetInv, callReceiveMessage]) n false hn⟩
  · intro n hn
    have hd : (run cfg env n (callReceiveMessage s)).pc.delivering = true := by
      by_contra hc
      have h := (hinv n).2 (by simpa using hc)
      rcases hn with hn | hn
      · exact hn h.1
      · exact hn h.2
    rw [run_add]
    exact delivering_run cfg _ _ hd

theorem C5_witness :
    (run cfg0 envSilent (16 + 7) (callReceiveMessage state1)).pc = .done false ∧
    ((run cfg0 envSilent 30 (callReceiveMessage state1)).opcode = 17 ∧
     (run cfg0 envSilent 30 (callReceiveMessage state1)).parameter = 42 ∧
     (run cfg0 envSilent 30 (callReceiveMessage state1)).link.idle) ∧
    (run cfg0 envData (164 + 7) (callReceiveMessage state1)).pc = .done true :=
  ⟨(C5_receive_atomic_on_failure cfg0 envSilent state1).1 16 (by decide),
   (C5_receive_atomic_on_failure cfg0 envSilent state1).2.1 30 (by decide),
   (C5_receive_atomic_on_failure cfg0 envData state1).2.2 164 (Or.inl (by decide))⟩

/-! ## C6: send fails exactly on timeout or a missing success indicator -/

theorem enter_failing (cfg : Config) (o : Obs) (s : State) (h1 : s.pc.failing = false)
    (h2 : (step cfg o s).pc.failing = true) :
    timesOut o s = true ∨ dataLowAtCheck o s = true := by
  obtain ⟨pc, link, op, pa, sc, rc, mask, i⟩ := s
  cases pc <;> (try (rename_i k; cases k)) <;> simp only [step, await] at h2 <;>
    (try split_ifs at h2) <;>
    simp_all [Pc.failing, timesOut, dataLowAtCheck, Pc.polls, Ret.target, transmitRequested]

theorem dataLowAtCheck_step (cfg : Config) (o : Obs) (s : State)
    (h : dataLowAtCheck o s = true) : step cfg o s = { s with pc := .R307 .retFalse } := by
  obtain ⟨pc, link, op, pa, sc, rc, mask, i⟩ := s
  simp only [dataLowAtCheck, Bool.and_eq_true, decide_eq_true_eq] at h
  obtain ⟨h1, h2⟩ := h
  have h3 : pc = .L279 := h1
  subst h3
  simp [step, h2]

theorem enter_afterCheck (cfg : Config) (o : Obs) (s : State) (h0 : s.pc.inSend = true)
    (h1 : s.pc.afterCheck = false) (h2 : (step cfg o s).pc.afterCheck = true) :
    s.pc = .L279 ∧ digitalRead .DSApin o = HIGH := by
  obtain ⟨pc, link, op, pa, sc, rc, mask, i⟩ := s
  cases pc <;> (try (rename_i k; cases k)) <;> simp only [step, await] at h2 <;>
    (try split_ifs at h2) <;>
    simp_all [Pc.afterCheck, Pc.inSend, Ret.target]

theorem SendWaitInv_step (cfg : Config) (o : Obs) (s : State) (t : Nat)
    (h : SendWaitInv s t) :
    SendWaitInv (step cfg o s) (t + if completes o s then 1 else 0) := by
  obtain ⟨pc, link, op, pa, sc, rc, mask, i⟩ := s
  cases pc <;> (try (rename_i k; cases k)) <;> simp only [step, await] <;> (try split_ifs) <;>
    simp_all [SendWaitInv, Pc.inSend, Pc.failing, Pc.sendWaitsDone, Pc.sendLoopBound,
      completes, Pc.polls, Ret.target] <;> omega

theorem sendWaitsDone_full (pc : Pc) (i : Nat) (h0 : pc.inSend = true)
    (h1 : pc.failing = false) (h2 : pc.sendWaitsDone i = 36) (h3 : pc.sendLoopBound i) :
    pc.succeeding = true := by
  cases pc <;> (try (rename_i k; cases k)) <;>
    simp_all [Pc.inSend, Pc.failing, Pc.sendWaitsDone, Pc.sendLoopBound, Pc.succeeding] <;> omega

theorem SendWaitInv_run (cfg : Config) (env : Nat → Obs) (opcode parameter : Nat) (s : State)
    (n : Nat) :
    SendWaitInv (run cfg env n (callSendMessage opcode parameter s))
      (completedWaits cfg env n (callSendMessage opcode parameter s)) := by
  unfold completedWaits
  refine collect_inv _ cfg env (fun s t => SendWaitInv s t.length) ?_ ?_ n
  · intro o s t h
    have := SendWaitInv_step cfg o s _ h
    by_cases hc : completes o s = true <;> simpa [hc] using this
  · simp [SendWaitInv, callSendMessage, Pc.inSend, Pc.failing, Pc.sendWaitsDone, Pc.sendLoopBound]

theorem done_unique (cfg : Config) (env : Nat → Obs) (s : State) (m n : Nat) (a b : Bool)
    (hm : (run cfg env m s).pc = .done a) (hn : (run cfg env n s).pc = .done b) : a = b := by
  have h1 := run_done_le cfg env m (max m n) s a hm (Nat.le_max_left m n)
  have h2 := run_done_le cfg env n (max m n) s b hn (Nat.le_max_right m n)
  rw [h1] at h2
  rw [h2, hn] at hm
  exact (Pc.done.inj hm).symm

/-- C6: for every execution of `sendMessage(opcode, parameter)`: the call returns false iff
at some step a busy-wait timed out or the final check (line 279, reached only after Strobe
was read `LOW`) read Data `LOW`; whenever it has returned false all three pins are inputs
with pull-ups; it returns true iff all 36 busy-waits (2 of the synchronization phase, 32 of
the data phase, 2 of the acknowledge phase) completed, in which case Data was read `HIGH`
at the final check and no busy-wait timed out. -/
theorem C6_send_fails_exactly (cfg : Config) (env : Nat → Obs) (opcode parameter : Nat)
    (s : State) :
    ((∃ n, (run cfg env n (callSendMessage opcode parameter s)).pc = .done false) ↔
      ∃ k, timesOut (env k) (run cfg env k (callSendMessage opcode parameter s)) = true ∨
           dataLowAtCheck (env k) (run cfg env k (callSendMessage opcode parameter s)) = true) ∧
    (∀ n, (run cfg env n (callSendMessage opcode parameter s)).pc = .done false →
      (run cfg env n (callSendMessage opcode parameter s)).link.idle) ∧
    ((∃ n, (run cfg env n (callSendMessage opcode parameter s)).pc = .done true) ↔
      ∃ n, completedWaits cfg env n (callSendMessage opcode parameter s) = 36) ∧
    ((∃ n, (run cfg env n (callSendMessage opcode parameter s)).pc = .done true) →
      (∃ k, (run cfg env k (callSendMessage opcode parameter s)).pc = .L279 ∧
        digitalRead .DSApin (env k) = HIGH) ∧
      ∀ k, timesOut (env k) (run cfg env k (callSendMessage opcode parameter s)) = false ∧
        dataLowAtCheck (env k) (run cfg env k (callSendMessage opcode parameter s)) = false) := by
  have hinv := SendWaitInv_run cfg env opcode parameter s
  have hfail : ∀ k, (timesOut (env k) (run cfg env k (callSendMessage opcode parameter s)) = true ∨
      dataLowAtCheck (env k) (run cfg env k (callSendMessage opcode parameter s)) = true) →
      (run cfg env ((k + 1) + 6) (callSendMessage opcode parameter s)).pc = .done false := by
    intro k hk
    rw [run_add]
    apply failing_run
    rw [run_succ]
    rcases hk with hk | hk
    · rw [timesOut_step cfg _ _ hk]; rfl
    · rw [dataLowAtCheck_step cfg _ _ hk]; rfl
  refine ⟨⟨?_, ?_⟩, ?_, ⟨?_, ?_⟩, ?_⟩
  · rintro ⟨n, hn⟩
    obtain ⟨k, -, h1, h2⟩ := first_entry cfg env (fun x => x.pc.failing)
      (callSendMessage opcode parameter s) rfl n (by simp only [hn]; rfl)
    exact ⟨k, enter_failing cfg _ _ h1 h2⟩
  · rintro ⟨k, hk⟩
    exact ⟨(k + 1) + 6, hfail k hk⟩
  · intro n hn
    exact idle_of_done cfg env _ (by simp [ResetInv, callSendMessage]) n false hn
  · rintro ⟨n, hn⟩
    refine ⟨n, ?_⟩
    have h := (hinv n).2.2 (by rw [hn]; rfl)
    rw [h.1, hn]; rfl
  · rintro ⟨n, hn⟩
    obtain ⟨h0, h1, h2⟩ := hinv n
    have hf : (run cfg env n (callSendMessage opcode parameter s)).pc.failing = false := by
      by_contra hc
      have := h1 (by simpa using hc)
      omega
    obtain ⟨h3, h4⟩ := h2 hf
    refine ⟨n + 6, ?_⟩
    rw [run_add]
    exact succeeding_run cfg _ _ (sendWaitsDone_full _ _ h0 hf (by rw [← h3, hn]) h4)
  · rintro ⟨n, hn⟩
    obtain ⟨k, -, h1, h2⟩ := first_entry cfg env (fun x => x.pc.afterCheck)
      (callSendMessage opcode parameter s) rfl n (by simp only [hn]; rfl)
    refine ⟨⟨k, enter_afterCheck cfg _ _ (hinv k).1 h1 h2⟩, ?_⟩
    intro j
    by_contra hc
    have hj : timesOut (env j) (run cfg env j (callSendMessage opcode parameter s)) = true ∨
        dataLowAtCheck (env j) (run cfg env j (callSendMessage opcode parameter s)) = true := by
      by_contra hd
      apply hc
      constructor
      · cases hx : timesOut (env j) (run cfg env j (callSendMessage opcode parameter s))
        · rfl
        · exact absurd (Or.inl hx) hd
      · cases hx : dataLowAtCheck (env j) (run cfg env j (callSendMessage opcode parameter s))
        · rfl
        · exact absurd (Or.inr hx) hd
    have := done_unique cfg env _ _ _ _ _ (hfail j hj) hn
    exact Bool.noConfusion this

theorem C6_witness :
    (∃ n, (run cfg0 envSilent n (callSendMessage 0xA5 0x3C state1)).pc = .done false) ∧
    (run cfg0 envSilent 21 (callSendMessage 0xA5 0x3C state1)).link.idle ∧
    (∃ n, completedWaits cfg0 envToggle n (callSendMessage 0xA5 0x3C state1) = 36) ∧
    ((∃ k, (run cfg0 envToggle k (callSendMessage 0xA5 0x3C state1)).pc = .L279 ∧
        digitalRead .DSApin (envToggle k) = HIGH) ∧
      ∀ k, timesOut (envToggle k) (run cfg0 envToggle k (callSendMessage 0xA5 0x3C state1)) = false ∧
        dataLowAtCheck (envToggle k)
          (run cfg0 envToggle k (callSendMessage 0xA5 0x3C state1)) = false) :=
  ⟨(C6_send_fails_exactly cfg0 envSilent 0xA5 0x3C state1).1.2 ⟨14, Or.inl (by decide)⟩,
   (C6_send_fails_exactly cfg0 envSilent 0xA5 0x3C state1).2.1 21 (by decide),
   (C6_send_fails_exactly cfg0 envToggle 0xA5 0x3C state1).2.2.1.1 ⟨172, by decide⟩,
   (C6_send_fails_exactly cfg0 envToggle 0xA5 0x3C state1).2.2.2 ⟨172, by decide⟩⟩

/-! ## C7: idle postcondition on every path -/

/-- C7: the constructor leaves Data, Strobe and Acknowledge as inputs with their pull-ups
enabled, and so does every execution of `sendMessage`, `receiveMessage` and
`waitForMessage` that has returned (with either result), whatever the pin configuration,
timer fields and locals were at the call. -/
theorem C7_idle_postcondition (cfg : Config) (env : Nat → Obs) (s : State)
    (opcode parameter : Nat) (n : Nat) (b : Bool) :
    (construct cfg s.link).idle ∧
    ((run cfg env n (callSendMessage opcode parameter s)).pc = .done b →
      (run cfg env n (callSendMessage opcode parameter s)).link.idle) ∧
    ((run cfg env n (callReceiveMessage s)).pc = .done b →
      (run cfg env n (callReceiveMessage s)).link.idle) ∧
    ((run cfg env n (callWaitForMessage s)).pc = .done b →
      (run cfg env n (callWaitForMessage s)).link.idle) :=
  ⟨resetPins_idle cfg s.link,
   idle_of_done cfg env _ (by simp [ResetInv, callSendMessage]) n b,
   idle_of_done cfg env _ (by simp [ResetInv, callReceiveMessage]) n b,
   idle_of_done cfg env _ (by simp [ResetInv, callWaitForMessage]) n b⟩

theorem C7_witness :
    (run cfg0 envToggle 172 (callSendMessage 0xA5 0x3C state1)).link.idle ∧
    (run cfg0 envToggle 162 (callReceiveMessage state1)).link.idle ∧
    (run cfg0 envSilent 10 (callWaitForMessage state1)).link.idle :=
  ⟨(C7_idle_postcondition cfg0 envToggle state1 0xA5 0x3C 172 true).2.1 (by decide),
   (C7_idle_postcondition cfg0 envToggle state1 0 0 162 true).2.2.1 (by decide),
   (C7_idle_postcondition cfg0 envSilent state1 0 0 10 false).2.2.2 (by decide)⟩

/-! ## C8: send does not hang on an absent peer -/

theorem send_prelude (cfg : Config) (env : Nat → Obs) (op pa : Nat) (s : State) :
    (run cfg env 13 (callSendMessage op pa s)).pc = .L222 ∧
    (run cfg env 13 (callSendMessage op pa s)).link.timeoutStartTime = millis (env 11) ∧
    (run cfg env 13 (callSendMessage op pa s)).link.timeoutTime = cfg.DSA_TIMEOUT := by
  simp [run, step, callSendMessage, Ret.target, pinMode, digitalWrite, startTimeoutTimer]

theorem timeOut_eq (o : Obs) (l : Link) (h1 : l.timeoutStartTime < 2 ^ 32)
    (h2 : l.timeoutStartTime ≤ millis o) :
    timeOut o l = decide (millis o > l.timeoutStartTime + l.timeoutTime) := by
  unfold timeOut
  have h0 : millis o < 2 ^ 32 := Nat.mod_lt _ (by norm_num)
  rw [Nat.mod_eq_of_lt h1]
  have : (millis o + 2 ^ 32 - l.timeoutStartTime) % 2 ^ 32 = millis o - l.timeoutStartTime := by
    rw [show millis o + 2 ^ 32 - l.timeoutStartTime = (millis o - l.timeoutStartTime) + 2 ^ 32
      by omega, Nat.add_mod_right, Nat.mod_eq_of_lt (by omega)]
  rw [this]
  congr 1
  apply propext
  omega

theorem sendSync_step (cfg : Config) (o : Obs) (s : State) (t : List PinState)
    (hack : o.ack = HIGH) (h : s.pc.sendSync = true ∧ t = []) :
    (step cfg o s).pc.sendSync = true ∧
      t ++ (if s.pc = .L247 then some s.link.dsa else none).toList = [] := by
  obtain ⟨pc, link, op', pa', sc, rc, mask, i⟩ := s
  cases pc <;> (try (rename_i k; cases k)) <;> simp only [step, await] <;> (try split_ifs) <;>
    simp_all [Pc.sendSync, Ret.target, digitalRead]

theorem sendSync_run (cfg : Config) (env : Nat → Obs) (op pa : Nat) (s : State)
    (hack : ∀ k, (env k).ack = HIGH) (n : Nat) :
    (run cfg env n (callSendMessage op pa s)).pc.sendSync = true ∧
      strobedData cfg env n (callSendMessage op pa s) = [] := by
  induction n with
  | zero => exact ⟨rfl, rfl⟩
  | succ n ih => exact sendSync_step cfg (env n) _ _ (hack n) ih

theorem failing_pcs (cfg : Config) (env : Nat → Obs) (s : State) (j : Nat) (hj : j < 6)
    (b : Bool) : (run cfg env j { s with pc := .R307 .retFalse }).pc ≠ .done b := by
  interval_cases j <;> simp [run, step]

/-- C8: if every read of Acknowledge returns `HIGH`, the clock readings (the values of
`millis()`) are non-decreasing, and some reading exceeds the one taken by
`startTimeoutTimer` in the
synchronization phase (line 219, the twelfth step of the call) by more than `DSA_TIMEOUT`,
then `sendMessage` returns false: there is a first poll `k` of the busy-wait at line 222
whose clock reading exceeds that start by more than `DSA_TIMEOUT`; the machine is still
polling at `k`, no busy-wait timed out before, the one at `k` does, and the call returns
false seven steps later (the failing `resetPins` and the return) and not before. At no
step does the machine stand at line 238 (Strobe to output) or 247 (present a bit), and no
Strobe pulse is ever made. -/
theorem C8_send_absent_peer (cfg : Config) (env : Nat → Obs) (opcode parameter : Nat)
    (s : State)
    (hack : ∀ k, (env k).ack = HIGH)
    (hmono : ∀ j k, j ≤ k → millis (env j) ≤ millis (env k))
    (hlate : ∃ k, millis (env k) > millis (env 11) + cfg.DSA_TIMEOUT) :
    (∃ k, 13 ≤ k ∧ millis (env k) > millis (env 11) + cfg.DSA_TIMEOUT ∧
      (∀ j, 13 ≤ j → j < k → ¬ millis (env j) > millis (env 11) + cfg.DSA_TIMEOUT) ∧
      (run cfg env k (callSendMessage opcode parameter s)).pc = .L222 ∧
      timesOut (env k) (run cfg env k (callSendMessage opcode parameter s)) = true ∧
      (∀ j, j < k →
        timesOut (env j) (run cfg env j (callSendMessage opcode parameter s)) = false) ∧
      (run cfg env (k + 7) (callSendMessage opcode parameter s)).pc = .done false ∧
      ∀ n b, n < k + 7 → (run cfg env n (callSendMessage opcode parameter s)).pc ≠ .done b) ∧
    (run cfg env 11 (callSendMessage opcode parameter s)).pc = .L219 ∧
    ∀ n, (run cfg env n (callSendMessage opcode parameter s)).pc ≠ .L238 ∧
      (run cfg env n (callSendMessage opcode parameter s)).pc ≠ .L247 ∧
      strobedData cfg env n (callSendMessage opcode parameter s) = [] := by
  obtain ⟨hpc, hstart, htime⟩ := send_prelude cfg env opcode parameter s
  -- the first poll whose clock reading exceeds the start by more than the timeout
  have hex : ∃ k, 13 ≤ k ∧ millis (env k) > millis (env 11) + cfg.DSA_TIMEOUT := by
    obtain ⟨k0, hk0⟩ := hlate
    exact ⟨max k0 13, Nat.le_max_right _ _,
      Nat.lt_of_lt_of_le hk0 (hmono _ _ (Nat.le_max_left _ _))⟩
  classical
  let k := Nat.find hex
  have hk : 13 ≤ k ∧ millis (env k) > millis (env 11) + cfg.DSA_TIMEOUT := Nat.find_spec hex
  have hmin : ∀ j, 13 ≤ j → j < k → ¬ millis (env j) > millis (env 11) + cfg.DSA_TIMEOUT :=
    fun j h13 hjk hj => Nat.find_min hex hjk ⟨h13, hj⟩
  -- the timer test at a poll, in terms of the clock readings
  have htest : ∀ j, 13 ≤ j →
      timeOut (env j) (run cfg env 13 (callSendMessage opcode parameter s)).link =
        decide (millis (env j) > millis (env 11) + cfg.DSA_TIMEOUT) := by
    intro j hj
    rw [timeOut_eq _ _ (by rw [hstart]; exact Nat.mod_lt _ (by norm_num))
      (by rw [hstart]; exact hmono _ _ (by omega)), hstart, htime]
  -- polling without progress
  have hstay : ∀ d, 13 + d ≤ k → run cfg env (13 + d) (callSendMessage opcode parameter s) =
      run cfg env 13 (callSendMessage opcode parameter s) := by
    intro d
    induction d with
    | zero => intro _; rfl
    | succ d ih =>
      intro hd
      rw [← Nat.add_assoc, run_succ, ih (by omega)]
      have h1 := htest (13 + d) (by omega)
      have h2 := hmin (13 + d) (by omega) (by omega)
      rw [decide_eq_false h2] at h1
      generalize run cfg env 13 (callSendMessage opcode parameter s) = x at hpc h1 ⊢
      obtain ⟨pc, link, op', pa', sc, rc, mask, i⟩ := x
      simp only at hpc h1
      subst hpc
      simp [step, await, digitalRead, hack, h1]
  have hrunk : run cfg env k (callSendMessage opcode parameter s) =
      run cfg env 13 (callSendMessage opcode parameter s) := by
    have := hstay (k - 13) (by omega)
    rwa [show 13 + (k - 13) = k by omega] at this
  have hfire : timesOut (env k) (run cfg env k (callSendMessage opcode parameter s)) = true := by
    rw [hrunk]
    have h1 := htest k hk.1
    rw [decide_eq_true hk.2] at h1
    simp [timesOut, hpc, Pc.polls, digitalRead, hack, h1]
  have hnext : run cfg env (k + 1) (callSendMessage opcode parameter s) =
      { run cfg env k (callSendMessage opcode parameter s) with pc := .R307 .retFalse } := by
    rw [run_succ, timesOut_step cfg _ _ hfire]
  refine ⟨⟨k, hk.1, hk.2, hmin, by rw [hrunk, hpc], hfire, ?_, ?_, ?_⟩, ?_, ?_⟩
  · intro j hj
    by_contra hc
    have hc' : timesOut (env j) (run cfg env j (callSendMessage opcode parameter s)) = true := by
      simpa using hc
    have h7 : (run cfg env ((j + 1) + 6) (callSendMessage opcode parameter s)).pc =
        .done false := by
      rw [run_add]
      apply failing_run
      rw [run_succ, timesOut_step cfg _ _ hc']
      rfl
    by_cases hle : j + 7 ≤ k
    · have := run_done_le cfg env _ k _ false h7 (by omega)
      rw [← hrunk, this, h7] at hpc
      exact Pc.noConfusion hpc
    · -- `j` is a poll between steps 13 and `k`, or a step of the prelude
      by_cases h13 : 13 ≤ j
      · have := hstay (j - 13) (by omega)
        rw [show 13 + (j - 13) = j by omega] at this
        have h1 := htest j h13
        rw [decide_eq_false (hmin j h13 hj)] at h1
        rw [this] at hc'
        simp [timesOut, hpc, Pc.polls, h1] at hc'
      · have hj13 : j < 13 := by omega
        clear hle h7 hc hj h13
        interval_cases j <;>
          simp [run, step, callSendMessage, timesOut, Pc.polls, Ret.target] at hc'
  · have : k + 7 = (k + 1) + 6 := by omega
    rw [this, run_add]
    exact failing_run cfg _ _ (by rw [hnext]; rfl)
  · intro n b hn hdone
    by_cases hle : n ≤ k
    · have := run_done_le cfg env n k _ b hdone hle
      rw [hrunk] at this
      rw [this, hdone] at hpc
      exact Pc.noConfusion hpc
    · have hn' : n = (k + 1) + (n - (k + 1)) := by omega
      rw [hn', run_add, hnext] at hdone
      exact failing_pcs cfg _ _ (n - (k + 1)) (by omega) b hdone
  · simp [run, step, callSendMessage, Ret.target]
  · intro n
    obtain ⟨h1, h2⟩ := sendSync_run cfg env opcode parameter s hack n
    refine ⟨?_, ?_, h2⟩
    · intro hc; rw [hc] at h1; exact Bool.noConfusion h1
    · intro hc; rw [hc] at h1; exact Bool.noConfusion h1


theorem C8_witness :
    ∃ k, 13 ≤ k ∧
      (run cfg0 envAbsent k (callSendMessage 0xA5 0x3C state1)).pc = .L222 ∧
      (run cfg0 envAbsent (k + 7) (callSendMessage 0xA5 0x3C state1)).pc = .done false :=
  have h := C8_send_absent_peer cfg0 envAbsent 0xA5 0x3C state1 (fun _ => rfl)
    (fun j k hjk => by
      have hj : min (100 * j) 5000 < 2 ^ 32 := by omega
      have hk : min (100 * k) 5000 < 2 ^ 32 := by omega
      simp only [millis, envAbsent, Nat.mod_eq_of_lt hj, Nat.mod_eq_of_lt hk]
      omega) ⟨20, by decide⟩
  h.1.elim fun k hk => ⟨k, hk.1, hk.2.2.2.1, hk.2.2.2.2.2.2.1⟩

/-! ## C9: waitForMessage is poll-then-receive -/

theorem WaitPollInv_step (cfg : Config) (o0 o : Obs) (s0 s : State)
    (h : WaitPollInv cfg o0 s0 s) (hdata : s.pc = .L88 → digitalRead .DSApin o = HIGH) :
    WaitPollInv cfg o0 s0 (step cfg o s) := by
  obtain ⟨pc, link, op', pa', sc, rc, mask, i⟩ := s
  obtain ⟨⟨dm, dl⟩, ⟨sm, sl⟩, ⟨am, al⟩, tt, ts⟩ := link
  cases pc <;> (try (rename_i k; cases k)) <;> simp only [step, await] <;> (try split_ifs) <;>
    simp_all [WaitPollInv, Pc.waitPoll, noNewOutput, Ret.target, pinMode, setMode,
      digitalWrite, transmitRequested]

theorem leave_waitPoll (cfg : Config) (o : Obs) (s : State) (h1 : s.pc.waitPoll = true)
    (h2 : (step cfg o s).pc.waitPoll = false) : s.pc = .L88 ∧ digitalRead .DSApin o = LOW := by
  obtain ⟨pc, link, op', pa', sc, rc, mask, i⟩ := s
  cases pc <;> (try (rename_i k; cases k)) <;> simp only [step, await] at h2 <;>
    (try split_ifs at h2) <;>
    simp_all [Pc.waitPoll, Ret.target, transmitRequested]

theorem failing_step (cfg : Config) (o : Obs) (s : State) (h : s.pc.failing = true) :
    (step cfg o s).pc.failing = true := by
  obtain ⟨pc, link, op', pa', sc, rc, mask, i⟩ := s
  cases pc <;> (try (rename_i k; cases k)) <;> simp_all [Pc.failing, step, Ret.target]

theorem failing_run_all (cfg : Config) (env : Nat → Obs) (s : State)
    (h : s.pc.failing = true) (n : Nat) : (run cfg env n s).pc.failing = true := by
  induction n with
  | zero => exact h
  | succ n ih => exact failing_step cfg _ _ ih

theorem WaitPollInv_run (cfg : Config) (env : Nat → Obs) (s : State) (n : Nat)
    (h : ∀ j, j ≤ n → (run cfg env j (callWaitForMessage s)).pc = .L88 →
      digitalRead .DSApin (env j) = HIGH) :
    WaitPollInv cfg (env 0) s (run cfg env (n + 1) (callWaitForMessage s)) := by
  induction n with
  | zero =>
    obtain ⟨pc, ⟨⟨dm, dl⟩, ⟨sm, sl⟩, ⟨am, al⟩, tt, ts⟩, op', pa', sc, rc, mask, i⟩ := s
    simp [run, step, callWaitForMessage, WaitPollInv, Pc.waitPoll, noNewOutput,
      startTimeoutTimer]
  | succ n ih =>
    rw [run_succ]
    exact WaitPollInv_step cfg _ _ _ _ (ih (fun j hj => h j (by omega))) (h (n + 1) (by omega))

theorem into_L88 (cfg : Config) (o : Obs) (s : State) (h : s.pc ≠ .L87) :
    (step cfg o s).pc ≠ .L87 ∧ ((step cfg o s).pc = .L88 → s.pc = .L88 ∧ step cfg o s = s) := by
  obtain ⟨pc, link, op', pa', sc, rc, mask, i⟩ := s
  cases pc <;> (try (rename_i k; cases k)) <;> simp only [step, await] <;> (try split_ifs) <;>
    simp_all [Ret.target]

theorem polling_state (cfg : Config) (env : Nat → Obs) (s : State) (n : Nat) :
    (run cfg env (n + 1) (callWaitForMessage s)).pc ≠ .L87 ∧
    ((run cfg env (n + 1) (callWaitForMessage s)).pc = .L88 →
      run cfg env (n + 1) (callWaitForMessage s) =
        { s with pc := .L88, link := startTimeoutTimer cfg.DSA_TIMEOUT (env 0) s.link }) := by
  induction n with
  | zero => simp [run, step, callWaitForMessage]
  | succ n ih =>
    rw [run_succ]
    obtain ⟨h1, h2⟩ := into_L88 cfg (env (n + 1)) _ ih.1
    refine ⟨h1, fun h => ?_⟩
    obtain ⟨h3, h4⟩ := h2 h
    rw [h4]
    exact ih.2 h3

/-- C9: `waitForMessage` starts one timer at entry and then polls: a state that polls is
the call state with that timer started. If every poll of Data up to step `k` reads `HIGH`
and the poll at `k` times out, the call returns false seven steps later, and at every step
the machine is in the polling loop or on its failure path, the caller's `opcode` and
`parameter` are unchanged and no pin has been made an output. If the poll at step `k`
reads Data `LOW`, then from step `k + 2` on (the `return receiveMessage(...)` and the
entry) the execution is exactly that of `receiveMessage` called on the object as it is at
that point, so result and outputs are those of `receiveMessage`. The machine leaves the
polling loop towards `receiveMessage` only after such a poll. -/
theorem C9_waitForMessage (cfg : Config) (env : Nat → Obs) (s : State) :
    (∀ k, (run cfg env k (callWaitForMessage s)).pc = .L88 →
      run cfg env k (callWaitForMessage s) =
        { s with pc := .L88, link := startTimeoutTimer cfg.DSA_TIMEOUT (env 0) s.link }) ∧
    (∀ k, (∀ j, j ≤ k → (run cfg env j (callWaitForMessage s)).pc = .L88 →
          digitalRead .DSApin (env j) = HIGH) →
        timesOut (env k) (run cfg env k (callWaitForMessage s)) = true →
      (run cfg env (k + 7) (callWaitForMessage s)).pc = .done false ∧
      ∀ n, (run cfg env n (callWaitForMessage s)).pc.waitPoll = true ∧
        (run cfg env n (callWaitForMessage s)).opcode = s.opcode ∧
        (run cfg env n (callWaitForMessage s)).parameter = s.parameter ∧
        noNewOutput s.link (run cfg env n (callWaitForMessage s)).link) ∧
    (∀ k, (run cfg env k (callWaitForMessage s)).pc = .L88 →
        digitalRead .DSApin (env k) = LOW →
      ∀ m, run cfg env (k + 2 + m) (callWaitForMessage s) =
        run cfg (fun j => env (k + 2 + j)) m
          (callReceiveMessage
            { s with link := startTimeoutTimer cfg.DSA_TIMEOUT (env 0) s.link })) ∧
    (∀ n, (run cfg env n (callWaitForMessage s)).pc.waitPoll = false →
      ∃ k, k < n ∧ (run cfg env k (callWaitForMessage s)).pc = .L88 ∧
        digitalRead .DSApin (env k) = LOW) := by
  have hpoll : ∀ k, (run cfg env k (callWaitForMessage s)).pc = .L88 →
      run cfg env k (callWaitForMessage s) =
        { s with pc := .L88, link := startTimeoutTimer cfg.DSA_TIMEOUT (env 0) s.link } := by
    intro k hk
    cases k with
    | zero => simp [run, callWaitForMessage] at hk
    | succ k => exact (polling_state cfg env s k).2 hk
  refine ⟨hpoll, ?_, ?_, ?_⟩
  · intro k hhigh hout
    have hnext : run cfg env (k + 1) (callWaitForMessage s) =
        { run cfg env k (callWaitForMessage s) with pc := .R307 .retFalse } := by
      rw [run_succ, timesOut_step cfg _ _ hout]
    refine ⟨?_, ?_⟩
    · have : k + 7 = (k + 1) + 6 := by omega
      rw [this, run_add]
      exact failing_run cfg _ _ (by rw [hnext]; rfl)
    · intro n
      cases n with
      | zero => simp [run, callWaitForMessage, Pc.waitPoll, noNewOutput]
      | succ n =>
        have hinv := WaitPollInv_run cfg env s n (by
          intro j hj hpc
          by_cases hjk : j ≤ k
          · exact hhigh j hjk hpc
          · have hf := failing_run_all cfg (fun i => env (k + 1 + i))
              (run cfg env (k + 1) (callWaitForMessage s)) (by rw [hnext]; rfl) (j - (k + 1))
            rw [← run_add, show k + 1 + (j - (k + 1)) = j by omega, hpc] at hf
            exact Bool.noConfusion hf)
        exact ⟨hinv.1, hinv.2.2.1, hinv.2.2.2.1, hinv.2.2.2.2.1⟩
  · intro k hk hlow m
    have h2 : run cfg env (k + 2) (callWaitForMessage s) =
        callReceiveMessage
          { s with link := startTimeoutTimer cfg.DSA_TIMEOUT (env 0) s.link } := by
      rw [show k + 2 = (k + 1) + 1 by omega, run_succ, run_succ, hpoll k hk]
      simp [step, await, transmitRequested, hlow, callReceiveMessage]
    rw [run_add, h2]
  · intro n hn
    obtain ⟨k, hk, h1, h2⟩ := first_entry cfg env (fun x => !x.pc.waitPoll)
      (callWaitForMessage s) rfl n (by simp only [hn]; rfl)
    have h1' : (run cfg env k (callWaitForMessage s)).pc.waitPoll = true := by
      simpa using h1
    have h2' : (step cfg (env k) (run cfg env k (callWaitForMessage s))).pc.waitPoll = false := by
      simpa [run_succ] using h2
    exact ⟨k, hk, leave_waitPoll cfg _ _ h1' h2'⟩


theorem C9_witness :
    ((run cfg0 envSilent (3 + 7) (callWaitForMessage state1)).pc = .done false ∧
      ∀ n, (run cfg0 envSilent n (callWaitForMessage state1)).pc.waitPoll = true ∧
        (run cfg0 envSilent n (callWaitForMessage state1)).opcode = state1.opcode ∧
        (run cfg0 envSilent n (callWaitForMessage state1)).parameter = state1.parameter ∧
        noNewOutput state1.link (run cfg0 envSilent n (callWaitForMessage state1)).link) ∧
    run cfg0 envData (1 + 2 + 200) (callWaitForMessage state1) =
      run cfg0 (fun j => envData (1 + 2 + j)) 200
        (callReceiveMessage
          { state1 with link := startTimeoutTimer cfg0.DSA_TIMEOUT (envData 0) state1.link }) ∧
    ∃ k, k < 5 ∧ (run cfg0 envData k (callWaitForMessage state1)).pc = .L88 ∧
      digitalRead .DSApin (envData k) = LOW :=
  ⟨(C9_waitForMessage cfg0 envSilent state1).2.1 3 (fun _ _ _ => rfl) (by decide),
   (C9_waitForMessage cfg0 envData state1).2.2.1 1 (by decide) (by decide) 200,
   (C9_waitForMessage cfg0 envData state1).2.2.2 5 (by decide)⟩

/-! ## C10: no state leaks between calls -/

set_option maxHeartbeats 4000000 in
theorem Agree_step (cfg : Config) (o : Obs) (s t : State) (h : Agree s t) :
    Agree (step cfg o s) (step cfg o t) := by
  obtain ⟨pc, ⟨d, b, a, tt, ts⟩, op, pa, sc, rc, mask, i⟩ := s
  obtain ⟨pc', ⟨d', b', a', tt', ts'⟩, op', pa', sc', rc', mask', i'⟩ := t
  obtain ⟨hpc, hrest⟩ := h
  simp only at hpc
  subst hpc
  cases pc <;> (try (rename_i k; cases k)) <;>
    simp only [Agree, Pc.timerLive, Pc.scommandLive, Pc.rcommandLive, Pc.loopLive,
      decide_True, decide_False, true_implies, false_implies, and_true, true_and,
      Bool.false_eq_true] at hrest <;>
    simp only [step, await, timeOut, transmitRequested] <;>
    (try simp only [hrest]) <;>
    (try split_ifs) <;>
    simp_all [Agree, Pc.timerLive, Pc.scommandLive, Pc.rcommandLive,
      Pc.loopLive, Ret.target, pinMode, digitalWrite, startTimeoutTimer]


theorem sameOutcome_of_agree (cfg : Config) (env : Nat → Obs) (s t : State)
    (hs : ResetInv s) (ht : ResetInv t) (h : Agree s t) (n : Nat) :
    SameOutcome (run cfg env n s) (run cfg env n t) := by
  have hA : Agree (run cfg env n s) (run cfg env n t) := by
    induction n with
    | zero => exact h
    | succ n ih => exact Agree_step cfg _ _ _ ih
  obtain ⟨h1, h2, h3, h4, -⟩ := hA
  refine ⟨h1, h2, h3, fun r hr => ?_⟩
  have i1 := idle_of_done cfg env s hs n r hr
  have i2 := idle_of_done cfg env t ht n r (h1 ▸ hr)
  have h5 := h4 (by rw [hr]; rfl)
  obtain ⟨a1, a2, a3⟩ := i1
  obtain ⟨b1, b2, b3⟩ := i2
  generalize run cfg env n s = x at *
  generalize run cfg env n t = y at *
  obtain ⟨_, ⟨_, _, _, _, _⟩, _, _, _, _, _, _⟩ := x
  obtain ⟨_, ⟨_, _, _, _, _⟩, _, _, _, _, _, _⟩ := y
  simp_all

/-- C10: for each of `sendMessage`, `receiveMessage` and `waitForMessage`, two executions
that start from machine states differing arbitrarily in pin directions, latches (driven
levels and pull-ups), timer fields and stale locals, but with the same arguments (for the
receiving calls: the same values in the caller's variables) and the same sequence of line
and clock readings, are at every step at the same program counter with the same values in
the caller's variables; so they return the same result and write the same outputs, and
once returned their object states (pins and timer fields) are equal. -/
theorem C10_no_state_leak (cfg : Config) (env : Nat → Obs) (s t : State)
    (hop : s.opcode = t.opcode) (hpa : s.parameter = t.parameter)
    (opcode parameter : Nat) (n : Nat) :
    SameOutcome (run cfg env n (callSendMessage opcode parameter s))
      (run cfg env n (callSendMessage opcode parameter t)) ∧
    SameOutcome (run cfg env n (callReceiveMessage s)) (run cfg env n (callReceiveMessage t)) ∧
    SameOutcome (run cfg env n (callWaitForMessage s)) (run cfg env n (callWaitForMessage t)) := by
  refine ⟨?_, ?_, ?_⟩
  · exact sameOutcome_of_agree cfg env _ _ (by simp [ResetInv, callSendMessage])
      (by simp [ResetInv, callSendMessage])
      (by simp [Agree, callSendMessage, Pc.timerLive, Pc.scommandLive, Pc.rcommandLive,
        Pc.loopLive]) n
  · exact sameOutcome_of_agree cfg env _ _ (by simp [ResetInv, callReceiveMessage])
      (by simp [ResetInv, callReceiveMessage])
      (by simp [Agree, callReceiveMessage, Pc.timerLive, Pc.scommandLive, Pc.rcommandLive,
        Pc.loopLive, hop, hpa]) n
  · exact sameOutcome_of_agree cfg env _ _ (by simp [ResetInv, callWaitForMessage])
      (by simp [ResetInv, callWaitForMessage])
      (by simp [Agree, callWaitForMessage, Pc.timerLive, Pc.scommandLive, Pc.rcommandLive,
        Pc.loopLive, hop, hpa]) n

theorem C10_witness :
    state0.link ≠ state1.link ∧
    ((run cfg0 envToggle 172 (callSendMessage 0xA5 0x3C state0)).pc = .done true ∧
      (run cfg0 envToggle 172 (callSendMessage 0xA5 0x3C state1)).pc = .done true ∧
      (run cfg0 envToggle 172 (callSendMessage 0xA5 0x3C state0)).link =
        (run cfg0 envToggle 172 (callSendMessage 0xA5 0x3C state1)).link) ∧
    ((run cfg0 envData 164 (callReceiveMessage state0)).pc = .done true ∧
      (run cfg0 envData 164 (callReceiveMessage state1)).pc = .done true ∧
      (run cfg0 envData 164 (callReceiveMessage state0)).opcode =
        (run cfg0 envData 164 (callReceiveMessage state1)).opcode ∧
      (run cfg0 envData 164 (callReceiveMessage state0)).parameter =
        (run cfg0 envData 164 (callReceiveMessage state1)).parameter ∧
      (run cfg0 envData 164 (callReceiveMessage state0)).link =
        (run cfg0 envData 164 (callReceiveMessage state1)).link) ∧
    ((run cfg0 envSilent 10 (callWaitForMessage state0)).pc = .done false ∧
      (run cfg0 envSilent 10 (callWaitForMessage state1)).pc = .done false ∧
      (run cfg0 envSilent 10 (callWaitForMessage state0)).link =
        (run cfg0 envSilent 10 (callWaitForMessage state1)).link) ∧
    ((run cfg0 envSilent 21 (callSendMessage 0xA5 0x3C state0)).pc = .done false ∧
      (run cfg0 envSilent 21 (callSendMessage 0xA5 0x3C state1)).pc = .done false ∧
      (run cfg0 envSilent 21 (callSendMessage 0xA5 0x3C state0)).link =
        (run cfg0 envSilent 21 (callSendMessage 0xA5 0x3C state1)).link) :=
  ⟨by decide,
   ⟨by decide, by decide,
    (C10_no_state_leak cfg0 envToggle state0 state1 rfl rfl 0xA5 0x3C 172).1.2.2.2 true
      (by decide)⟩,
   ⟨by decide, by decide,
    (C10_no_state_leak cfg0 envData state0 state1 rfl rfl 0 0 164).2.1.2.1,
    (C10_no_state_leak cfg0 envData state0 state1 rfl rfl 0 0 164).2.1.2.2.1,
    (C10_no_state_leak cfg0 envData state0 state1 rfl rfl 0 0 164).2.1.2.2.2 true
      (by decide)⟩,
   ⟨by decide, by decide,
    (C10_no_state_leak cfg0 envSilent state0 state1 rfl rfl 0 0 10).2.2.2.2.2 false
      (by decide)⟩,
   ⟨by decide, by decide,
    (C10_no_state_leak cfg0 envSilent state0 state1 rfl rfl 0xA5 0x3C 21).1.2.2.2 false
      (by decide)⟩⟩

/-! ## C1: round trip of a sender and a receiver wired together -/

theorem inStep_sender_free (σ ρ : Nat) (h : InStep σ ρ) (h0 : σ % 2 = 0) : InStep (σ + 1) ρ := by
  unfold InStep at *; omega

theorem inStep_sender_ackLow (σ ρ : Nat) (h : InStep σ ρ) (h0 : σ % 4 = 1) (h1 : σ < 68)
    (hl : 1 ≤ ρ ∧ ρ < 67 ∧ (ρ + 3) % 4 ≤ 1) : InStep (σ + 1) ρ := by
  unfold InStep at *; omega

theorem inStep_sender_ackHigh (σ ρ : Nat) (h : InStep σ ρ) (h0 : σ % 4 = 3) (h1 : σ < 68)
    (hl : ¬ (1 ≤ ρ ∧ ρ < 67 ∧ (ρ + 3) % 4 ≤ 1)) : InStep (σ + 1) ρ := by
  unfold InStep at *; omega

theorem inStep_sender_stbLow (ρ : Nat) (h : InStep 69 ρ) (hl : 69 ≤ ρ ∧ ρ ≤ 70) :
    InStep 70 ρ := by
  unfold InStep at *; omega

theorem inStep_sender_stbHigh (ρ : Nat) (h : InStep 71 ρ) (hl : ¬ (69 ≤ ρ ∧ ρ ≤ 70)) :
    InStep 72 ρ := by
  unfold InStep at *; omega

theorem inStep_receiver_free (σ ρ : Nat) (h : InStep σ ρ) (h0 : ρ % 2 = 0) :
    InStep σ (ρ + 1) := by
  unfold InStep at *; omega

theorem inStep_receiver_sync (σ : Nat) (h : InStep σ 1) (hl : ¬ (1 ≤ σ ∧ σ ≤ 2)) :
    InStep σ 2 := by
  unfold InStep at *; omega

theorem inStep_receiver_stbLow (σ ρ : Nat) (h : InStep σ ρ) (h0 : ρ % 4 = 3)
    (hl : 5 ≤ σ ∧ σ < 68 ∧ (σ + 3) % 4 ≤ 1) : InStep σ (ρ + 1) := by
  unfold InStep at *; omega

theorem inStep_receiver_stbHigh (σ ρ : Nat) (h : InStep σ ρ) (h0 : ρ % 4 = 1)
    (h2 : ρ < 67) (hl : ¬ (5 ≤ σ ∧ σ < 68 ∧ (σ + 3) % 4 ≤ 1)) : InStep σ (ρ + 1) := by
  unfold InStep at *; omega

theorem inStep_receiver_ackLow (σ : Nat) (h : InStep σ 67) (hl : 69 ≤ σ ∧ σ ≤ 70) :
    InStep σ 68 := by
  unfold InStep at *; omega

theorem inStep_receiver_ackHigh (σ : Nat) (h : InStep σ 69) (hl : ¬ (69 ≤ σ ∧ σ ≤ 70)) :
    InStep σ 70 := by
  unfold InStep at *; omega

theorem inStep_sample (σ ρ i : Nat) (h : InStep σ ρ) (hρ : ρ = 4 + 4 * i) : σ = 5 + 4 * i := by
  unfold InStep at *; omega

theorem SendPinsInv_step (cfg : Config) (o : Obs) (op pa : Nat) (s : State)
    (hin : s.pc.inSend = true) (hr : ResetInv s) (hd : SendDataInv op pa s)
    (h : SendPinsInv (op * 256 + pa) s) :
    SendPinsInv (op * 256 + pa) (step cfg o s) := by
  obtain ⟨pc, ⟨⟨dm, dl⟩, ⟨sm, sl⟩, ⟨am, al⟩, tt, ts⟩, op', pa', sc, rc, mask, i⟩ := s
  cases pc
  case L245 =>
    simp [SendDataInv] at hd
    obtain ⟨h1, h2, h3, -⟩ := hd
    have hb := andMask_eq_zero sc (op * 256 + pa) i h1 h2
    subst h3
    simp [SendPinsInv] at h
    obtain ⟨⟨h4, h5⟩, h6, h7⟩ := h
    subst h4 h5
    by_cases hm : andMask sc (0x8000 >>> i) = 0
    · simp [step, hm, SendPinsInv, digitalWrite, h6, h7, hb.1 hm]
    · have : (op * 256 + pa).testBit (15 - i) = true := by
        cases hx : (op * 256 + pa).testBit (15 - i)
        · exact absurd (hb.2 hx) hm
        · rfl
      simp [step, hm, SendPinsInv, h6, h7, this]
  all_goals
    (try (rename_i k; cases k)) <;> simp only [step, await] <;> (try split_ifs) <;>
    simp_all [SendPinsInv, ResetInv, Link.quiet, sense, Ret.target, pinMode, digitalWrite,
      setMode, startTimeoutTimer, Pc.inSend]

theorem RecvPinsInv_step (cfg : Config) (o : Obs) (s : State)
    (hin : s.pc.inReceive = true) (hr : ResetInv s) (h : RecvPinsInv cfg s) :
    RecvPinsInv cfg (step cfg o s) := by
  obtain ⟨pc, ⟨⟨dm, dl⟩, ⟨sm, sl⟩, ⟨am, al⟩, tt, ts⟩, op', pa', sc, rc, mask, i⟩ := s
  cases pc <;>
    (try (rename_i k; cases k)) <;> simp only [step, await] <;> (try split_ifs) <;>
    simp_all [RecvPinsInv, ResetInv, Link.quiet, sense, Ret.target, pinMode, digitalWrite,
      setMode, startTimeoutTimer, Pc.inReceive] <;> omega


theorem sense_output (l : Bool) : sense ⟨.OUTPUT, l⟩ = l := rfl

theorem sense_input (l : Bool) : sense ⟨.INPUT, l⟩ = HIGH := rfl

theorem sense_setMode_input (cfg : Config) (p : PinState) : sense (setMode cfg .INPUT p) = HIGH :=
  rfl

theorem sendLoopBound_of_data (op pa : Nat) (s : State) (hd : SendDataInv op pa s) :
    s.pc.sendLoopBound s.i := by
  obtain ⟨pc, link, op', pa', sc, rc, mask, i⟩ := s
  cases pc <;> simp_all [SendDataInv, Pc.sendLoopBound]

set_option maxHeartbeats 2000000 in
theorem sender_signals (w : Nat) (s : State) (hin : s.pc.inSend = true)
    (hf : s.pc.failing = false) (hb : s.pc.sendLoopBound s.i) (hp : SendPinsInv w s) :
    (sense s.link.stb = false ↔ 5 ≤ sRank s ∧ sRank s < 68 ∧ (sRank s + 3) % 4 ≤ 1) ∧
    (sense s.link.ack = false ↔ 69 ≤ sRank s ∧ sRank s ≤ 70) ∧
    (sRank s ≤ 3 → (sense s.link.dsa = false ↔ 1 ≤ sRank s ∧ sRank s ≤ 2)) ∧
    (∀ j, j < 16 → sRank s = 5 + 4 * j → sense s.link.dsa = w.testBit (15 - j)) := by
  obtain ⟨pc, link, op', pa', sc, rc, mask, i⟩ := s
  cases pc <;> (try (rename_i k; cases k)) <;>
    simp only [SendPinsInv, Pc.sendLoopBound, Link.quiet, sRank, Pc.inSend, Pc.failing] at * <;>
    simp_all [sense_output, sense_input] <;>
    (try omega) <;>
    (refine ⟨?_, ?_, ?_, ?_⟩ <;> intros <;> omega)

theorem receiver_signals (cfg : Config) (s : State) (hin : s.pc.inReceive = true)
    (hf : s.pc.failing = false) (hp : RecvPinsInv cfg s) :
    (sense s.link.ack = false ↔ 1 ≤ rRank s ∧ rRank s < 67 ∧ (rRank s + 3) % 4 ≤ 1) ∧
    (sense s.link.stb = false ↔ 69 ≤ rRank s ∧ rRank s ≤ 70) ∧
    sense s.link.dsa = true := by
  obtain ⟨pc, link, op', pa', sc, rc, mask, i⟩ := s
  cases pc <;> (try (rename_i k; cases k)) <;>
    simp only [RecvPinsInv, Link.quiet, rRank, Pc.inReceive, Pc.failing] at * <;>
    simp_all [sense_output, sense_input, sense_setMode_input] <;>
    (try omega)

theorem sender_rank_step (cfg : Config) (o : Obs) (s : State)
    (hin : s.pc.inSend = true) (hb : s.pc.sendLoopBound s.i)
    (hnf : (step cfg o s).pc.failing = false) :
    sRank (step cfg o s) = sRank s ∨
    (sRank (step cfg o s) = sRank s + 1 ∧
      (sRank s % 2 = 0 ∨
       (sRank s % 4 = 1 ∧ sRank s < 68 ∧ o.ack = false) ∨
       (sRank s % 4 = 3 ∧ sRank s < 68 ∧ o.ack = true) ∨
       (sRank s = 69 ∧ o.strobe = false) ∨ (sRank s = 71 ∧ o.strobe = true))) := by
  obtain ⟨pc, link, op', pa', sc, rc, mask, i⟩ := s
  cases pc <;> (try (rename_i k; cases k)) <;> simp only [step, await] at hnf ⊢ <;>
    (try split_ifs at hnf ⊢) <;>
    simp_all [Pc.sendLoopBound, sRank, Pc.inSend, Pc.failing, Ret.target, digitalRead] <;>
    (try omega)

theorem receiver_rank_step (cfg : Config) (o : Obs) (s : State)
    (hin : s.pc.inReceive = true) (hp : RecvPinsInv cfg s)
    (hnf : (step cfg o s).pc.failing = false) :
    rRank (step cfg o s) = rRank s ∨
    (rRank (step cfg o s) = rRank s + 1 ∧
      (rRank s % 2 = 0 ∨
       (rRank s = 1 ∧ o.data = true) ∨
       (rRank s % 4 = 3 ∧ rRank s < 67 ∧ o.strobe = false) ∨
       (rRank s % 4 = 1 ∧ 5 ≤ rRank s ∧ rRank s < 67 ∧ o.strobe = true) ∨
       (rRank s = 67 ∧ o.ack = false) ∨ (rRank s = 69 ∧ o.ack = true))) := by
  obtain ⟨pc, link, op', pa', sc, rc, mask, i⟩ := s
  cases pc <;> (try (rename_i k; cases k)) <;> simp only [step, await] at hnf ⊢ <;>
    (try split_ifs at hnf ⊢) <;>
    simp_all [RecvPinsInv, rRank, Pc.inReceive, Pc.failing, Ret.target, digitalRead] <;>
    (try omega)

theorem top_bits_succ (w k : Nat) :
    w / 2 ^ k = 2 * (w / 2 ^ (k + 1)) + (w.testBit k).toNat := by
  rw [pow_succ, ← Nat.div_div_eq_div_mul, Nat.testBit_to_div_mod]
  have := Nat.div_add_mod (w / 2 ^ k) 2
  have h2 := Nat.mod_lt (w / 2 ^ k) (by norm_num : 2 > 0)
  by_cases h : w / 2 ^ k % 2 = 1
  · simp [h]; omega
  · have : w / 2 ^ k % 2 = 0 := by omega
    simp [this]; omega

theorem RecvDataInv_step (cfg : Config) (o : Obs) (w : Nat) (s : State)
    (hin : s.pc.inReceive = true) (hp : RecvPinsInv cfg s) (h : RecvDataInv w s)
    (hw : w < 65536)
    (hs : s.pc = .L135 → digitalRead .DSApin o = w.testBit (15 - s.i)) :
    RecvDataInv w (step cfg o s) := by
  obtain ⟨pc, link, op', pa', sc, rc, mask, i⟩ := s
  cases pc
  case L135 =>
    simp only [RecvDataInv, RecvPinsInv] at h hp
    obtain ⟨h1, h2⟩ := h
    have hi : i < 16 := hp.2.2.2
    have hs' := hs rfl
    simp only at hs' h1 h2
    subst h1 h2
    have key := top_bits_succ w (15 - i)
    rw [show 15 - i + 1 = 16 - i by omega] at key
    cases hb : w.testBit (15 - i)
    · rw [hb] at hs' key
      simp [step, hs', RecvDataInv, key]
      have hp2 : 2 ^ (16 - i) = 2 * 2 ^ (15 - i) := by
        rw [show 16 - i = (15 - i) + 1 by omega, pow_succ]; ring
      rw [hp2]; ring
    · rw [hb] at hs' key
      simp [step, hs', RecvDataInv, key, lor_mask _ _ hi]
  case L125 =>
    simp [step, RecvDataInv, Nat.div_eq_of_lt hw] at h ⊢
    exact h
  case L127 =>
    simp only [RecvDataInv, RecvPinsInv] at h hp
    obtain ⟨h1, h2⟩ := h
    have hi : i ≤ 16 := hp.2.2.2
    by_cases hlt : i < 16
    · simp [step, hlt, RecvDataInv, h1, h2]
    · have : i = 16 := by omega
      subst this
      simp [step, RecvDataInv] at h2 ⊢
      exact h2
  case L147 =>
    simp only [RecvDataInv, RecvPinsInv] at h hp
    obtain ⟨h1, h2⟩ := h
    have hi : i < 16 := hp.2.2.2
    subst h1
    simp [step, RecvDataInv, Nat.shiftRight_add, h2, show 16 - (i + 1) = 15 - i by omega]
  all_goals
    (try (rename_i k; cases k)) <;> simp only [step, await] <;> (try split_ifs) <;>
    simp_all [RecvDataInv, RecvPinsInv, Pc.inReceive, Ret.target]

theorem inSend_step (cfg : Config) (o : Obs) (s : State) (h : s.pc.inSend = true) :
    (step cfg o s).pc.inSend = true := by
  obtain ⟨pc, link, op', pa', sc, rc, mask, i⟩ := s
  cases pc <;> (try (rename_i k; cases k)) <;> simp only [step, await] <;> (try split_ifs) <;>
    simp_all [Pc.inSend, Ret.target]

theorem inReceive_step (cfg : Config) (o : Obs) (s : State) (h : s.pc.inReceive = true) :
    (step cfg o s).pc.inReceive = true := by
  obtain ⟨pc, link, op', pa', sc, rc, mask, i⟩ := s
  cases pc <;> (try (rename_i k; cases k)) <;> simp only [step, await] <;> (try split_ifs) <;>
    simp_all [Pc.inReceive, Ret.target]

theorem SendDataInv_step (cfg : Config) (o : Obs) (op pa : Nat) (s : State)
    (hin : s.pc.inSend = true) (h : SendDataInv op pa s) :
    SendDataInv op pa (step cfg o s) := by
  have hb : SendBitsInv op pa s ((sendLevels (op * 256 + pa)).take (s.pc.sendSent s.i)) :=
    ⟨hin, h, fun _ => ⟨_, rfl⟩, fun _ => rfl⟩
  exact (SendBitsInv_step cfg o op pa s _ hb).2.1

theorem not_failing_of_step (cfg : Config) (o : Obs) (s : State)
    (h : (step cfg o s).pc.failing = false) : s.pc.failing = false := by
  cases hf : s.pc.failing
  · rfl
  · rw [failing_step cfg o s hf] at h
    exact h

theorem PairInv_sender (cfg : Config) (now : Nat) (op pa : Nat) (a b : State)
    (h : PairInv cfg op pa (a, b)) :
    PairInv cfg op pa (step cfg (observe b.link now) a, b) := by
  obtain ⟨ha, hb, hra, hrb, hd, hlive⟩ := h
  simp only at ha hb hra hrb hd hlive
  refine ⟨inSend_step cfg _ _ ha, hb, ResetInv_step cfg _ _ hra, hrb,
    SendDataInv_step cfg _ op pa a ha hd, ?_⟩
  simp only
  cases hfa : (step cfg (observe b.link now) a).pc.failing
  swap
  · exact Or.inl rfl
  cases hfb : b.pc.failing
  swap
  · exact Or.inr (Or.inl rfl)
  have hfa0 := not_failing_of_step cfg _ _ hfa
  rcases hlive with hl | hl | ⟨hpa, hpb, hstep, hdata⟩
  · rw [hfa0] at hl; exact Bool.noConfusion hl
  · rw [hfb] at hl; exact Bool.noConfusion hl
  refine Or.inr (Or.inr ⟨SendPinsInv_step cfg _ op pa a ha hra hd hpa, hpb, ?_, hdata⟩)
  obtain ⟨hack, hstb, -⟩ := receiver_signals cfg b hb hfb hpb
  rcases sender_rank_step cfg (observe b.link now) a ha (sendLoopBound_of_data op pa a hd) hfa
    with hr | ⟨hr, hg⟩
  · rw [hr]; exact hstep
  · rw [hr]
    rcases hg with hg | ⟨h1, h2, h3⟩ | ⟨h1, h2, h3⟩ | ⟨h1, h3⟩ | ⟨h1, h3⟩
    · exact inStep_sender_free _ _ hstep hg
    · exact inStep_sender_ackLow _ _ hstep h1 h2 (hack.1 h3)
    · refine inStep_sender_ackHigh _ _ hstep h1 h2 (fun hc => ?_)
      have := hack.2 hc
      rw [show sense b.link.ack = (observe b.link now).ack from rfl, h3] at this
      exact Bool.noConfusion this
    · rw [h1] at hstep ⊢
      exact inStep_sender_stbLow _ hstep (hstb.1 h3)
    · rw [h1] at hstep ⊢
      refine inStep_sender_stbHigh _ hstep (fun hc => ?_)
      have := hstb.2 hc
      rw [show sense b.link.stb = (observe b.link now).strobe from rfl, h3] at this
      exact Bool.noConfusion this


theorem rRank_L135 (s : State) (h : s.pc = .L135) : rRank s = 4 + 4 * s.i := by
  obtain ⟨pc, link, op', pa', sc, rc, mask, i⟩ := s
  simp only at h
  subst h
  rfl

theorem recv_i_lt (cfg : Config) (s : State) (h : s.pc = .L135) (hp : RecvPinsInv cfg s) :
    s.i < 16 := by
  obtain ⟨pc, link, op', pa', sc, rc, mask, i⟩ := s
  simp only at h
  subst h
  exact hp.2.2.2

theorem PairInv_receiver (cfg : Config) (now : Nat) (op pa : Nat) (a b : State)
    (hw : op * 256 + pa < 65536) (h : PairInv cfg op pa (a, b)) :
    PairInv cfg op pa (a, step cfg (observe a.link now) b) := by
  obtain ⟨ha, hb, hra, hrb, hd, hlive⟩ := h
  simp only at ha hb hra hrb hd hlive
  refine ⟨ha, inReceive_step cfg _ _ hb, hra, ResetInv_step cfg _ _ hrb, hd, ?_⟩
  simp only
  cases hfa : a.pc.failing
  swap
  · exact Or.inl rfl
  cases hfb : (step cfg (observe a.link now) b).pc.failing
  swap
  · exact Or.inr (Or.inl rfl)
  have hfb0 := not_failing_of_step cfg _ _ hfb
  rcases hlive with hl | hl | ⟨hpa, hpb, hstep, hdata⟩
  · rw [hfa] at hl; exact Bool.noConfusion hl
  · rw [hfb0] at hl; exact Bool.noConfusion hl
  obtain ⟨hstb, hack, hsync, hbit⟩ :=
    sender_signals (op * 256 + pa) a ha hfa (sendLoopBound_of_data op pa a hd) hpa
  have hsample : b.pc = .L135 →
      digitalRead .DSApin (observe a.link now) = (op * 256 + pa).testBit (15 - b.i) := by
    intro hpc
    have hσ := inStep_sample _ _ b.i hstep (rRank_L135 b hpc)
    exact hbit b.i (recv_i_lt cfg b hpc hpb) hσ
  refine Or.inr (Or.inr ⟨hpa, RecvPinsInv_step cfg _ b hb hrb hpb, ?_,
    RecvDataInv_step cfg _ _ b hb hpb hdata hw hsample⟩)
  rcases receiver_rank_step cfg (observe a.link now) b hb hpb hfb with hr | ⟨hr, hg⟩
  · rw [hr]; exact hstep
  · rw [hr]
    rcases hg with hg | ⟨h1, h3⟩ | ⟨h1, h2, h3⟩ | ⟨h1, h2, h2', h3⟩ | ⟨h1, h3⟩ | ⟨h1, h3⟩
    · exact inStep_receiver_free _ _ hstep hg
    · rw [h1] at hstep ⊢
      refine inStep_receiver_sync _ hstep (fun hc => ?_)
      have hle : sRank a ≤ 3 := by
        unfold InStep at hstep
        omega
      have := (hsync hle).2 hc
      rw [show sense a.link.dsa = (observe a.link now).data from rfl, h3] at this
      exact Bool.noConfusion this
    · exact inStep_receiver_stbLow _ _ hstep h1 (hstb.1 h3)
    · refine inStep_receiver_stbHigh _ _ hstep h1 h2' (fun hc => ?_)
      have := hstb.2 hc
      rw [show sense a.link.stb = (observe a.link now).strobe from rfl, h3] at this
      exact Bool.noConfusion this
    · rw [h1] at hstep ⊢
      exact inStep_receiver_ackLow _ hstep (hack.1 h3)
    · rw [h1] at hstep ⊢
      refine inStep_receiver_ackHigh _ hstep (fun hc => ?_)
      have := hack.2 hc
      rw [show sense a.link.ack = (observe a.link now).ack from rfl, h3] at this
      exact Bool.noConfusion this

theorem PairInv_run (cfg : Config) (op pa : Nat) (hw : op * 256 + pa < 65536)
    (sched : List Tick) (p : State × State) (h : PairInv cfg op pa p) :
    PairInv cfg op pa (runPair cfg sched p) := by
  induction sched generalizing p with
  | nil => exact h
  | cons t ts ih =>
    apply ih
    obtain ⟨a, b⟩ := p
    unfold stepPair
    split
    · exact PairInv_sender cfg t.now op pa a b h
    · exact PairInv_receiver cfg t.now op pa a b hw h

theorem idle_quiet (l : Link) (h : l.idle) : l.quiet := by
  obtain ⟨h1, h2, h3⟩ := h
  simp [Link.quiet, h1, h2, h3, sense_input]

theorem PairInv_init (cfg : Config) (op pa : Nat) (s r : State) (hs : s.link.idle)
    (hr : r.link.idle) :
    PairInv cfg op pa (callSendMessage op pa s, callReceiveMessage r) := by
  refine ⟨rfl, rfl, ?_, ?_, ?_, Or.inr (Or.inr ⟨?_, ?_, ?_, ?_⟩)⟩
  · simp [ResetInv, callSendMessage]
  · simp [ResetInv, callReceiveMessage]
  · simp [SendDataInv, callSendMessage]
  · simpa [SendPinsInv, callSendMessage] using idle_quiet _ hs
  · simpa [RecvPinsInv, callReceiveMessage] using idle_quiet _ hr
  · simp [InStep, sRank, rRank, callSendMessage, callReceiveMessage]
  · simp [RecvDataInv, callReceiveMessage]

/-- C1: a sender executing `sendMessage(opcode, parameter)` and a receiver executing
`receiveMessage` are run against each other from idle links, under any schedule that
interleaves their source lines and with any clock readings, each side reading on every
line the level driven by the other side's pin (`HIGH` when that pin is not an output). If
both calls have returned true, the receiver's output opcode and parameter are exactly the
sender's opcode and parameter (both bytes). -/
theorem C1_round_trip (cfg : Config) (sched : List Tick) (s r : State) (opcode parameter : Nat)
    (hop : opcode < 256) (hpa : parameter < 256) (hs : s.link.idle) (hr : r.link.idle)
    (hsend : (runPair cfg sched
      (callSendMessage opcode parameter s, callReceiveMessage r)).1.pc = .done true)
    (hrecv : (runPair cfg sched
      (callSendMessage opcode parameter s, callReceiveMessage r)).2.pc = .done true) :
    (runPair cfg sched (callSendMessage opcode parameter s, callReceiveMessage r)).2.opcode =
      opcode ∧
    (runPair cfg sched (callSendMessage opcode parameter s, callReceiveMessage r)).2.parameter =
      parameter := by
  have hw : opcode * 256 + parameter < 65536 := by omega
  have hinv := PairInv_run cfg opcode parameter hw sched _
    (PairInv_init cfg opcode parameter s r hs hr)
  obtain ⟨-, -, -, -, -, hlive⟩ := hinv
  rcases hlive with hl | hl | ⟨-, -, -, hdata⟩
  · rw [hsend] at hl; exact Bool.noConfusion hl
  · rw [hrecv] at hl; exact Bool.noConfusion hl
  · unfold RecvDataInv at hdata
    rw [hrecv] at hdata
    obtain ⟨h1, h2⟩ := hdata rfl
    refine ⟨?_, ?_⟩
    · rw [h2]; unfold highByte; omega
    · rw [h1]; unfold lowByte; omega

theorem C1_witness :
    (runPair cfg0 (sched0 410)
      (callSendMessage 0xA5 0x3C state0, callReceiveMessage state0)).2.opcode = 0xA5 ∧
    (runPair cfg0 (sched0 410)
      (callSendMessage 0xA5 0x3C state0, callReceiveMessage state0)).2.parameter = 0x3C :=
  C1_round_trip cfg0 (sched0 410) state0 state0 0xA5 0x3C (by decide) (by decide)
    (by decide) (by decide) (by decide) (by decide)


/-! ## C11: the opcode-only overload -/

theorem run_shift (cfg : Config) (env : Nat → Obs) (n : Nat) (s : State) :
    run cfg env (n + 1) s = run cfg (fun k => env (k + 1)) n (step cfg (env 0) s) := by
  rw [Nat.add_comm, run_add]
  simp only [Nat.add_comm 1]
  rfl

theorem collect_shift {α : Type} (f : Obs → State → Option α) (cfg : Config) (env : Nat → Obs)
    (n : Nat) (s : State) :
    collect f cfg env (n + 1) s =
      (f (env 0) s).toList ++ collect f cfg (fun k => env (k + 1)) n (step cfg (env 0) s) := by
  induction n with
  | zero => simp [collect, run]
  | succ n ih =>
    rw [collect_succ, ih, collect_succ, run_shift, List.append_assoc]

theorem step_callSendOpcode (cfg : Config) (o : Obs) (opcode : Nat) (s : State) :
    step cfg o (callSendOpcode opcode s) = callSendMessage opcode 0 s := rfl

theorem testBit_shl8 (op j : Nat) (hj : j < 8) : (op * 256).testBit j = false := by
  rw [show op * 256 = 2 ^ 8 * op by omega, Nat.testBit_mul_pow_two]
  simp
  omega

/-- C11: the overload `sendMessage(opcode)` only sets the parameter to 0 and enters
`sendMessage(opcode, parameter)`: its forwarding step touches no pin and reads nothing, and
after it the machine is in exactly the state of a call `sendMessage(opcode, 0)`. Hence,
whatever the line and clock readings, `n` steps later the two executions are in the same
machine state (same pins, same program counter, hence the same result once returned), the
pin states after each step are the same, and the Data states presented at the Strobe
pulses are the same: an initial segment of the bits of the word `opcode * 256`, MSB first,
and all 16 of them once the call has returned true. The low byte of that word is 0 and its
last 8 bits are all driven `LOW`. -/
theorem C11_opcode_only (cfg : Config) (env : Nat → Obs) (opcode : Nat) (s : State)
    (n : Nat) :
    (run cfg env 1 (callSendOpcode opcode s)).link = s.link ∧
    run cfg env (n + 1) (callSendOpcode opcode s) =
      run cfg (fun k => env (k + 1)) n (callSendMessage opcode 0 s) ∧
    (∀ b, (run cfg env (n + 1) (callSendOpcode opcode s)).pc = .done b ↔
      (run cfg (fun k => env (k + 1)) n (callSendMessage opcode 0 s)).pc = .done b) ∧
    lineStates cfg env (n + 1) (callSendOpcode opcode s) =
      (s.link.dsa, s.link.stb, s.link.ack) ::
        lineStates cfg (fun k => env (k + 1)) n (callSendMessage opcode 0 s) ∧
    strobedData cfg env (n + 1) (callSendOpcode opcode s) =
      strobedData cfg (fun k => env (k + 1)) n (callSendMessage opcode 0 s) ∧
    (∃ j, strobedData cfg env (n + 1) (callSendOpcode opcode s) =
      (sendLevels (opcode * 256)).take j) ∧
    ((run cfg env (n + 1) (callSendOpcode opcode s)).pc = .done true →
      strobedData cfg env (n + 1) (callSendOpcode opcode s) = sendLevels (opcode * 256)) ∧
    lowByte (opcode * 256) = 0 ∧
    (sendLevels (opcode * 256)).drop 8 = List.replicate 8 ⟨.OUTPUT, LOW⟩ := by
  have hrun : ∀ m, run cfg env (m + 1) (callSendOpcode opcode s) =
      run cfg (fun k => env (k + 1)) m (callSendMessage opcode 0 s) := by
    intro m
    rw [run_shift, step_callSendOpcode]
  have htrace : strobedData cfg env (n + 1) (callSendOpcode opcode s) =
      strobedData cfg (fun k => env (k + 1)) n (callSendMessage opcode 0 s) := by
    unfold strobedData
    rw [collect_shift, step_callSendOpcode]
    rfl
  have hinv := SendBitsInv_run cfg (fun k => env (k + 1)) opcode 0 s n
  obtain ⟨-, -, hf, hnf⟩ := hinv
  simp only [Nat.add_zero] at hf hnf
  refine ⟨rfl, hrun n, ?_, ?_, htrace, ?_, ?_, ?_, ?_⟩
  · intro b
    rw [hrun n]
  · unfold lineStates
    rw [List.range_succ_eq_map, List.map_cons, List.map_map]
    refine congrArg₂ List.cons rfl (List.map_congr_left fun k _ => ?_)
    simp only [Function.comp, Nat.succ_eq_add_one]
    rw [hrun (k + 1)]
  · rw [htrace]
    cases hx : (run cfg (fun k => env (k + 1)) n (callSendMessage opcode 0 s)).pc.failing
    · exact ⟨_, hnf hx⟩
    · exact hf hx
  · intro hpc
    rw [hrun n] at hpc
    rw [htrace]
    have := hnf (by rw [hpc]; rfl)
    rw [hpc] at this
    simpa [Pc.sendSent, sendLevels_length] using this
  · simp [lowByte]
  · apply List.ext_getElem
    · simp [sendLevels, wordBits]
    · intro k h1 h2
      simp only [List.length_replicate] at h2
      simp only [sendLevels, wordBits, List.getElem_drop, List.getElem_map, List.getElem_range,
        List.getElem_replicate]
      rw [testBit_shl8 _ _ (by omega)]

theorem C11_witness :
    run cfg0 envToggle (173 + 1) (callSendOpcode 0xA5 state1) =
      run cfg0 (fun k => envToggle (k + 1)) 173 (callSendMessage 0xA5 0 state1) ∧
    (run cfg0 envToggle (173 + 1) (callSendOpcode 0xA5 state1)).pc = .done true ∧
    strobedData cfg0 envToggle (173 + 1) (callSendOpcode 0xA5 state1) =
      sendLevels (0xA5 * 256) :=
  ⟨(C11_opcode_only cfg0 envToggle 0xA5 state1 173).2.1, by decide,
   (C11_opcode_only cfg0 envToggle 0xA5 state1 173).2.2.2.2.2.2.1 (by decide)⟩

/-! ## The receiver's pins from any start -/

theorem RecvLineInv_step (cfg : Config) (o : Obs) (s : State)
    (h : s.pc.inReceive = true ∧ ResetInv s ∧ RecvLineInv cfg s) :
    (step cfg o s).pc.inReceive = true ∧ ResetInv (step cfg o s) ∧
      RecvLineInv cfg (step cfg o s) := by
  obtain ⟨hin, hr, hl⟩ := h
  refine ⟨inReceive_step cfg o s hin, ResetInv_step cfg o s hr, ?_⟩
  obtain ⟨pc, link, op', pa', sc, rc, mask, i⟩ := s
  obtain ⟨⟨dm, dl⟩, ⟨sm, sl⟩, ⟨am, al⟩, tt, ts⟩ := link
  cases pc <;> (try (rename_i k; cases k)) <;> simp only [step, await] <;> (try split_ifs) <;>
    simp_all [RecvLineInv, ResetInv, Pc.inReceive, pinMode, digitalWrite, setMode,
      startTimeoutTimer, Ret.target, sense] <;>
    omega

theorem RecvLineInv_run (cfg : Config) (env : Nat → Obs) (s : State) (n : Nat) :
    (run cfg env n (callReceiveMessage s)).pc.inReceive = true ∧
      ResetInv (run cfg env n (callReceiveMessage s)) ∧
      RecvLineInv cfg (run cfg env n (callReceiveMessage s)) :=
  run_inv cfg env (RecvLineInv_step cfg) (by simp [callReceiveMessage, Pc.inReceive, ResetInv,
    RecvLineInv]) n

theorem beforeReset_step (cfg : Config) (o : Obs) (s : State)
    (h : s.pc.inReceive = true ∧ s.pc.beforeReset = false) :
    (step cfg o s).pc.inReceive = true ∧ (step cfg o s).pc.beforeReset = false := by
  obtain ⟨hin, hb⟩ := h
  refine ⟨inReceive_step cfg o s hin, ?_⟩
  obtain ⟨pc, link, op', pa', sc, rc, mask, i⟩ := s
  cases pc <;> (try (rename_i k; cases k)) <;> simp only [step, await] <;> (try split_ifs) <;>
    simp_all [Pc.beforeReset, Pc.inReceive, Ret.target]

theorem beforeReset_run (cfg : Config) (env : Nat → Obs) (s : State) (n : Nat) (hn : 3 ≤ n) :
    (run cfg env n (callReceiveMessage s)).pc.beforeReset = false := by
  obtain ⟨d, rfl⟩ := Nat.exists_eq_add_of_le hn
  rw [run_add]
  exact (run_inv cfg _ (beforeReset_step cfg)
    (by simp [run, step, callReceiveMessage, Pc.inReceive, Pc.beforeReset]) d).2

/-- From the third step of `receiveMessage` on, a peer reads `HIGH` on Data. -/
theorem recv_data_high (cfg : Config) (env : Nat → Obs) (s : State) (n : Nat) (hn : 3 ≤ n) :
    sense (run cfg env n (callReceiveMessage s)).link.dsa = HIGH := by
  have hb := beforeReset_run cfg env s n hn
  obtain ⟨hin, hr, hl⟩ := RecvLineInv_run cfg env s n
  generalize run cfg env n (callReceiveMessage s) = x at hb hin hr hl
  obtain ⟨pc, link, op', pa', sc, rc, mask, i⟩ := x
  obtain ⟨⟨dm, dl⟩, ⟨sm, sl⟩, ⟨am, al⟩, tt, ts⟩ := link
  cases pc <;> (try (rename_i k; cases k)) <;>
    simp_all [RecvLineInv, ResetInv, Pc.beforeReset, Pc.inReceive, Link.idle, sense]

/-! ## C12: phase-determined line ownership -/

/-- Outside corresponding phases the sets can meet: under a schedule that lets the receiver
run on after its last bit while the sender is still polling at line 257, the receiver
reaches its poll of line 157 with Data and Strobe as outputs while the sender still has
Data and Strobe as outputs. -/
theorem outputs_meet_across_phases :
    (runPair cfg0 (sched0 353 ++ List.replicate 7 ⟨false, 0⟩)
      (callSendMessage 0xA5 0x3C state0, callReceiveMessage state0)).1.pc = .L257 ∧
    (runPair cfg0 (sched0 353 ++ List.replicate 7 ⟨false, 0⟩)
      (callSendMessage 0xA5 0x3C state0, callReceiveMessage state0)).2.pc = .L157 ∧
    outputLines (runPair cfg0 (sched0 353 ++ List.replicate 7 ⟨false, 0⟩)
      (callSendMessage 0xA5 0x3C state0, callReceiveMessage state0)).1.link =
        [.DSApin, .STBpin] ∧
    outputLines (runPair cfg0 (sched0 353 ++ List.replicate 7 ⟨false, 0⟩)
      (callSendMessage 0xA5 0x3C state0, callReceiveMessage state0)).2.link =
        [.DSApin, .STBpin] := by
  decide

/-! ## C13: the success indicator -/

theorem enter_sawAckLow (cfg : Config) (o : Obs) (s : State) (hin : s.pc.inReceive = true)
    (h1 : s.pc.sawAckLow = false) (h2 : (step cfg o s).pc.sawAckLow = true) :
    s.pc = .L157 ∧ digitalRead .ACKpin o = LOW := by
  obtain ⟨pc, link, op', pa', sc, rc, mask, i⟩ := s
  cases pc <;> (try (rename_i k; cases k)) <;> simp only [step, await] at h2 <;>
    (try split_ifs at h2) <;>
    simp_all [Pc.sawAckLow, Pc.inReceive, Ret.target]

/-- C13: in every execution of `receiveMessage`, from any machine state and under any line
and clock readings: when the machine stands at line 167 (about to drive Strobe `LOW`), an
earlier poll of line 157 has read Acknowledge `LOW`, the Data pin is an output whose latch
is `HIGH`, and the step that follows makes Strobe an output driving `LOW` and leaves Data
as it is. The latch is the one written by line 311 of the first `resetPins`: at every
program counter from line 111 to line 179 it is `HIGH`. From the third step of the call on
a peer reads `HIGH` on Data, so a sender whose final check (line 279) samples Data then
does not find it `LOW`. -/
theorem C13_success_indicator (cfg : Config) (env : Nat → Obs) (s : State) (n : Nat) :
    ((run cfg env n (callReceiveMessage s)).pc = .L167 →
      (∃ k, k < n ∧ (run cfg env k (callReceiveMessage s)).pc = .L157 ∧
        digitalRead .ACKpin (env k) = LOW) ∧
      (run cfg env n (callReceiveMessage s)).link.dsa = ⟨.OUTPUT, HIGH⟩ ∧
      (run cfg env (n + 1) (callReceiveMessage s)).link.dsa = ⟨.OUTPUT, HIGH⟩ ∧
      (run cfg env (n + 1) (callReceiveMessage s)).link.stb = ⟨.OUTPUT, LOW⟩) ∧
    (111 ≤ (run cfg env n (callReceiveMessage s)).pc.line →
      (run cfg env n (callReceiveMessage s)).pc.line ≤ 179 →
      (run cfg env n (callReceiveMessage s)).link.dsa.level = HIGH) ∧
    (3 ≤ n → ∀ now (x : State),
      (observe (run cfg env n (callReceiveMessage s)).link now).data = HIGH ∧
      dataLowAtCheck (observe (run cfg env n (callReceiveMessage s)).link now) x = false) := by
  obtain ⟨hin, -, hl⟩ := RecvLineInv_run cfg env s n
  refine ⟨?_, ?_, ?_⟩
  · intro hpc
    constructor
    · obtain ⟨k, hk, h1, h2⟩ := first_entry cfg env (fun x => x.pc.sawAckLow)
        (callReceiveMessage s) rfl n (by simp only [hpc]; rfl)
      exact ⟨k, hk, enter_sawAckLow cfg _ _ (RecvLineInv_run cfg env s k).1 h1 h2⟩
    · rw [run_succ]
      generalize run cfg env n (callReceiveMessage s) = x at hpc hl
      obtain ⟨pc, link, op', pa', sc, rc, mask, i⟩ := x
      simp only at hpc
      subst hpc
      simp only [RecvLineInv] at hl
      simp [step, digitalWrite, hl.1, hl.2.1]
  · generalize run cfg env n (callReceiveMessage s) = x at hin hl
    obtain ⟨pc, link, op', pa', sc, rc, mask, i⟩ := x
    cases pc <;> (try (rename_i k; cases k)) <;>
      simp_all [RecvLineInv, Pc.line, Pc.inReceive]
  · intro hn now x
    have h := recv_data_high cfg env s n hn
    refine ⟨h, ?_⟩
    simp [dataLowAtCheck, digitalRead, observe, h]

theorem C13_witness :
    (run cfg0 envToggle 150 (callReceiveMessage state1)).pc = .L167 ∧
    state1.link.dsa = ⟨.OUTPUT, LOW⟩ ∧
    (run cfg0 envToggle 150 (callReceiveMessage state1)).link.dsa = ⟨.OUTPUT, HIGH⟩ ∧
    (run cfg0 envToggle (150 + 1) (callReceiveMessage state1)).link.stb = ⟨.OUTPUT, LOW⟩ :=
  ⟨by decide, rfl,
   ((C13_success_indicator cfg0 envToggle state1 150).1 (by decide)).2.1,
   ((C13_success_indicator cfg0 envToggle state1 150).1 (by decide)).2.2.2⟩

/-! ## C14: the receiver's failure-signalling branch -/

theorem recvLoop_exit (cfg : Config) (o : Obs) (s : State) (h : s.pc.recvLoop = true)
    (hl : RecvLineInv cfg s) :
    (step cfg o s).pc.recvLoop = true ∨ (step cfg o s).pc = .R307 .retFalse ∨
      ((step cfg o s).pc = .L151 ∧ s.pc = .L127 ∧ s.i = 16) := by
  obtain ⟨pc, link, op', pa', sc, rc, mask, i⟩ := s
  cases pc <;> (try (rename_i k; cases k)) <;> simp only [step, await] <;> (try split_ifs) <;>
    simp_all [Pc.recvLoop, RecvLineInv]
  omega

theorem data_stays_high (cfg : Config) (o : Obs) (s : State) (hin : s.pc.inReceive = true)
    (hl : RecvLineInv cfg s) (h : sense s.link.dsa = HIGH) :
    sense (step cfg o s).link.dsa = HIGH := by
  obtain ⟨pc, link, op', pa', sc, rc, mask, i⟩ := s
  obtain ⟨⟨dm, dl⟩, ⟨sm, sl⟩, ⟨am, al⟩, tt, ts⟩ := link
  cases pc <;> (try (rename_i k; cases k)) <;> simp only [step, await] <;> (try split_ifs) <;>
    simp_all [RecvLineInv, Pc.inReceive, pinMode, digitalWrite, setMode, startTimeoutTimer,
      sense]

/-- C14: in every execution of `receiveMessage`, from any machine state and under any line
and clock readings: whenever the machine stands at the test `i != 16` (line 164) the loop
counter `i` is 16, so the step takes the branch that skips `digitalWrite(_DSApin, LOW)` and
changes nothing but the program counter. A step inside the data-phase loop (lines 127-148)
stays in the loop, or enters the timeout path `resetPins(); return false;` and the call has
returned false six steps later, or leaves the loop at its head with `i = 16`. No step of
the call turns a Data pin that a peer reads `HIGH` into one it reads `LOW`, and from the
third step on (line 307 of the first `resetPins` has made Data an input) a peer reads Data
`HIGH` at every step: the receiver never drives Data `LOW`. -/
theorem C14_failure_branch_unreachable (cfg : Config) (env : Nat → Obs) (s : State)
    (n : Nat) :
    ((run cfg env n (callReceiveMessage s)).pc = .L164 →
      (run cfg env n (callReceiveMessage s)).i = 16 ∧
      run cfg env (n + 1) (callReceiveMessage s) =
        { run cfg env n (callReceiveMessage s) with pc := .L167 }) ∧
    ((run cfg env n (callReceiveMessage s)).pc.recvLoop = true →
      (run cfg env (n + 1) (callReceiveMessage s)).pc.recvLoop = true ∨
      ((run cfg env (n + 1) (callReceiveMessage s)).pc = .R307 .retFalse ∧
        (run cfg env (n + 7) (callReceiveMessage s)).pc = .done false) ∨
      ((run cfg env (n + 1) (callReceiveMessage s)).pc = .L151 ∧
        (run cfg env n (callReceiveMessage s)).pc = .L127 ∧
        (run cfg env n (callReceiveMessage s)).i = 16)) ∧
    (sense (run cfg env n (callReceiveMessage s)).link.dsa = HIGH →
      sense (run cfg env (n + 1) (callReceiveMessage s)).link.dsa = HIGH) ∧
    (3 ≤ n → sense (run cfg env n (callReceiveMessage s)).link.dsa = HIGH) := by
  obtain ⟨hin, -, hl⟩ := RecvLineInv_run cfg env s n
  refine ⟨?_, ?_, ?_, recv_data_high cfg env s n⟩
  · intro hpc
    rw [run_succ]
    generalize run cfg env n (callReceiveMessage s) = x at hpc hl
    obtain ⟨pc, link, op', pa', sc, rc, mask, i⟩ := x
    simp only at hpc
    subst hpc
    simp only [RecvLineInv] at hl
    simp [step, hl.2.2.2]
  · intro hloop
    rcases recvLoop_exit cfg (env n) _ hloop hl with h | h | h
    · exact Or.inl h
    · refine Or.inr (Or.inl ⟨h, ?_⟩)
      rw [show n + 7 = (n + 1) + 6 by omega, run_add]
      exact failing_run cfg _ _ (by rw [run_succ, h]; rfl)
    · exact Or.inr (Or.inr h)
  · exact data_stays_high cfg (env n) _ hin hl

theorem C14_witness :
    (run cfg0 envToggle 149 (callReceiveMessage state1)).pc = .L164 ∧
    (run cfg0 envToggle 149 (callReceiveMessage state1)).i = 16 ∧
    run cfg0 envToggle (149 + 1) (callReceiveMessage state1) =
      { run cfg0 envToggle 149 (callReceiveMessage state1) with pc := .L167 } ∧
    sense (run cfg0 envToggle 149 (callReceiveMessage state1)).link.dsa = HIGH :=
  ⟨by decide, (C14_failure_branch_unreachable cfg0 envToggle state1 149).1 (by decide) |>.1,
   (C14_failure_branch_unreachable cfg0 envToggle state1 149).1 (by decide) |>.2,
   (C14_failure_branch_unreachable cfg0 envToggle state1 149).2.2.2 (by decide)⟩

/-! ## C15: one deadline per phase -/

theorem millis_lt (o : Obs) : millis o < 2 ^ 32 := Nat.mod_lt _ (by norm_num)

set_option maxHeartbeats 2000000 in
theorem TimerInv_step (cfg : Config) (o : Obs) (s : State) (t : List Nat)
    (h : TimerInv cfg s t) :
    TimerInv cfg (step cfg o s)
      (t ++ (if s.pc.startsTimer then some (millis o) else none).toList) := by
  have hm := millis_lt o
  obtain ⟨pc, link, op', pa', sc, rc, mask, i⟩ := s
  cases pc <;> (try (rename_i k; cases k)) <;> simp only [step, await] <;> (try split_ifs) <;>
    simp_all [TimerInv, Pc.inSend, Pc.inReceive, Pc.failing, Pc.startsTimer, Pc.timersStarted,
      Ret.target, pinMode, digitalWrite, startTimeoutTimer]

theorem TimerInv_run (cfg : Config) (env : Nat → Obs) (c : State)
    (hc : c.pc = .L211 ∨ c.pc = .L108) (n : Nat) :
    TimerInv cfg (run cfg env n c) (timerReadings cfg env n c) :=
  collect_inv _ cfg env (TimerInv cfg) (fun o s t h => TimerInv_step cfg o s t h)
    (by rcases hc with hc | hc <;>
      simp [TimerInv, hc, Pc.inSend, Pc.inReceive, Pc.failing, Pc.timersStarted]) n

theorem collect_mono {α : Type} (f : Obs → State → Option α) (cfg : Config) (env : Nat → Obs)
    (s : State) (n m : Nat) (h : n ≤ m) : collect f cfg env n s <+: collect f cfg env m s := by
  obtain ⟨d, rfl⟩ := Nat.exists_eq_add_of_le h
  induction d with
  | zero => exact List.prefix_refl _
  | succ d ih =>
    rw [← Nat.add_assoc, collect_succ]
    exact (ih (Nat.le_add_right _ _)).trans (List.prefix_append _ _)

theorem poll_timers (pc : Pc) (φ : Phase) (hp : pc.polls ≠ none) (hφ : pc.phase = some φ) :
    pc.failing = false ∧ pc.timersStarted = φ.index := by
  cases φ <;> cases pc <;> (try (rename_i k; cases k)) <;>
    simp_all [Pc.polls, Pc.phase, Pc.failing, Pc.timersStarted, Phase.index]

theorem poll_step (cfg : Config) (o : Obs) (s : State) (pin : Pin) (lvl : Bool)
    (hp : s.pc.polls = some (pin, lvl)) (hu : digitalRead pin o ≠ lvl) :
    step cfg o s = if timeOut o s.link then { s with pc := .R307 .retFalse } else s := by
  obtain ⟨pc, link, op', pa', sc, rc, mask, i⟩ := s
  cases pc <;> (try (rename_i k; cases k)) <;>
    simp only [Pc.polls, Option.some.injEq, Prod.mk.injEq, reduceCtorEq] at hp <;>
    (obtain ⟨rfl, rfl⟩ := hp; simp_all [step, await, transmitRequested])

theorem timeOut_elapsed (o : Obs) (l : Link) (h : l.timeoutStartTime < 2 ^ 32) :
    timeOut o l = decide (elapsed l.timeoutStartTime (millis o) > l.timeoutTime) := by
  unfold timeOut elapsed
  rw [Nat.mod_eq_of_lt h]

theorem elapsed_eq (start now : Nat) (h1 : start ≤ now) (h2 : now < 2 ^ 32) :
    elapsed start now = now - start := by
  unfold elapsed
  rw [show now + 2 ^ 32 - start = (now - start) + 2 ^ 32 by omega, Nat.add_mod_right,
    Nat.mod_eq_of_lt (by omega)]

/-- C15: in every execution of `sendMessage(opcode, parameter)` (entered at line 211) or
`receiveMessage` (entered at line 108), from any machine state and under any line and clock
readings: at most three calls of `startTimeoutTimer` are executed, exactly three once the
call has returned true, and at every poll of a busy-wait of the first, second, third phase
exactly one, two, three have been executed, the timer fields holding `DSA_TIMEOUT` and the
reading taken by the last of them, the start of the enclosing phase. A poll that finds its
line condition unmet enters `resetPins(); return false;` (and the call has returned false
six steps later) iff the current reading of `millis()` minus that reading, in 32-bit
unsigned arithmetic, is strictly greater than `DSA_TIMEOUT`; otherwise it leaves the
machine state unchanged and polls again. Without wrap-around the difference is the plain
difference of the two readings. Any two polls of the same phase, in particular all 32
waits of the data phase, measure from the same reading. -/
theorem C15_per_phase_deadline (cfg : Config) (env : Nat → Obs) (c : State)
    (hc : c.pc = .L211 ∨ c.pc = .L108) (n : Nat) :
    (timerReadings cfg env n c).length ≤ 3 ∧
    ((run cfg env n c).pc = .done true → (timerReadings cfg env n c).length = 3) ∧
    (∀ φ, (run cfg env n c).pc.polls ≠ none → (run cfg env n c).pc.phase = some φ →
      (timerReadings cfg env n c).length = φ.index ∧
      (timerReadings cfg env n c)[φ.index - 1]? = some (run cfg env n c).link.timeoutStartTime ∧
      (run cfg env n c).link.timeoutTime = cfg.DSA_TIMEOUT) ∧
    (∀ φ pin lvl, (run cfg env n c).pc.polls = some (pin, lvl) →
      (run cfg env n c).pc.phase = some φ → digitalRead pin (env n) ≠ lvl →
      ∃ r, (timerReadings cfg env n c)[φ.index - 1]? = some r ∧
        ((run cfg env (n + 1) c).pc = .R307 .retFalse ↔
          elapsed r (millis (env n)) > cfg.DSA_TIMEOUT) ∧
        ((run cfg env (n + 1) c).pc = .R307 .retFalse →
          (run cfg env (n + 7) c).pc = .done false) ∧
        (¬ elapsed r (millis (env n)) > cfg.DSA_TIMEOUT →
          run cfg env (n + 1) c = run cfg env n c) ∧
        (r ≤ millis (env n) → elapsed r (millis (env n)) = millis (env n) - r)) ∧
    (∀ m φ, (run cfg env n c).pc.polls ≠ none → (run cfg env n c).pc.phase = some φ →
      (run cfg env m c).pc.polls ≠ none → (run cfg env m c).pc.phase = some φ →
      (run cfg env m c).link.timeoutStartTime = (run cfg env n c).link.timeoutStartTime) := by
  have hinv := TimerInv_run cfg env c hc
  have hpoll : ∀ k φ, (run cfg env k c).pc.polls ≠ none → (run cfg env k c).pc.phase = some φ →
      (timerReadings cfg env k c).length = φ.index ∧
      (timerReadings cfg env k c)[φ.index - 1]? = some (run cfg env k c).link.timeoutStartTime ∧
      (run cfg env k c).link.timeoutTime = cfg.DSA_TIMEOUT ∧
      (run cfg env k c).link.timeoutStartTime < 2 ^ 32 := by
    intro k φ hp hφ
    obtain ⟨hnf, hidx⟩ := poll_timers _ φ hp hφ
    obtain ⟨-, -, h3⟩ := hinv k
    obtain ⟨hlen, hrest⟩ := h3 hnf
    rw [hidx] at hlen hrest
    obtain ⟨h4, h5, h6⟩ := hrest (by cases φ <;> simp [Phase.index])
    refine ⟨hlen, ?_, h4, h5⟩
    rw [← h6, List.getLast?_eq_getElem?, hlen]
  refine ⟨?_, ?_, ?_, ?_, ?_⟩
  · obtain ⟨h1, h2, h3⟩ := hinv n
    cases hf : (run cfg env n c).pc.failing
    · obtain ⟨hlen, -⟩ := h3 hf
      rw [hlen]
      generalize (run cfg env n c).pc = pc
      cases pc <;> (try (rename_i k; cases k)) <;> simp [Pc.timersStarted]
    · exact h2 hf
  · intro hpc
    obtain ⟨-, -, h3⟩ := hinv n
    obtain ⟨hlen, -⟩ := h3 (by rw [hpc]; rfl)
    rw [hlen, hpc]
    rfl
  · intro φ hp hφ
    obtain ⟨h1, h2, h3, -⟩ := hpoll n φ hp hφ
    exact ⟨h1, h2, h3⟩
  · intro φ pin lvl hp hφ hu
    obtain ⟨-, h2, h3, h4⟩ := hpoll n φ (by rw [hp]; simp) hφ
    have hstep := poll_step cfg (env n) _ pin lvl hp hu
    rw [timeOut_elapsed _ _ h4, h3] at hstep
    refine ⟨_, h2, ?_, ?_, ?_, ?_⟩
    · rw [run_succ, hstep]
      by_cases ht : elapsed (run cfg env n c).link.timeoutStartTime (millis (env n)) >
          cfg.DSA_TIMEOUT
      · simp [ht]
      · simp only [ht, decide_False, Bool.false_eq_true, if_false, iff_false]
        intro hpc
        rw [hpc] at hp
        simp [Pc.polls] at hp
    · intro hpc
      rw [show n + 7 = (n + 1) + 6 by omega, run_add]
      exact failing_run cfg _ _ (by rw [hpc]; rfl)
    · intro ht
      rw [run_succ, hstep]
      simp [ht]
    · intro hle
      exact elapsed_eq _ _ hle (millis_lt _)
  · intro m φ hp hφ hp' hφ'
    obtain ⟨a1, a2, -, -⟩ := hpoll n φ hp hφ
    obtain ⟨b1, b2, -, -⟩ := hpoll m φ hp' hφ'
    have heq : timerReadings cfg env n c = timerReadings cfg env m c := by
      rcases Nat.le_total n m with hle | hle
      · exact (collect_mono _ cfg env c n m hle).eq_of_length (a1.trans b1.symm)
      · exact ((collect_mono _ cfg env c m n hle).eq_of_length (b1.trans a1.symm)).symm
    rw [heq, b2] at a2
    exact Option.some.inj a2

theorem C15_witness :
    (timerReadings cfg0 envToggle 172 (callSendMessage 0xA5 0x3C state1)).length = 3 ∧
    (timerReadings cfg0 envToggle 162 (callReceiveMessage state1)).length = 3 ∧
    (run cfg0 envSilent (14 + 7) (callSendMessage 0xA5 0x3C state1)).pc = .done false :=
  ⟨(C15_per_phase_deadline cfg0 envToggle (callSendMessage 0xA5 0x3C state1)
      (Or.inl rfl) 172).2.1 (by decide),
   (C15_per_phase_deadline cfg0 envToggle (callReceiveMessage state1)
      (Or.inr rfl) 162).2.1 (by decide),
   ((C15_per_phase_deadline cfg0 envSilent (callSendMessage 0xA5 0x3C state1)
      (Or.inl rfl) 14).2.2.2.1 .sync .ACKpin LOW (by decide) (by decide) (by decide)).elim
     fun _ hr => hr.2.2.1 (by decide)⟩

/-! ## C16: the command word in a 16-bit `int` -/

theorem composeCommand_eq (op pa : Nat) (hop : op < 256) (hpa : pa < 256) :
    composeCommand op pa = ((op * 256 + pa : Nat) : Int) - (if 128 ≤ op then 65536 else 0) := by
  unfold composeCommand wrap16
  split_ifs <;> omega

theorem composeCommand_toNat (op pa : Nat) :
    (composeCommand op pa % 65536).toNat = (op * 256 + pa) % 65536 :=
  wrap16_toNat op pa

theorem masksUpTo_succ (i : Nat) : masksUpTo (i + 1) = masksUpTo i ++ [0x8000 >>> i] := by
  simp [masksUpTo, List.range_succ]

theorem maskValues_take (j : Nat) (hj : j ≤ 16) : maskValues.take j = masksUpTo j := by
  interval_cases j <;> rfl

set_option maxHeartbeats 2000000 in
theorem SendMaskInv_step (cfg : Config) (o : Obs) (c : Int) (s : State)
    (t : List Nat) (h : SendMaskInv c s t) :
    SendMaskInv c (step cfg o s)
      (t ++ (if s.pc = .L245 then some s.mask else none).toList) := by
  obtain ⟨pc, link, op', pa', sc, rc, mask, i⟩ := s
  cases pc
  case L211 =>
    simp only [SendMaskInv, SendCommandInv, composeCommand] at h
    simpa [step, SendMaskInv, SendCommandInv, Pc.inSend, Pc.failing, Pc.sendTested] using h
  case L245 =>
    simp [SendMaskInv, SendCommandInv, Pc.inSend, Pc.failing, Pc.sendTested] at h
    obtain ⟨⟨h1, h2, h3⟩, h5⟩ := h
    subst h1 h3 h5
    by_cases hm : andMask sc (0x8000 >>> i) = 0 <;>
      simp [step, hm, SendMaskInv, SendCommandInv, Pc.inSend, Pc.failing, Pc.sendTested,
        h2, masksUpTo_succ]
  case L263 =>
    simp [SendMaskInv, SendCommandInv, Pc.inSend, Pc.failing, Pc.sendTested] at h
    obtain ⟨⟨h1, h2, h3⟩, h5⟩ := h
    subst h3 h5
    simp [step, SendMaskInv, SendCommandInv, Pc.inSend, Pc.failing, Pc.sendTested, h1,
      Nat.shiftRight_add]
    omega
  all_goals
    (try (rename_i k; cases k)) <;> simp only [step, await] <;> (try split_ifs) <;>
    simp_all [SendMaskInv, SendCommandInv, Pc.inSend, Pc.failing, Pc.sendTested, Ret.target] <;>
    first | exact ⟨_, by omega, rfl⟩ | (congr 1; omega)

theorem sendTested_le (c : Int) (s : State) (h : SendCommandInv c s) :
    s.pc.sendTested s.i ≤ 16 := by
  obtain ⟨pc, link, op', pa', sc, rc, mask, i⟩ := s
  cases pc <;> (try (rename_i k; cases k)) <;>
    simp_all [SendCommandInv, Pc.sendTested] <;> omega

theorem SendMaskInv_run (cfg : Config) (env : Nat → Obs) (op pa : Nat) (s : State) (n : Nat) :
    SendMaskInv (composeCommand op pa) (run cfg env n (callSendMessage op pa s))
      (testedMasks cfg env n (callSendMessage op pa s)) :=
  collect_inv _ cfg env (SendMaskInv (composeCommand op pa))
    (fun o s t h => SendMaskInv_step cfg o _ s t h)
    (by simp [SendMaskInv, SendCommandInv, callSendMessage, Pc.inSend, Pc.failing,
      Pc.sendTested, masksUpTo]) n

/-- C16: for `opcode` and `parameter` in 0..255, `int command` of
`sendMessage(opcode, parameter)` after lines 211-213, computed in 16-bit two's-complement
arithmetic, is `opcode * 256 + parameter` for `opcode < 0x80` and that number minus 65536
(a negative value) for `opcode >= 0x80`; for every `k < 16` the test
`command & (0x8000 >> k)` is non-zero iff bit `15 - k` of `opcode * 256 + parameter` is 1.
At every execution of line 245 the locals hold this command, a loop counter `i < 16` and
`mask = 0x8000 >> i`, so the test made there is non-zero iff bit `15 - i` of the word is 1.
The masks tested along a run are an initial segment of 0x8000, 0x4000, ..., 0x0001, and
all 16 of them, in this order, once the loop has been left at line 266 or the call has
returned true. -/
theorem C16_command_composition (cfg : Config) (env : Nat → Obs) (opcode parameter : Nat)
    (s : State) (hop : opcode < 256) (hpa : parameter < 256) :
    (run cfg env 3 (callSendMessage opcode parameter s)).scommand =
      composeCommand opcode parameter ∧
    composeCommand opcode parameter =
      ((opcode * 256 + parameter : Nat) : Int) - (if 0x80 ≤ opcode then 65536 else 0) ∧
    (composeCommand opcode parameter < 0 ↔ 0x80 ≤ opcode) ∧
    (∀ k, k < 16 → (andMask (composeCommand opcode parameter) (0x8000 >>> k) ≠ 0 ↔
      (opcode * 256 + parameter).testBit (15 - k) = true)) ∧
    (∀ n, (run cfg env n (callSendMessage opcode parameter s)).pc = .L245 →
      (run cfg env n (callSendMessage opcode parameter s)).scommand =
        composeCommand opcode parameter ∧
      (run cfg env n (callSendMessage opcode parameter s)).i < 16 ∧
      (run cfg env n (callSendMessage opcode parameter s)).mask =
        0x8000 >>> (run cfg env n (callSendMessage opcode parameter s)).i ∧
      (andMask (run cfg env n (callSendMessage opcode parameter s)).scommand
          (run cfg env n (callSendMessage opcode parameter s)).mask ≠ 0 ↔
        (opcode * 256 + parameter).testBit
          (15 - (run cfg env n (callSendMessage opcode parameter s)).i) = true)) ∧
    (∀ n, ∃ j, testedMasks cfg env n (callSendMessage opcode parameter s) =
      maskValues.take j) ∧
    (∀ n, (run cfg env n (callSendMessage opcode parameter s)).pc = .L266 ∨
        (run cfg env n (callSendMessage opcode parameter s)).pc = .done true →
      testedMasks cfg env n (callSendMessage opcode parameter s) = maskValues) ∧
    maskValues = (List.range 16).map (fun k => 0x8000 >>> k) := by
  have hval := composeCommand_eq opcode parameter hop hpa
  have htest : ∀ k, k < 16 →
      (andMask (composeCommand opcode parameter) (0x8000 >>> k) ≠ 0 ↔
        (opcode * 256 + parameter).testBit (15 - k) = true) := by
    intro k hk
    rw [Ne, andMask_eq_zero _ (opcode * 256 + parameter) k
      (composeCommand_toNat opcode parameter) hk]
    simp
  refine ⟨?_, hval, ?_, htest, ?_, ?_, ?_, by decide⟩
  · simp [run, step, callSendMessage, composeCommand]
  · rw [hval]
    split_ifs with h <;> simp [h] <;> omega
  · intro n hn
    obtain ⟨-, hc, -, -⟩ := SendMaskInv_run cfg env opcode parameter s n
    generalize run cfg env n (callSendMessage opcode parameter s) = x at hn hc
    obtain ⟨pc, link, op', pa', sc, rc, mask, i⟩ := x
    simp only at hn
    subst hn
    simp only [SendCommandInv] at hc
    obtain ⟨h1, h2, h3⟩ := hc
    refine ⟨h1, h2, h3, ?_⟩
    simp only
    rw [h1, h3]
    exact htest i h2
  · intro n
    obtain ⟨-, hc, hf, hnf⟩ := SendMaskInv_run cfg env opcode parameter s n
    have hle := sendTested_le _ _ hc
    cases hx : (run cfg env n (callSendMessage opcode parameter s)).pc.failing
    · exact ⟨_, by rw [maskValues_take _ hle]; exact hnf hx⟩
    · obtain ⟨j, hj, ht⟩ := hf hx
      exact ⟨j, by rw [maskValues_take _ hj]; exact ht⟩
  · intro n hpc
    obtain ⟨-, -, -, hnf⟩ := SendMaskInv_run cfg env opcode parameter s n
    have h16 : maskValues = masksUpTo 16 := by decide
    rcases hpc with hpc | hpc
    · have := hnf (by rw [hpc]; rfl)
      rw [hpc] at this
      rw [this, h16]; rfl
    · have := hnf (by rw [hpc]; rfl)
      rw [hpc] at this
      rw [this, h16]; rfl

theorem C16_witness :
    composeCommand 0xA5 0x3C = -23236 ∧
    (andMask (composeCommand 0xA5 0x3C) (0x8000 >>> 0) ≠ 0 ↔
      (0xA5 * 256 + 0x3C).testBit (15 - 0) = true) ∧
    testedMasks cfg0 envToggle 172 (callSendMessage 0xA5 0x3C state1) = maskValues :=
  ⟨by decide,
   (C16_command_composition cfg0 envToggle 0xA5 0x3C state1 (by decide) (by decide)).2.2.2.1
     0 (by decide),
   (C16_command_composition cfg0 envToggle 0xA5 0x3C state1 (by decide) (by decide)).2.2.2.2.2.2.1
     172 (Or.inr (by decide))⟩

end DSA
